import Mathlib

/-!
# viofs user-mode service (`viofs/svc/virtfs.c`): shallow embedding

The service translates WinFsp file-system callbacks into FUSE requests that
are sent, one at a time, through `DeviceIoControl` to the virtio-fs device.

Conventions of the embedding

* C unsigned integers are `Nat`; wrap-around is written `% 2 ^ w` at the
  operations where the C type truncates.  `int32_t error` is an `Int`.
* The remote side and the operating system are an environment `Env`: the
  device is a function of the history of requests sent so far, so every
  behaviour of the remote side in a sequential run is covered.
* Mutable process state (the unique-id counter, the trace of externally
  visible effects) is a `World` that is passed through every function.
* Output parameters (`FileInfo`, `*PFileContext`, `*PBytesTransferred`)
  are passed in and returned, so "left untouched" is expressible.
* `DBG` tracing writes to stderr only and is not modelled.
-/

namespace VirtFs

/-! ## Platform constants (Windows SDK, MSVC CRT) -/

abbrev STATUS_SUCCESS : Nat := 0
abbrev STATUS_UNSUCCESSFUL : Nat := 0xC0000001
abbrev STATUS_INVALID_HANDLE : Nat := 0xC0000008
abbrev STATUS_INVALID_PARAMETER : Nat := 0xC000000D
abbrev STATUS_ACCESS_DENIED : Nat := 0xC0000022
abbrev STATUS_OBJECT_NAME_INVALID : Nat := 0xC0000033
abbrev STATUS_OBJECT_NAME_NOT_FOUND : Nat := 0xC0000034
abbrev STATUS_INSUFFICIENT_RESOURCES : Nat := 0xC000009A
abbrev STATUS_DIRECTORY_NOT_EMPTY : Nat := 0xC0000101
abbrev STATUS_INVALID_DEVICE_REQUEST : Nat := 0xC0000010
abbrev STATUS_BUFFER_TOO_SMALL : Nat := 0xC0000023
abbrev STATUS_BUFFER_OVERFLOW : Nat := 0x80000005
abbrev STATUS_IO_DEVICE_ERROR : Nat := 0xC0000185

/-- The macro `NT_SUCCESS(Status)`: the status, read as a signed 32-bit
value, is non-negative. -/
def NT_SUCCESS (Status : Nat) : Bool := decide (Status < 0x80000000)

abbrev EPERM : Int := 1
abbrev ENOENT : Int := 2
abbrev EIO : Int := 5
abbrev EBADF : Int := 9
abbrev EINVAL : Int := 22

abbrev S_IFMT : Nat := 0xF000
abbrev S_IFDIR : Nat := 0x4000

abbrev FILE_ATTRIBUTE_DIRECTORY : Nat := 0x10
abbrev FILE_ATTRIBUTE_NORMAL : Nat := 0x80

abbrev FILE_READ_DATA : Nat := 0x1
abbrev FILE_WRITE_DATA : Nat := 0x2
abbrev FILE_APPEND_DATA : Nat := 0x4
abbrev FILE_DIRECTORY_FILE : Nat := 0x1

abbrev O_RDONLY : Nat := 0x0
abbrev O_WRONLY : Nat := 0x1
abbrev O_RDWR : Nat := 0x2
abbrev O_APPEND : Nat := 0x8
/-- The fallback `#define O_DIRECTORY 0x200000` of virtfs.c. -/
abbrev O_DIRECTORY : Nat := 0x200000

/-- The WinFsp cleanup flag `FspCleanupDelete`. -/
abbrev FspCleanupDelete : Nat := 0x01
/-- The WinFsp cleanup flag `FspCleanupSetAllocationSize`. -/
abbrev FspCleanupSetAllocationSize : Nat := 0x02
/-- The WinFsp cleanup flag `FspCleanupSetArchiveBit`. -/
abbrev FspCleanupSetArchiveBit : Nat := 0x10
/-- The WinFsp cleanup flag `FspCleanupSetLastAccessTime`. -/
abbrev FspCleanupSetLastAccessTime : Nat := 0x20
/-- The WinFsp cleanup flag `FspCleanupSetLastWriteTime`. -/
abbrev FspCleanupSetLastWriteTime : Nat := 0x40
/-- The WinFsp cleanup flag `FspCleanupSetChangeTime`. -/
abbrev FspCleanupSetChangeTime : Nat := 0x80

abbrev ALLOCATION_UNIT : Nat := 4096
abbrev OWNER_UID : Nat := 197609
abbrev OWNER_GID : Nat := 197121
abbrev MAX_PATH : Nat := 260
/-- The handle value `INVALID_HANDLE_VALUE`, `(HANDLE)-1` on 64 bits. -/
abbrev INVALID_HANDLE_VALUE : Nat := 2 ^ 64 - 1

/-! ## FUSE wire protocol constants

The headers `fuse.h` and `fusereq.h` that virtfs.c includes are missing from
the sources; their constants, sizes and record layouts are those of the FUSE
kernel protocol that the specification names. -/

/-- Modelled from the spec: the node id of the volume root, `FUSE_ROOT_ID` of
the missing fuse.h. -/
abbrev FUSE_ROOT_ID : Nat := 1

/-- Modelled from the spec: opcode `FUSE_LOOKUP` of the missing fuse.h. -/
abbrev FUSE_LOOKUP : Nat := 1
/-- Modelled from the spec: opcode `FUSE_GETATTR` of the missing fuse.h. -/
abbrev FUSE_GETATTR : Nat := 3
/-- Modelled from the spec: opcode `FUSE_SETATTR` of the missing fuse.h. -/
abbrev FUSE_SETATTR : Nat := 4
/-- Modelled from the spec: opcode `FUSE_MKDIR` of the missing fuse.h. -/
abbrev FUSE_MKDIR : Nat := 9
/-- Modelled from the spec: opcode `FUSE_UNLINK` of the missing fuse.h. -/
abbrev FUSE_UNLINK : Nat := 10
/-- Modelled from the spec: opcode `FUSE_RMDIR` of the missing fuse.h. -/
abbrev FUSE_RMDIR : Nat := 11
/-- Modelled from the spec: opcode `FUSE_RENAME` of the missing fuse.h. -/
abbrev FUSE_RENAME : Nat := 12
/-- Modelled from the spec: opcode `FUSE_OPEN` of the missing fuse.h. -/
abbrev FUSE_OPEN : Nat := 14
/-- Modelled from the spec: opcode `FUSE_READ` of the missing fuse.h. -/
abbrev FUSE_READ : Nat := 15
/-- Modelled from the spec: opcode `FUSE_WRITE` of the missing fuse.h. -/
abbrev FUSE_WRITE : Nat := 16
/-- Modelled from the spec: opcode `FUSE_STATFS` of the missing fuse.h. -/
abbrev FUSE_STATFS : Nat := 17
/-- Modelled from the spec: opcode `FUSE_RELEASE` of the missing fuse.h. -/
abbrev FUSE_RELEASE : Nat := 18
/-- Modelled from the spec: opcode `FUSE_FLUSH` of the missing fuse.h. -/
abbrev FUSE_FLUSH : Nat := 25
/-- Modelled from the spec: opcode `FUSE_INIT` of the missing fuse.h. -/
abbrev FUSE_INIT : Nat := 26
/-- Modelled from the spec: opcode `FUSE_OPENDIR` of the missing fuse.h. -/
abbrev FUSE_OPENDIR : Nat := 27
/-- Modelled from the spec: opcode `FUSE_RELEASEDIR` of the missing fuse.h. -/
abbrev FUSE_RELEASEDIR : Nat := 29
/-- Modelled from the spec: opcode `FUSE_CREATE` of the missing fuse.h. -/
abbrev FUSE_CREATE : Nat := 35
/-- Modelled from the spec: opcode `FUSE_READDIRPLUS` of the missing fuse.h. -/
abbrev FUSE_READDIRPLUS : Nat := 44

/-- Modelled from the spec: the GETATTR flag saying that a handle accompanies
the query, `FUSE_GETATTR_FH` of the missing fuse.h. -/
abbrev FUSE_GETATTR_FH : Nat := 1

/-- Modelled from the spec: the SETATTR validity bit for the mode,
`FATTR_MODE` of the missing fuse.h. -/
abbrev FATTR_MODE : Nat := 0x1
/-- Modelled from the spec: the SETATTR validity bit for the size,
`FATTR_SIZE` of the missing fuse.h. -/
abbrev FATTR_SIZE : Nat := 0x8
/-- Modelled from the spec: the SETATTR validity bit for the access time,
`FATTR_ATIME` of the missing fuse.h. -/
abbrev FATTR_ATIME : Nat := 0x10
/-- Modelled from the spec: the SETATTR validity bit for the write time,
`FATTR_MTIME` of the missing fuse.h. -/
abbrev FATTR_MTIME : Nat := 0x20
/-- Modelled from the spec: the SETATTR validity bit for the handle,
`FATTR_FH` of the missing fuse.h. -/
abbrev FATTR_FH : Nat := 0x40
/-- Modelled from the spec: the SETATTR validity bit for the change time,
`FATTR_CTIME` of the missing fuse.h. -/
abbrev FATTR_CTIME : Nat := 0x400

/-- Modelled from the spec: `sizeof(struct fuse_setattr_in)` of the missing
fuse.h. -/
abbrev sizeof_fuse_setattr_in : Nat := 88
/-- Modelled from the spec: `sizeof(struct fuse_flush_in)` of the missing
fuse.h. -/
abbrev sizeof_fuse_flush_in : Nat := 24
/-- Modelled from the spec: `sizeof(struct fuse_rename_in)` of the missing
fuse.h. -/
abbrev sizeof_fuse_rename_in : Nat := 8

/-- Modelled from the spec: `sizeof(struct fuse_in_header)` of the missing
fuse.h. -/
abbrev sizeof_fuse_in_header : Nat := 40
/-- Modelled from the spec: `sizeof(struct fuse_out_header)` of the missing
fuse.h. -/
abbrev sizeof_fuse_out_header : Nat := 16
/-- Modelled from the spec: `sizeof(struct fuse_getattr_in)` of the missing fuse.h. -/
abbrev sizeof_fuse_getattr_in : Nat := 16
/-- Modelled from the spec: `sizeof(struct fuse_create_in)` of the missing fuse.h. -/
abbrev sizeof_fuse_create_in : Nat := 16
/-- Modelled from the spec: `sizeof(struct fuse_mkdir_in)` of the missing fuse.h. -/
abbrev sizeof_fuse_mkdir_in : Nat := 8
/-- Modelled from the spec: `sizeof(struct fuse_open_in)` of the missing fuse.h. -/
abbrev sizeof_fuse_open_in : Nat := 8
/-- Modelled from the spec: `sizeof(struct fuse_release_in)` of the missing fuse.h. -/
abbrev sizeof_fuse_release_in : Nat := 24
/-- Modelled from the spec: `sizeof(struct fuse_read_in)` of the missing fuse.h. -/
abbrev sizeof_fuse_read_in : Nat := 40
/-- Modelled from the spec: `sizeof(struct fuse_write_in)` of the missing fuse.h. -/
abbrev sizeof_fuse_write_in : Nat := 40
/-- Modelled from the spec: `sizeof(struct fuse_attr)` of the missing fuse.h. -/
abbrev sizeof_fuse_attr : Nat := 88
/-- Modelled from the spec: `sizeof(struct fuse_entry_out)` of the missing fuse.h. -/
abbrev sizeof_fuse_entry_out : Nat := 128
/-- Modelled from the spec: `sizeof(struct fuse_open_out)` of the missing fuse.h. -/
abbrev sizeof_fuse_open_out : Nat := 16
/-- Modelled from the spec: `sizeof(struct fuse_attr_out)` of the missing fuse.h. -/
abbrev sizeof_fuse_attr_out : Nat := 104
/-- Modelled from the spec: `sizeof(struct fuse_write_out)` of the missing fuse.h. -/
abbrev sizeof_fuse_write_out : Nat := 8
/-- Modelled from the spec: `sizeof(struct fuse_direntplus)` of the missing
fuse.h, a `fuse_entry_out` followed by the fixed part of a `fuse_dirent`
(ino, off, namelen, type). -/
abbrev sizeof_fuse_direntplus : Nat := 152
/-- Modelled from the spec: `sizeof(struct fuse_init_in)` of the missing
fuse.h (major, minor, max_readahead, flags). -/
abbrev sizeof_fuse_init_in : Nat := 16
/-- Modelled from the spec: `sizeof(struct fuse_init_out)` of the missing
fuse.h. -/
abbrev sizeof_fuse_init_out : Nat := 64
/-- Modelled from the spec: `sizeof(struct fuse_statfs_out)` of the missing
fuse.h, a `struct fuse_kstatfs`. -/
abbrev sizeof_fuse_statfs_out : Nat := 80
/-- Modelled from the spec: the protocol major version,
`FUSE_KERNEL_VERSION` of the missing fuse.h. -/
abbrev FUSE_KERNEL_VERSION : Nat := 7
/-- Modelled from the spec: the INIT feature flag asking for the combined
lookup and attribute listing mode, `FUSE_DO_READDIRPLUS` of the missing
fuse.h. -/
abbrev FUSE_DO_READDIRPLUS : Nat := 0x2000
/-- The value of `sizeof(FSP_FSCTL_DIR_INFO)` (WinFsp). -/
abbrev sizeof_FSP_FSCTL_DIR_INFO : Nat := 104

/-! ## Data model -/

/-- Modelled from the spec: the request header `struct fuse_in_header` of the
missing fuse.h. -/
structure fuse_in_header where
  len : Nat
  opcode : Nat
  unique : Nat
  nodeid : Nat
  uid : Nat
  gid : Nat
  pid : Nat
  deriving DecidableEq, Repr

/-- Modelled from the spec: the record `struct fuse_setattr_in` of the
missing fuse.h, all its fields in layout order. -/
structure fuse_setattr_in where
  valid : Nat
  padding : Nat
  fh : Nat
  size : Nat
  lock_owner : Nat
  atime : Nat
  mtime : Nat
  ctime : Nat
  atimensec : Nat
  mtimensec : Nat
  ctimensec : Nat
  mode : Nat
  unused4 : Nat
  uid : Nat
  gid : Nat
  unused5 : Nat
  deriving DecidableEq, Repr

/-- Modelled from the spec: the opcode-specific fixed part that follows the
header in the request structures of the missing fusereq.h; only the fields
that virtfs.c assigns are listed, except for SETATTR whose record is zeroed
and carried whole. -/
inductive Payload where
  | none
  | setattr (s : fuse_setattr_in)
  | init (major minor max_readahead flags : Nat)
  | getattr (getattr_flags fh : Nat)
  | create (flags mode umask : Nat)
  | mkdir (mode umask : Nat)
  | open_ (flags : Nat)
  | release (fh flags release_flags lock_owner : Nat)
  | read (fh offset size read_flags lock_owner flags : Nat)
  | write (fh offset size write_flags lock_owner flags : Nat)
  | flush (fh unused padding lock_owner : Nat)
  | rename (newdir : Nat)
  deriving DecidableEq, Repr

/-- One call of `DeviceIoControl(Device, IOCTL_VIRTFS_FUSE_REQUEST, ...)` as
seen by the device: the request structure, the trailing bytes (inline name or
data), and the two buffer sizes passed along. -/
structure Request where
  hdr : fuse_in_header
  body : Payload
  data : List Nat
  InBufferSize : Nat
  OutBufferSize : Nat
  deriving DecidableEq, Repr

/-- Modelled from the spec: the wire attribute record `struct fuse_attr` of
the missing fuse.h. -/
structure fuse_attr where
  ino : Nat
  size : Nat
  blocks : Nat
  atime : Nat
  mtime : Nat
  ctime : Nat
  atimensec : Nat
  mtimensec : Nat
  ctimensec : Nat
  mode : Nat
  nlink : Nat
  uid : Nat
  gid : Nat
  rdev : Nat
  blksize : Nat
  padding : Nat
  deriving DecidableEq, Repr

/-- Modelled from the spec: the record `struct fuse_entry_out` of the missing
fuse.h. -/
structure fuse_entry_out where
  nodeid : Nat
  generation : Nat
  entry_valid : Nat
  attr_valid : Nat
  entry_valid_nsec : Nat
  attr_valid_nsec : Nat
  attr : fuse_attr
  deriving DecidableEq, Repr

/-- Modelled from the spec: the response header `struct fuse_out_header` of
the missing fuse.h. -/
structure fuse_out_header where
  len : Nat
  error : Int
  unique : Nat
  deriving DecidableEq, Repr

/-- Modelled from the spec: the record `struct fuse_kstatfs` of the missing
fuse.h, without its padding and spare words. -/
structure fuse_kstatfs where
  blocks : Nat
  bfree : Nat
  bavail : Nat
  files : Nat
  ffree : Nat
  bsize : Nat
  namelen : Nat
  frsize : Nat
  deriving DecidableEq, Repr

/-- What one `DeviceIoControl` call leaves behind: its BOOL result, the
value of `GetLastError()`, `BytesReturned`, and the output buffer as seen
through the response structure the caller declared (`entry` for
LOOKUP/MKDIR/CREATE, `fh` for OPEN/OPENDIR/CREATE, `attr` for GETATTR,
`write_size` for WRITE, `statfs` for STATFS, the raw bytes `buf` after the
header for READ and READDIRPLUS).  For READDIRPLUS `buf` stands for the bytes of `ReadOutBuf`
behind the header as the call leaves them; the buffer ends where `buf`
ends. -/
structure Reply where
  Result : Bool
  LastError : Nat
  BytesReturned : Nat
  hdr : fuse_out_header
  entry : fuse_entry_out
  fh : Nat
  attr : fuse_attr
  write_size : Nat
  buf : List Nat
  statfs : fuse_kstatfs
  deriving DecidableEq, Repr

/-- The metadata record `FSP_FSCTL_FILE_INFO` of WinFsp. -/
structure FSP_FSCTL_FILE_INFO where
  FileAttributes : Nat
  ReparseTag : Nat
  AllocationSize : Nat
  FileSize : Nat
  CreationTime : Nat
  LastAccessTime : Nat
  LastWriteTime : Nat
  ChangeTime : Nat
  IndexNumber : Nat
  HardLinks : Nat
  EaSize : Nat
  deriving DecidableEq, Repr

/-- The entry `FSP_FSCTL_DIR_INFO` handed to the directory buffer. -/
structure FSP_FSCTL_DIR_INFO where
  Size : Nat
  FileInfo : FSP_FSCTL_FILE_INFO
  FileNameBuf : List Nat
  deriving DecidableEq, Repr

/-- The record `FSP_FSCTL_VOLUME_INFO` of WinFsp; `VolumeLabel` holds the
characters of the label array. -/
structure FSP_FSCTL_VOLUME_INFO where
  TotalSize : Nat
  FreeSize : Nat
  VolumeLabelLength : Nat
  VolumeLabel : List Nat
  deriving DecidableEq, Repr

/-- The volume state `VIRTFS`. -/
structure VIRTFS where
  FileSystem : Nat
  Device : Nat
  OwnerUid : Nat
  OwnerGid : Nat
  deriving DecidableEq, Repr

/-- The per-open state `VIRTFS_FILE_CONTEXT`; `DirBuffer` is `none` while the
pointer is NULL, otherwise the entries filled so far, in fill order. -/
structure VIRTFS_FILE_CONTEXT where
  DirBuffer : Option (List FSP_FSCTL_DIR_INFO)
  IsDirectory : Bool
  NodeId : Nat
  FileHandle : Nat
  deriving DecidableEq, Repr

/-- Heap blocks the service allocates and frees. -/
inductive Mem where
  | FileContext
  | read_out
  | write_in
  | rename_in
  | Security
  | VirtFs
  deriving DecidableEq, Repr

/-- Externally visible effects, in the order they happen. -/
inductive Event where
  | request (Device : Nat) (req : Request)
  | HeapAlloc (m : Mem) (size : Nat) (ok : Bool)
  | HeapFree (m : Mem)
  | FspPosixDeletePath
  | FspDeleteSecurityDescriptor
  | FspFileSystemDeleteDirectoryBuffer
  | FspFileSystemReleaseDirectoryBuffer
  | GetVolumeName (Device : Nat)
  | CloseHandle (h : Nat)
  | FspFileSystemDelete
  | FspFileSystemStopDispatcher
  deriving DecidableEq, Repr

/-- The request carried by an event, with the handle it was sent on. -/
def Event.sent? : Event → Option (Nat × Request)
  | .request d r => some (d, r)
  | _ => none

/-- Mutable process state: the static counter of `GetUniqueIdentifier` and
the trace of effects. -/
structure World where
  uniq : Nat
  log : List Event
  deriving DecidableEq, Repr

/-- The requests sent so far, oldest first. -/
def World.requests (w : World) : List (Nat × Request) :=
  w.log.filterMap Event.sent?

/-- Append one effect to the trace. -/
def World.emit (w : World) (e : Event) : World :=
  { w with log := w.log ++ [e] }

/-- The number of `HeapAlloc` calls made so far. -/
def World.allocs (w : World) : Nat :=
  (w.log.filter fun e => match e with
    | .HeapAlloc _ _ _ => true
    | _ => false).length

/-- The environment: the device and the library routines virtfs.c calls. -/
structure Env where
  /-- The reply to the last request of a history of requests. -/
  device : List (Nat × Request) → Reply
  /-- Whether the n-th `HeapAlloc` of the run returns a block. -/
  HeapAlloc : Nat → Bool
  FspNtStatusFromWin32 : Nat → Nat
  GetCurrentProcessId : Nat
  /-- Path conversion: the status and the POSIX path bytes (no terminator). -/
  FspPosixMapWindowsToPosixPath : List Nat → Nat × List Nat
  /-- Time conversion; it reads two 64-bit words at the address it is given. -/
  FspPosixUnixTimeToFileTime : Nat → Nat → Nat
  /-- Descriptor to permissions: status, uid, gid, mode. -/
  FspPosixMapSecurityDescriptorToPermissions : List Nat → Nat × Nat × Nat × Nat
  /-- Permissions (uid, gid, mode) to descriptor: status and descriptor. -/
  FspPosixMapPermissionsToSecurityDescriptor : Nat → Nat → Nat → Nat × List Nat
  /-- UTF-8 to UTF-16 conversion into a buffer of `MAX_PATH` characters; the
  return value of the call is the length of the result, 0 on failure. -/
  MultiByteToWideChar : List Nat → List Nat
  /-- Filling the directory buffer that holds the given entries with one
  more: whether the entry is accepted, and the status stored in `*PResult`. -/
  FspFileSystemFillDirectoryBuffer :
    List FSP_FSCTL_DIR_INFO → FSP_FSCTL_DIR_INFO → Bool × Nat
  /-- Whether allocating a fresh directory buffer succeeds. -/
  DirectoryBufferAlloc : Bool
  /-- Draining the directory buffer into the caller's buffer: from the
  entries, the marker and the buffer length to the bytes written and
  `*PBytesTransferred`. -/
  FspFileSystemReadDirectoryBuffer :
    Option (List FSP_FSCTL_DIR_INFO) → Option (List Nat) → Nat → List Nat × Nat
  /-- The content of an uninitialised response structure on the stack. -/
  Uninitialized : Reply
  /-- The content of an uninitialised `FSP_FSCTL_FILE_INFO` on the stack. -/
  UninitializedFileInfo : FSP_FSCTL_FILE_INFO
  /-- The content of an uninitialised `PSECURITY_DESCRIPTOR` on the stack. -/
  UninitializedDescriptor : List Nat
  /-- Time conversion to POSIX time; it stores two 64-bit words, seconds and
  nanoseconds, at the address it is given. -/
  FspPosixFileTimeToUnixTime : Nat → Nat × Nat
  /-- Applying a modification to a descriptor: from the descriptor, the
  security information and the modification to the status and the new
  descriptor. -/
  FspSetSecurityDescriptor : List Nat → Nat → List Nat → Nat × List Nat
  /-- The content of a fresh heap block of the given size. -/
  HeapGarbage : Nat → List Nat
  /-- The call `DeviceIoControl(Device, IOCTL_VIRTFS_GET_VOLUME_NAME, ...)`:
  from the handle and the label array to the BOOL result and the array as the
  call leaves it. -/
  GetVolumeName : Nat → List Nat → Bool × List Nat
  /-- The length in bytes of a descriptor. -/
  GetSecurityDescriptorLength : List Nat → Nat
  /-- The outcome of the device lookup of `FindDeviceInterface` (the
  `SetupDi` calls and `CreateFile`): from the value of `*Device` to the
  status and the value the call leaves there. -/
  FindDeviceInterface : Nat → Nat × Nat
  /-- The protocol minor version, `FUSE_KERNEL_MINOR_VERSION` of the missing
  fuse.h. -/
  FUSE_KERNEL_MINOR_VERSION : Nat
  /-- The call `FspFileSystemCreate`: the status and the pointer stored. -/
  FspFileSystemCreate : Nat × Nat
  FspFileSystemSetMountPoint : Nat
  FspFileSystemStartDispatcher : Nat

/-! ## Request construction and the transport call -/

/-- The function `GetUniqueIdentifier`: `InterlockedIncrement64` on the static
counter, returning the incremented value (stored in a `uint64_t` field). -/
def GetUniqueIdentifier (w : World) : Nat × World :=
  let u := (w.uniq + 1) % 2 ^ 64
  (u, { w with uniq := u })

/-- The function `FUSE_HEADER_INIT`. -/
def FUSE_HEADER_INIT (env : Env) (w : World) (opcode nodeid datalen : Nat) :
    fuse_in_header × World :=
  let (u, w1) := GetUniqueIdentifier w
  ({ len := (sizeof_fuse_in_header + datalen) % 2 ^ 32
     opcode := opcode
     unique := u
     nodeid := nodeid
     uid := 0
     gid := 0
     pid := env.GetCurrentProcessId }, w1)

/-- The `switch (out_hdr->error)` of `VirtFsFuseRequest`, entered when the
result code is negative. -/
def errorSwitch (error : Int) : Nat :=
  if error = - EPERM then STATUS_ACCESS_DENIED
  else if error = - ENOENT then STATUS_OBJECT_NAME_NOT_FOUND
  else if error = - EIO then STATUS_IO_DEVICE_ERROR
  else if error = - EBADF then STATUS_OBJECT_NAME_INVALID
  else if error = - EINVAL then STATUS_INVALID_PARAMETER
  else STATUS_UNSUCCESSFUL

/-- The function `VirtFsFuseRequest`: sends the request on `Device`, and maps
the outcome to an NTSTATUS.  Returns the status, the output buffer and the
new world. -/
def VirtFsFuseRequest (env : Env) (w : World) (Device : Nat) (req : Request) :
    Nat × Reply × World :=
  let w1 := w.emit (.request Device req)
  let out := env.device w1.requests
  if out.Result = false then
    (env.FspNtStatusFromWin32 out.LastError, out, w1)
  else if out.hdr.error < 0 then
    (errorSwitch out.hdr.error, out, w1)
  else
    (STATUS_SUCCESS, out, w1)

/-- The status `VirtFsFuseRequest` returns, as a function of what the device
call left behind. -/
def replyStatus (env : Env) (out : Reply) : Nat :=
  if out.Result = false then env.FspNtStatusFromWin32 out.LastError
  else if out.hdr.error < 0 then errorSwitch out.hdr.error
  else STATUS_SUCCESS

/-! ## Attribute translation -/

/-- The function `PosixUnixModeToAttributes`. -/
def PosixUnixModeToAttributes (mode : Nat) : Nat :=
  if mode &&& S_IFMT = S_IFDIR then FILE_ATTRIBUTE_DIRECTORY
  else FILE_ATTRIBUTE_NORMAL

/-- The function `SetFileInfo`.  `FspPosixUnixTimeToFileTime` is handed the
address of a 64-bit seconds field of `struct fuse_attr` and reads the two
64-bit words found there; the second word is whatever follows the field in
the record (`atimensec` and `mtimensec` after `ctime`, `mtime` after `atime`,
`ctime` after `mtime`). -/
def SetFileInfo (env : Env) (attr : fuse_attr) (FileInfo : FSP_FSCTL_FILE_INFO) :
    FSP_FSCTL_FILE_INFO :=
  let LastWriteTime := env.FspPosixUnixTimeToFileTime attr.mtime attr.ctime
  { FileInfo with
    FileAttributes := PosixUnixModeToAttributes attr.mode
    ReparseTag := 0
    AllocationSize := (attr.blocks * attr.blksize) % 2 ^ 64
    FileSize := attr.size
    CreationTime :=
      env.FspPosixUnixTimeToFileTime attr.ctime (attr.atimensec + 2 ^ 32 * attr.mtimensec)
    LastAccessTime := env.FspPosixUnixTimeToFileTime attr.atime attr.mtime
    LastWriteTime := LastWriteTime
    ChangeTime := LastWriteTime
    IndexNumber := 0
    HardLinks := 0
    EaSize := 0 }

/-! ## C string helpers -/

/-- The function `lstrlenA`: the number of bytes before the first NUL. -/
def lstrlenA (s : List Nat) : Nat := (s.takeWhile fun b => b != 0).length

/-- The bytes `lstrcpyA` stores: the string and its terminator. -/
def lstrcpyA (s : List Nat) : List Nat := (s.takeWhile fun b => b != 0) ++ [0]

/-! ## Create, lookup, attribute fetch -/

/-- The `switch` on `GrantedAccess & (FILE_READ_DATA | FILE_WRITE_DATA)` in
`VirtFsCreateFile`, followed by the `FILE_APPEND_DATA` test. -/
def VirtFsCreateFile_flags (GrantedAccess : Nat) : Nat :=
  let flags :=
    if GrantedAccess &&& (FILE_READ_DATA ||| FILE_WRITE_DATA) = FILE_WRITE_DATA then O_WRONLY
    else if GrantedAccess &&& (FILE_READ_DATA ||| FILE_WRITE_DATA)
        = (FILE_READ_DATA ||| FILE_WRITE_DATA) then O_RDWR
    else O_RDONLY
  if GrantedAccess &&& FILE_APPEND_DATA ≠ 0 then flags ||| O_APPEND else flags

/-- Status, file context, metadata and world after a create helper. -/
structure CreateOut where
  Status : Nat
  FileContext : VIRTFS_FILE_CONTEXT
  FileInfo : FSP_FSCTL_FILE_INFO
  world : World
  deriving DecidableEq, Repr

/-- The function `VirtFsCreateFile`. -/
def VirtFsCreateFile (env : Env) (w : World) (VirtFs : VIRTFS)
    (FileContext : VIRTFS_FILE_CONTEXT) (GrantedAccess : Nat) (FileName : List Nat)
    (Mode : Nat) (FileInfo : FSP_FSCTL_FILE_INFO) : CreateOut :=
  let (hdr, w1) := FUSE_HEADER_INIT env w FUSE_CREATE FUSE_ROOT_ID
    ((sizeof_fuse_create_in + lstrlenA FileName + 1) % 2 ^ 32)
  let hdr := { hdr with uid := VirtFs.OwnerUid, gid := VirtFs.OwnerGid }
  let req : Request :=
    { hdr := hdr
      body := .create (VirtFsCreateFile_flags GrantedAccess) Mode 0
      data := lstrcpyA FileName
      InBufferSize := hdr.len
      OutBufferSize := sizeof_fuse_out_header + sizeof_fuse_entry_out + sizeof_fuse_open_out }
  let (Status, create_out, w2) := VirtFsFuseRequest env w1 VirtFs.Device req
  if NT_SUCCESS Status then
    { Status := Status
      FileContext :=
        { FileContext with NodeId := create_out.entry.nodeid, FileHandle := create_out.fh }
      FileInfo := SetFileInfo env create_out.entry.attr FileInfo
      world := w2 }
  else
    { Status := Status, FileContext := FileContext, FileInfo := FileInfo, world := w2 }

/-- The function `VirtFsCreateDir`. -/
def VirtFsCreateDir (env : Env) (w : World) (VirtFs : VIRTFS)
    (FileContext : VIRTFS_FILE_CONTEXT) (FileName : List Nat)
    (Mode : Nat) (FileInfo : FSP_FSCTL_FILE_INFO) : CreateOut :=
  let (hdr, w1) := FUSE_HEADER_INIT env w FUSE_MKDIR FUSE_ROOT_ID
    ((sizeof_fuse_mkdir_in + lstrlenA FileName + 1) % 2 ^ 32)
  let hdr := { hdr with uid := VirtFs.OwnerUid, gid := VirtFs.OwnerGid }
  let req : Request :=
    { hdr := hdr
      body := .mkdir Mode 0
      data := lstrcpyA FileName
      InBufferSize := hdr.len
      OutBufferSize := sizeof_fuse_out_header + sizeof_fuse_entry_out }
  let (Status, mkdir_out, w2) := VirtFsFuseRequest env w1 VirtFs.Device req
  if NT_SUCCESS Status then
    { Status := Status
      FileContext := { FileContext with NodeId := mkdir_out.entry.nodeid }
      FileInfo := SetFileInfo env mkdir_out.entry.attr FileInfo
      world := w2 }
  else
    { Status := Status, FileContext := FileContext, FileInfo := FileInfo, world := w2 }

/-- The wide string `L"\\"`. -/
abbrev rootPath : List Nat := [0x5C]

/-- The wide string `L"\\."`. -/
abbrev rootDotPath : List Nat := [0x5C, 0x2E]

/-- The function `VirtFsLookupFileName`; `LookupOut` is the caller's
response structure, returned as the call leaves it. -/
def VirtFsLookupFileName (env : Env) (w : World) (Device : Nat) (FileName : List Nat)
    (LookupOut : Reply) : Nat × Reply × World :=
  let FileName := if FileName = rootPath then rootDotPath else FileName
  let (Status, filename) := env.FspPosixMapWindowsToPosixPath (FileName.drop 1)
  if !NT_SUCCESS Status then
    (Status, LookupOut, w.emit .FspPosixDeletePath)
  else
    let (hdr, w1) := FUSE_HEADER_INIT env w FUSE_LOOKUP FUSE_ROOT_ID
      ((lstrlenA filename + 1) % 2 ^ 32)
    let req : Request :=
      { hdr := hdr
        body := .none
        data := lstrcpyA filename
        InBufferSize := hdr.len
        OutBufferSize := sizeof_fuse_out_header + sizeof_fuse_entry_out }
    let (Status, out, w2) := VirtFsFuseRequest env w1 Device req
    (Status, out, w2.emit .FspPosixDeletePath)

/-- Status, metadata, descriptor and world after `GetFileInfoInternal`. -/
structure GetFileInfoOut where
  Status : Nat
  FileInfo : Option FSP_FSCTL_FILE_INFO
  SecurityDescriptor : Option (List Nat)
  world : World
  deriving DecidableEq, Repr

/-- The function `GetFileInfoInternal`.  `FileInfo` and `SecurityDescriptor`
are `none` for a NULL pointer and otherwise hold what the pointer refers
to. -/
def GetFileInfoInternal (env : Env) (w : World) (Device nodeid fh : Nat)
    (FileInfo : Option FSP_FSCTL_FILE_INFO) (SecurityDescriptor : Option (List Nat)) :
    GetFileInfoOut :=
  let (hdr, w1) := FUSE_HEADER_INIT env w FUSE_GETATTR nodeid sizeof_fuse_getattr_in
  let getattr_flags := if fh ≠ 0 then 0 ||| FUSE_GETATTR_FH else 0
  let req : Request :=
    { hdr := hdr
      body := .getattr getattr_flags fh
      data := []
      InBufferSize := sizeof_fuse_in_header + sizeof_fuse_getattr_in
      OutBufferSize := sizeof_fuse_out_header + sizeof_fuse_attr_out }
  let (Status, getattr_out, w2) := VirtFsFuseRequest env w1 Device req
  if NT_SUCCESS Status then
    let attr := getattr_out.attr
    let FileInfo := FileInfo.map (SetFileInfo env attr)
    match SecurityDescriptor with
    | none =>
      { Status := Status, FileInfo := FileInfo, SecurityDescriptor := none, world := w2 }
    | some _ =>
      let (Status, sd) :=
        env.FspPosixMapPermissionsToSecurityDescriptor OWNER_UID OWNER_GID attr.mode
      { Status := Status, FileInfo := FileInfo, SecurityDescriptor := some sd, world := w2 }
  else
    { Status := Status, FileInfo := FileInfo, SecurityDescriptor := SecurityDescriptor
      world := w2 }

/-! ## Create and Open -/

/-- Status, `*PFileContext`, metadata and world after `Create` or `Open`. -/
structure OpenOut where
  Status : Nat
  PFileContext : Option VIRTFS_FILE_CONTEXT
  FileInfo : FSP_FSCTL_FILE_INFO
  world : World
  deriving DecidableEq, Repr

/-- The value of `sizeof(VIRTFS_FILE_CONTEXT)`. -/
abbrev sizeof_VIRTFS_FILE_CONTEXT : Nat := 32

/-- A block returned by `HeapAlloc` with `HEAP_ZERO_MEMORY`. -/
def zeroFileContext : VIRTFS_FILE_CONTEXT :=
  { DirBuffer := none, IsDirectory := false, NodeId := 0, FileHandle := 0 }

/-- The callback `Create`.  `PFileContext` is what `*PFileContext` holds
before the call. -/
def Create (env : Env) (w : World) (VirtFs : VIRTFS) (FileName : List Nat)
    (CreateOptions GrantedAccess : Nat) (SecurityDescriptor : Option (List Nat))
    (PFileContext : Option VIRTFS_FILE_CONTEXT) (FileInfo : FSP_FSCTL_FILE_INFO) :
    OpenOut :=
  let (Status, filename) := env.FspPosixMapWindowsToPosixPath (FileName.drop 1)
  if !NT_SUCCESS Status then
    { Status := Status, PFileContext := PFileContext, FileInfo := FileInfo
      world := w.emit .FspPosixDeletePath }
  else
    let ok := env.HeapAlloc w.allocs
    let w1 := w.emit (.HeapAlloc .FileContext sizeof_VIRTFS_FILE_CONTEXT ok)
    if !ok then
      { Status := STATUS_INSUFFICIENT_RESOURCES, PFileContext := PFileContext
        FileInfo := FileInfo, world := w1.emit .FspPosixDeletePath }
    else
      let FileContext : VIRTFS_FILE_CONTEXT :=
        { zeroFileContext with
          IsDirectory := decide (CreateOptions &&& FILE_DIRECTORY_FILE ≠ 0) }
      let Mode :=
        match SecurityDescriptor with
        | none => 0
        | some sd =>
          let (Status, _, _, Mode) := env.FspPosixMapSecurityDescriptorToPermissions sd
          if !NT_SUCCESS Status then 0o400 ||| 0o200 else Mode
      let r :=
        if FileContext.IsDirectory = true then
          VirtFsCreateDir env w1 VirtFs FileContext filename Mode FileInfo
        else
          VirtFsCreateFile env w1 VirtFs FileContext GrantedAccess filename Mode FileInfo
      if !NT_SUCCESS r.Status then
        { Status := r.Status, PFileContext := PFileContext, FileInfo := r.FileInfo
          world := (r.world.emit .FspPosixDeletePath).emit (.HeapFree .FileContext) }
      else
        { Status := r.Status, PFileContext := some r.FileContext, FileInfo := r.FileInfo
          world := r.world.emit .FspPosixDeletePath }

/-- The `switch` on `GrantedAccess & (FILE_READ_DATA | FILE_WRITE_DATA)` in
`Open`, followed by the `O_DIRECTORY` and `FILE_APPEND_DATA` tests. -/
def Open_flags (GrantedAccess : Nat) (IsDirectory : Bool) : Nat :=
  let flags :=
    if GrantedAccess &&& (FILE_READ_DATA ||| FILE_WRITE_DATA) = FILE_WRITE_DATA then O_WRONLY
    else if GrantedAccess &&& (FILE_READ_DATA ||| FILE_WRITE_DATA)
        = (FILE_READ_DATA ||| FILE_WRITE_DATA) then O_RDWR
    else if GrantedAccess &&& (FILE_READ_DATA ||| FILE_WRITE_DATA) = FILE_READ_DATA then O_RDONLY
    else 0
  let flags := if IsDirectory = true then flags ||| O_DIRECTORY else flags
  if GrantedAccess &&& FILE_APPEND_DATA ≠ 0 then flags ||| O_APPEND else flags

/-- The callback `Open`. -/
def Open (env : Env) (w : World) (VirtFs : VIRTFS) (FileName : List Nat)
    (GrantedAccess : Nat) (PFileContext : Option VIRTFS_FILE_CONTEXT)
    (FileInfo : FSP_FSCTL_FILE_INFO) : OpenOut :=
  let ok := env.HeapAlloc w.allocs
  let w1 := w.emit (.HeapAlloc .FileContext sizeof_VIRTFS_FILE_CONTEXT ok)
  if !ok then
    { Status := STATUS_INSUFFICIENT_RESOURCES, PFileContext := PFileContext
      FileInfo := FileInfo, world := w1 }
  else
    let (Status, lookup_out, w2) :=
      VirtFsLookupFileName env w1 VirtFs.Device FileName env.Uninitialized
    if !NT_SUCCESS Status then
      { Status := Status, PFileContext := PFileContext, FileInfo := FileInfo
        world := w2.emit (.HeapFree .FileContext) }
    else
      let IsDirectory := decide (lookup_out.entry.attr.mode &&& S_IFDIR ≠ 0)
      let (hdr, w3) := FUSE_HEADER_INIT env w2
        (if IsDirectory = true then FUSE_OPENDIR else FUSE_OPEN)
        lookup_out.entry.nodeid sizeof_fuse_open_in
      let req : Request :=
        { hdr := hdr
          body := .open_ (Open_flags GrantedAccess IsDirectory)
          data := []
          InBufferSize := sizeof_fuse_in_header + sizeof_fuse_open_in
          OutBufferSize := sizeof_fuse_out_header + sizeof_fuse_open_out }
      let (Status, open_out, w4) := VirtFsFuseRequest env w3 VirtFs.Device req
      if !NT_SUCCESS Status then
        { Status := Status, PFileContext := PFileContext, FileInfo := FileInfo
          world := w4.emit (.HeapFree .FileContext) }
      else
        { Status := Status
          PFileContext := some
            { zeroFileContext with
              IsDirectory := IsDirectory
              NodeId := lookup_out.entry.nodeid
              FileHandle := open_out.fh }
          FileInfo := SetFileInfo env lookup_out.entry.attr FileInfo
          world := w4 }

/-! ## Close -/

/-- The callback `Close`; returns the world after the call (the context is
gone: its block is freed). -/
def Close (env : Env) (w : World) (VirtFs : VIRTFS) (FileContext : VIRTFS_FILE_CONTEXT) :
    World :=
  let (hdr, w1) := FUSE_HEADER_INIT env w
    (if FileContext.IsDirectory = true then FUSE_RELEASEDIR else FUSE_RELEASE)
    FileContext.NodeId sizeof_fuse_release_in
  let req : Request :=
    { hdr := hdr
      body := .release FileContext.FileHandle 0 0 0
      data := []
      InBufferSize := sizeof_fuse_in_header + sizeof_fuse_release_in
      OutBufferSize := sizeof_fuse_out_header }
  let (_, _, w2) := VirtFsFuseRequest env w1 VirtFs.Device req
  (w2.emit .FspFileSystemDeleteDirectoryBuffer).emit (.HeapFree .FileContext)

/-! ## Write -/

/-- Status, `*PBytesTransferred` (`none` for a NULL pointer), metadata and
world after `Write`. -/
structure WriteOut where
  Status : Nat
  PBytesTransferred : Option Nat
  FileInfo : FSP_FSCTL_FILE_INFO
  world : World
  deriving DecidableEq, Repr

/-- Modelled from the spec: `sizeof(FUSE_WRITE_IN)` of the missing
fusereq.h, header and `fuse_write_in`, the data array being a flexible
member. -/
abbrev sizeof_FUSE_WRITE_IN : Nat := sizeof_fuse_in_header + sizeof_fuse_write_in

/-- The part of `Write` from the `HeapAlloc` of the request on, run with the
length the constrained-I/O block has left in `Length`. -/
def Write_send (env : Env) (w : World) (VirtFs : VIRTFS) (FileContext : VIRTFS_FILE_CONTEXT)
    (Buffer : Option (List Nat)) (Offset Length : Nat) (PBytesTransferred : Option Nat)
    (FileInfo : FSP_FSCTL_FILE_INFO) : WriteOut :=
  let ok := env.HeapAlloc w.allocs
  let w1 := w.emit (.HeapAlloc .write_in (sizeof_FUSE_WRITE_IN + Length) ok)
  if !ok then
    { Status := STATUS_INSUFFICIENT_RESOURCES, PBytesTransferred := PBytesTransferred
      FileInfo := FileInfo, world := w1 }
  else
    let (hdr, w2) := FUSE_HEADER_INIT env w1 FUSE_WRITE FileContext.NodeId
      ((sizeof_fuse_write_in + Length) % 2 ^ 32)
    let req : Request :=
      { hdr := hdr
        body := .write FileContext.FileHandle Offset Length 0 0 0
        data :=
          match Buffer with
          | some b => b.take Length
          | none => env.HeapGarbage Length
        InBufferSize := hdr.len
        OutBufferSize := sizeof_fuse_out_header + sizeof_fuse_write_out }
    let (Status, write_out, w3) := VirtFsFuseRequest env w2 VirtFs.Device req
    let w4 := w3.emit (.HeapFree .write_in)
    if !NT_SUCCESS Status then
      { Status := Status, PBytesTransferred := PBytesTransferred.map fun _ => 0
        FileInfo := FileInfo, world := w4 }
    else
      let r := GetFileInfoInternal env w4 VirtFs.Device FileContext.NodeId
        FileContext.FileHandle (some FileInfo) none
      { Status := r.Status
        PBytesTransferred := PBytesTransferred.map fun _ => write_out.write_size
        FileInfo := r.FileInfo.getD FileInfo
        world := r.world }

/-- The callback `Write`.  `Offset` is a `UINT64`, `Length` a `ULONG`; the
flag `WriteToEndOfFile` is only traced. -/
def Write (env : Env) (w : World) (VirtFs : VIRTFS) (FileContext : VIRTFS_FILE_CONTEXT)
    (Buffer : Option (List Nat)) (Offset Length : Nat) (_WriteToEndOfFile ConstrainedIo : Bool)
    (PBytesTransferred : Option Nat) (FileInfo : FSP_FSCTL_FILE_INFO) : WriteOut :=
  if ConstrainedIo = true then
    let r := GetFileInfoInternal env w VirtFs.Device FileContext.NodeId
      FileContext.FileHandle (some FileInfo) none
    let FileInfo := r.FileInfo.getD FileInfo
    if !NT_SUCCESS r.Status then
      { Status := r.Status, PBytesTransferred := PBytesTransferred
        FileInfo := FileInfo, world := r.world }
    else if Offset ≥ FileInfo.FileSize then
      { Status := STATUS_SUCCESS, PBytesTransferred := PBytesTransferred
        FileInfo := FileInfo, world := r.world }
    else
      let Length :=
        if (Offset + Length) % 2 ^ 64 > FileInfo.FileSize then
          (FileInfo.FileSize - Offset) % 2 ^ 32
        else Length
      Write_send env r.world VirtFs FileContext Buffer Offset Length PBytesTransferred FileInfo
  else
    Write_send env w VirtFs FileContext Buffer Offset Length PBytesTransferred FileInfo

/-! ## Directory enumeration -/

/-- Little-endian value of a byte string. -/
def leVal : List Nat → Nat
  | [] => 0
  | b :: bs => b + 256 * leVal bs

/-- The `n`-byte little-endian field at offset `off` of a buffer. -/
def rd (n off : Nat) (bs : List Nat) : Nat := leVal ((bs.drop off).take n)

/-- Modelled from the spec: the `struct fuse_attr` found at offset `o` of a
buffer, by the field layout of the missing fuse.h. -/
def decode_fuse_attr (o : Nat) (bs : List Nat) : fuse_attr :=
  { ino := rd 8 o bs
    size := rd 8 (o + 8) bs
    blocks := rd 8 (o + 16) bs
    atime := rd 8 (o + 24) bs
    mtime := rd 8 (o + 32) bs
    ctime := rd 8 (o + 40) bs
    atimensec := rd 4 (o + 48) bs
    mtimensec := rd 4 (o + 52) bs
    ctimensec := rd 4 (o + 56) bs
    mode := rd 4 (o + 60) bs
    nlink := rd 4 (o + 64) bs
    uid := rd 4 (o + 68) bs
    gid := rd 4 (o + 72) bs
    rdev := rd 4 (o + 76) bs
    blksize := rd 4 (o + 80) bs
    padding := rd 4 (o + 84) bs }

/-- Modelled from the spec: offset of `entry_out.attr` in `struct
fuse_direntplus` of the missing fuse.h. -/
abbrev off_direntplus_attr : Nat := 40
/-- Modelled from the spec: offset of `dirent.off` in `struct
fuse_direntplus` of the missing fuse.h. -/
abbrev off_direntplus_off : Nat := 136
/-- Modelled from the spec: offset of `dirent.namelen` in `struct
fuse_direntplus` of the missing fuse.h. -/
abbrev off_direntplus_namelen : Nat := 144
/-- Modelled from the spec: offset of `dirent.name` in `struct
fuse_direntplus`, the macro `FUSE_NAME_OFFSET_DIRENTPLUS` of the missing
fuse.h. -/
abbrev FUSE_NAME_OFFSET_DIRENTPLUS : Nat := 152

/-- Modelled from the spec: the macro `FUSE_DIRENT_ALIGN(x)` of the missing
fuse.h, `(x + 7) & ~7` on `size_t`. -/
def FUSE_DIRENT_ALIGN (x : Nat) : Nat := (x + 7) / 8 * 8

/-- Modelled from the spec: the macro `FUSE_DIRENTPLUS_SIZE(d)` of the
missing fuse.h, the aligned size of an entry, from its `namelen`. -/
def FUSE_DIRENTPLUS_SIZE (namelen : Nat) : Nat :=
  FUSE_DIRENT_ALIGN (FUSE_NAME_OFFSET_DIRENTPLUS + namelen)

deriving instance DecidableEq for Except

/-- The `UINT32` left by `a -= b` or `a - b` where `a` is 32 bits wide and
`b` a `size_t`: the difference is taken on 64 bits, wrapping when `b`
exceeds `a`, and truncated to 32 bits. -/
def sub32 (a b : Nat) : Nat :=
  if b ≤ a then (a - b) % 2 ^ 32 else (a + 2 ^ 64 - b) % 2 ^ 32

/-- The ways the enumeration can leave defined behaviour, or exhaust the
bound given to the entry loop. -/
inductive Fault where
  | out_of_bounds
  | fuel
  deriving DecidableEq, Repr

/-- The all-zero `FSP_FSCTL_FILE_INFO` left by `ZeroMemory(DirInfoBuf, ...)`. -/
def zeroFileInfo : FSP_FSCTL_FILE_INFO :=
  { FileAttributes := 0, ReparseTag := 0, AllocationSize := 0, FileSize := 0
    CreationTime := 0, LastAccessTime := 0, LastWriteTime := 0, ChangeTime := 0
    IndexNumber := 0, HardLinks := 0, EaSize := 0 }

/-- The `FSP_FSCTL_DIR_INFO` that `ReadDirectory` builds for the entry at the
cursor, given the converted name. -/
def makeDirInfo (env : Env) (cur : List Nat) (FileNameBuf : List Nat) : FSP_FSCTL_DIR_INFO :=
  { Size := (sizeof_FSP_FSCTL_DIR_INFO + FileNameBuf.length * 2) % 2 ^ 16
    FileInfo := SetFileInfo env (decode_fuse_attr off_direntplus_attr cur) zeroFileInfo
    FileNameBuf := FileNameBuf }

/-- Local state of `ReadDirectory` left by the entry loop. -/
structure EntryLoopOut where
  Offset : Nat
  DirBuffer : List FSP_FSCTL_DIR_INFO
  Status : Nat
  deriving DecidableEq, Repr

/-- The loop `while (Remains > sizeof(struct fuse_direntplus))` of
`ReadDirectory`.  `cur` is the response buffer from `DirEntryPlus` to its
end; reading an entry or its name beyond the buffer is a fault.  The first
argument bounds the number of rounds. -/
def entryLoop (env : Env) :
    Nat → List Nat → Nat → Nat → List FSP_FSCTL_DIR_INFO → Nat → Except Fault EntryLoopOut
  | 0, _, _, _, _, _ => .error .fuel
  | fuel + 1, cur, Remains, Offset, DirBuffer, Status =>
    if Remains > sizeof_fuse_direntplus then
      if cur.length < sizeof_fuse_direntplus then .error .out_of_bounds
      else
        let namelen := rd 4 off_direntplus_namelen cur
        if cur.length < FUSE_NAME_OFFSET_DIRENTPLUS + namelen then .error .out_of_bounds
        else
          let FileNameBuf :=
            env.MultiByteToWideChar ((cur.drop FUSE_NAME_OFFSET_DIRENTPLUS).take namelen)
          let Offset1 := rd 8 off_direntplus_off cur
          let Remains1 := sub32 Remains (FUSE_DIRENTPLUS_SIZE namelen)
          let cur1 := cur.drop (FUSE_DIRENTPLUS_SIZE namelen)
          if FileNameBuf.length > 0 then
            let DirInfo := makeDirInfo env cur FileNameBuf
            let (Result, Status1) := env.FspFileSystemFillDirectoryBuffer DirBuffer DirInfo
            if Result = false then
              .ok { Offset := Offset, DirBuffer := DirBuffer, Status := Status1 }
            else
              entryLoop env fuel cur1 Remains1 Offset1 (DirBuffer ++ [DirInfo]) Status1
          else
            entryLoop env fuel cur1 Remains1 Offset1 DirBuffer Status
    else
      .ok { Offset := Offset, DirBuffer := DirBuffer, Status := Status }

/-- Status, directory buffer and world when the fill loop is left. -/
structure FillLoopOut where
  Status : Nat
  DirBuffer : List FSP_FSCTL_DIR_INFO
  world : World
  deriving DecidableEq, Repr

/-- Modelled from the spec: `sizeof(FUSE_READ_IN)` of the missing
fusereq.h, header and `fuse_read_in`. -/
abbrev sizeof_FUSE_READ_IN : Nat := sizeof_fuse_in_header + sizeof_fuse_read_in

/-- The READDIRPLUS request of one round of the fill loop. -/
def readdirplusRequest (hdr : fuse_in_header) (FileHandle Offset : Nat) : Request :=
  { hdr := hdr
    body := .read FileHandle Offset ALLOCATION_UNIT 0 0 0
    data := []
    InBufferSize := sizeof_FUSE_READ_IN
    OutBufferSize := sizeof_fuse_out_header + ALLOCATION_UNIT }

/-- How one round of the loop `for (;;)` of `ReadDirectory` ends: the loop
is left (by a `break`, or by a fault of the entry loop), or it goes round
again with the world, `Offset` and directory buffer the round produced. -/
inductive Round where
  | exit (r : Except Fault FillLoopOut)
  | again (w : World) (Offset : Nat) (DirBuffer : List FSP_FSCTL_DIR_INFO)
  deriving DecidableEq, Repr

/-- The body of the loop `for (;;)` of `ReadDirectory`. -/
def fillRound (env : Env) (VirtFs : VIRTFS) (FileHandle : Nat) (w : World) (Offset : Nat)
    (DirBuffer : List FSP_FSCTL_DIR_INFO) : Round :=
  let (hdr, w1) := FUSE_HEADER_INIT env w FUSE_READDIRPLUS FUSE_ROOT_ID sizeof_fuse_read_in
  let (Status, read_out, w2) :=
    VirtFsFuseRequest env w1 VirtFs.Device (readdirplusRequest hdr FileHandle Offset)
  if !NT_SUCCESS Status then
    .exit (.ok { Status := Status, DirBuffer := DirBuffer, world := w2 })
  else
    let Remains := sub32 read_out.hdr.len sizeof_fuse_out_header
    if Remains = 0 then
      .exit (.ok { Status := Status, DirBuffer := DirBuffer, world := w2 })
    else
      match entryLoop env (read_out.buf.length + 1) read_out.buf Remains Offset DirBuffer
          Status with
      | .error f => .exit (.error f)
      | .ok r => .again w2 r.Offset r.DirBuffer

/-- The loop `for (;;)` of `ReadDirectory`, run for at most the given number
of rounds; `none` when the bound is reached with the loop still running. -/
def fillLoop (env : Env) (VirtFs : VIRTFS) (FileHandle : Nat) :
    Nat → World → Nat → List FSP_FSCTL_DIR_INFO → Option (Except Fault FillLoopOut)
  | 0, _, _, _ => none
  | fuel + 1, w, Offset, DirBuffer =>
    match fillRound env VirtFs FileHandle w Offset DirBuffer with
    | .exit r => some r
    | .again w1 Offset1 DirBuffer1 => fillLoop env VirtFs FileHandle fuel w1 Offset1 DirBuffer1

/-- The WinFsp primitive `FspFileSystemAcquireDirectoryBuffer`: a missing
buffer is allocated and acquired for filling, an existing one is emptied and
acquired when `Reset` is set, and is otherwise left for draining.  Returns
the BOOLEAN result, `*PResult` and the buffer. -/
def FspFileSystemAcquireDirectoryBuffer (env : Env)
    (DirBuffer : Option (List FSP_FSCTL_DIR_INFO)) (Reset : Bool) :
    Bool × Nat × Option (List FSP_FSCTL_DIR_INFO) :=
  match DirBuffer with
  | none =>
    if env.DirectoryBufferAlloc = true then (true, STATUS_SUCCESS, some [])
    else (false, STATUS_INSUFFICIENT_RESOURCES, none)
  | some b =>
    if Reset = true then (true, STATUS_SUCCESS, some [])
    else (false, STATUS_SUCCESS, some b)

/-- Status, file context, caller buffer, `*PBytesTransferred` and world after
`ReadDirectory`. -/
structure ReadDirectoryOut where
  Status : Nat
  FileContext : VIRTFS_FILE_CONTEXT
  Buffer : List Nat
  PBytesTransferred : Nat
  world : World
  deriving DecidableEq, Repr

/-- The tail of `ReadDirectory`: on success the buffer is drained into the
caller's buffer. -/
def ReadDirectory_finish (env : Env) (Status : Nat) (FileContext : VIRTFS_FILE_CONTEXT)
    (Marker : Option (List Nat)) (Buffer : List Nat) (BufferLength PBytesTransferred : Nat)
    (w : World) : ReadDirectoryOut :=
  if NT_SUCCESS Status then
    let (Buffer1, n) :=
      env.FspFileSystemReadDirectoryBuffer FileContext.DirBuffer Marker BufferLength
    { Status := Status, FileContext := FileContext, Buffer := Buffer1
      PBytesTransferred := n, world := w }
  else
    { Status := Status, FileContext := FileContext, Buffer := Buffer
      PBytesTransferred := PBytesTransferred, world := w }

/-- The callback `ReadDirectory`; `Marker` is `none` for a NULL marker.  The
first argument bounds the rounds of the fill loop. -/
def ReadDirectory (env : Env) (fuel : Nat) (w : World) (VirtFs : VIRTFS)
    (FileContext : VIRTFS_FILE_CONTEXT) (Marker : Option (List Nat)) (Buffer : List Nat)
    (BufferLength PBytesTransferred : Nat) : Option (Except Fault ReadDirectoryOut) :=
  let (Result, Status, DirBuffer) :=
    FspFileSystemAcquireDirectoryBuffer env FileContext.DirBuffer (decide (Marker = none))
  let FileContext := { FileContext with DirBuffer := DirBuffer }
  if Result = true then
    match fillLoop env VirtFs FileContext.FileHandle fuel w 0 (DirBuffer.getD []) with
    | none => none
    | some (.error f) => some (.error f)
    | some (.ok r) =>
      some (.ok (ReadDirectory_finish env r.Status
        { FileContext with DirBuffer := some r.DirBuffer } Marker Buffer BufferLength
        PBytesTransferred (r.world.emit .FspFileSystemReleaseDirectoryBuffer)))
  else
    some (.ok (ReadDirectory_finish env Status FileContext Marker Buffer BufferLength
      PBytesTransferred w))

/-! ## Metadata callbacks -/

/-- Status, metadata and world after a callback whose outputs are a status
and the metadata. -/
structure InfoOut where
  Status : Nat
  FileInfo : FSP_FSCTL_FILE_INFO
  world : World
  deriving DecidableEq, Repr

/-- The call `GetFileInfoInternal(Device, FileContext->NodeId,
FileContext->FileHandle, FileInfo, NULL)` that ends most metadata callbacks,
with the caller's `FileInfo` passed in and returned. -/
def fetchFileInfo (env : Env) (w : World) (Device : Nat) (FileContext : VIRTFS_FILE_CONTEXT)
    (FileInfo : FSP_FSCTL_FILE_INFO) : InfoOut :=
  let r := GetFileInfoInternal env w Device FileContext.NodeId FileContext.FileHandle
    (some FileInfo) none
  { Status := r.Status, FileInfo := r.FileInfo.getD FileInfo, world := r.world }

/-- The callback `Overwrite`; the merged `FileAttributes` and the
`AllocationSize` are not used after they are computed. -/
def Overwrite (env : Env) (w : World) (VirtFs : VIRTFS) (FileContext : VIRTFS_FILE_CONTEXT)
    (_FileAttributes : Nat) (ReplaceFileAttributes : Bool) (_AllocationSize : Nat)
    (FileInfo : FSP_FSCTL_FILE_INFO) : InfoOut :=
  if ReplaceFileAttributes = false then
    let r := fetchFileInfo env w VirtFs.Device FileContext FileInfo
    if !NT_SUCCESS r.Status then r
    else fetchFileInfo env r.world VirtFs.Device FileContext r.FileInfo
  else
    fetchFileInfo env w VirtFs.Device FileContext FileInfo

/-- The callback `Flush`. -/
def Flush (env : Env) (w : World) (VirtFs : VIRTFS) (FileContext : VIRTFS_FILE_CONTEXT)
    (FileInfo : FSP_FSCTL_FILE_INFO) : InfoOut :=
  let (hdr, w1) := FUSE_HEADER_INIT env w FUSE_FLUSH FileContext.NodeId sizeof_fuse_flush_in
  let req : Request :=
    { hdr := hdr
      body := .flush FileContext.FileHandle 0 0 0
      data := []
      InBufferSize := sizeof_fuse_in_header + sizeof_fuse_flush_in
      OutBufferSize := sizeof_fuse_out_header }
  let (Status, _, w2) := VirtFsFuseRequest env w1 VirtFs.Device req
  if !NT_SUCCESS Status then
    { Status := Status, FileInfo := FileInfo, world := w2 }
  else
    fetchFileInfo env w2 VirtFs.Device FileContext FileInfo

/-- The callback `GetFileInfo`. -/
def GetFileInfo (env : Env) (w : World) (VirtFs : VIRTFS) (FileContext : VIRTFS_FILE_CONTEXT)
    (FileInfo : FSP_FSCTL_FILE_INFO) : InfoOut :=
  fetchFileInfo env w VirtFs.Device FileContext FileInfo

/-- The record left by `ZeroMemory(&setattr_in.setattr, ...)`. -/
def zero_setattr : fuse_setattr_in :=
  { valid := 0, padding := 0, fh := 0, size := 0, lock_owner := 0, atime := 0, mtime := 0
    ctime := 0, atimensec := 0, mtimensec := 0, ctimensec := 0, mode := 0, unused4 := 0
    uid := 0, gid := 0, unused5 := 0 }

/-- The value of `sizeof(FUSE_SETATTR_IN)`: header and `fuse_setattr_in`. -/
abbrev sizeof_FUSE_SETATTR_IN : Nat := sizeof_fuse_in_header + sizeof_fuse_setattr_in

/-- The value of `sizeof(FUSE_SETATTR_OUT)`: header and `fuse_attr_out`. -/
abbrev sizeof_FUSE_SETATTR_OUT : Nat := sizeof_fuse_out_header + sizeof_fuse_attr_out

/-- The SETATTR record that `SetBasicInfo` builds.  Each call of
`FspPosixFileTimeToUnixTime` stores two 64-bit words at the address of a
seconds field: the seconds there, the nanoseconds over what follows the field
in the record (`mtime` after `atime`, `ctime` after `mtime`, `atimensec` and
`mtimensec` after `ctime`).  The call guarded by `ChangeTime` converts
`CreationTime`. -/
def SetBasicInfo_setattr (env : Env) (FileHandle CreationTime LastAccessTime LastWriteTime
    ChangeTime : Nat) : fuse_setattr_in :=
  let s0 : fuse_setattr_in := { zero_setattr with valid := FATTR_FH, fh := FileHandle }
  let s1 : fuse_setattr_in :=
    if LastAccessTime ≠ 0 then
      { s0 with
        valid := s0.valid ||| FATTR_ATIME
        atime := (env.FspPosixFileTimeToUnixTime LastAccessTime).1
        mtime := (env.FspPosixFileTimeToUnixTime LastAccessTime).2 }
    else s0
  let s2 : fuse_setattr_in :=
    if LastWriteTime ≠ 0 then
      { s1 with
        valid := s1.valid ||| FATTR_MTIME
        mtime := (env.FspPosixFileTimeToUnixTime LastWriteTime).1
        ctime := (env.FspPosixFileTimeToUnixTime LastWriteTime).2 }
    else s1
  if ChangeTime ≠ 0 then
    { s2 with
      valid := s2.valid ||| FATTR_CTIME
      ctime := (env.FspPosixFileTimeToUnixTime CreationTime).1
      atimensec := (env.FspPosixFileTimeToUnixTime CreationTime).2 % 2 ^ 32
      mtimensec := (env.FspPosixFileTimeToUnixTime CreationTime).2 / 2 ^ 32 % 2 ^ 32 }
  else s2

/-- The common part of `SetBasicInfo` and `SetFileSize`: the SETATTR request
on the device handle and, when it succeeds, the trailing
`GetFileInfoInternal(FileSystem, ...)`, whose first argument is the
`FSP_FILE_SYSTEM` pointer of the callback. -/
def setattrAndFetch (env : Env) (w : World) (VirtFs : VIRTFS)
    (FileContext : VIRTFS_FILE_CONTEXT) (setattr : fuse_setattr_in)
    (FileInfo : FSP_FSCTL_FILE_INFO) : InfoOut :=
  let (hdr, w1) := FUSE_HEADER_INIT env w FUSE_SETATTR FileContext.NodeId sizeof_fuse_setattr_in
  let req : Request :=
    { hdr := hdr
      body := .setattr setattr
      data := []
      InBufferSize := sizeof_FUSE_SETATTR_IN
      OutBufferSize := sizeof_FUSE_SETATTR_OUT }
  let (Status, _, w2) := VirtFsFuseRequest env w1 VirtFs.Device req
  if !NT_SUCCESS Status then
    { Status := Status, FileInfo := FileInfo, world := w2 }
  else
    fetchFileInfo env w2 VirtFs.FileSystem FileContext FileInfo

/-- The callback `SetBasicInfo`; `FileAttributes` is unreferenced. -/
def SetBasicInfo (env : Env) (w : World) (VirtFs : VIRTFS) (FileContext : VIRTFS_FILE_CONTEXT)
    (_FileAttributes CreationTime LastAccessTime LastWriteTime ChangeTime : Nat)
    (FileInfo : FSP_FSCTL_FILE_INFO) : InfoOut :=
  setattrAndFetch env w VirtFs FileContext
    (SetBasicInfo_setattr env FileContext.FileHandle CreationTime LastAccessTime LastWriteTime
      ChangeTime) FileInfo

/-- The callback `SetFileSize`; `SetAllocationSize` is unreferenced. -/
def SetFileSize (env : Env) (w : World) (VirtFs : VIRTFS) (FileContext : VIRTFS_FILE_CONTEXT)
    (NewSize : Nat) (_SetAllocationSize : Bool) (FileInfo : FSP_FSCTL_FILE_INFO) : InfoOut :=
  setattrAndFetch env w VirtFs FileContext
    { zero_setattr with valid := FATTR_SIZE, size := NewSize } FileInfo

/-- The callback `CanDelete`; `FileName` is only traced. -/
def CanDelete (env : Env) (w : World) (VirtFs : VIRTFS) (FileContext : VIRTFS_FILE_CONTEXT) :
    Nat × World :=
  let r := fetchFileInfo env w VirtFs.Device FileContext env.UninitializedFileInfo
  if !NT_SUCCESS r.Status then (r.Status, r.world)
  else if r.FileInfo.FileAttributes &&& FILE_ATTRIBUTE_DIRECTORY ≠ 0 then
    (STATUS_DIRECTORY_NOT_EMPTY, r.world)
  else (r.Status, r.world)

/-! ## Cleanup and Rename -/

/-- The function `VirtFsDeleteFile`. -/
def VirtFsDeleteFile (env : Env) (w : World) (VirtFs : VIRTFS)
    (FileContext : VIRTFS_FILE_CONTEXT) (FileName : List Nat) : World :=
  let (hdr, w1) := FUSE_HEADER_INIT env w
    (if FileContext.IsDirectory = true then FUSE_RMDIR else FUSE_UNLINK) FUSE_ROOT_ID
    ((lstrlenA FileName + 1) % 2 ^ 32)
  let req : Request :=
    { hdr := hdr
      body := .none
      data := lstrcpyA FileName
      InBufferSize := hdr.len
      OutBufferSize := sizeof_fuse_out_header }
  (VirtFsFuseRequest env w1 VirtFs.Device req).2.2

/-- The callback `Cleanup`; `FileName` is `none` for a NULL pointer.  The
branches for the other flags are empty. -/
def Cleanup (env : Env) (w : World) (VirtFs : VIRTFS) (FileContext : VIRTFS_FILE_CONTEXT)
    (FileName : Option (List Nat)) (Flags : Nat) : World :=
  match FileName with
  | none => w
  | some FileName =>
    let (Status, filename) := env.FspPosixMapWindowsToPosixPath (FileName.drop 1)
    if !NT_SUCCESS Status then
      w.emit .FspPosixDeletePath
    else if Flags &&& FspCleanupDelete ≠ 0 then
      (VirtFsDeleteFile env w VirtFs FileContext filename).emit .FspPosixDeletePath
    else
      w.emit .FspPosixDeletePath

/-- The value of `sizeof(FUSE_RENAME_IN)`: header and `fuse_rename_in`, the
names being a flexible member. -/
abbrev sizeof_FUSE_RENAME_IN : Nat := sizeof_fuse_in_header + sizeof_fuse_rename_in

/-- The callback `Rename`; the branch for `ReplaceIfExists` is empty. -/
def Rename (env : Env) (w : World) (VirtFs : VIRTFS) (FileName NewFileName : List Nat)
    (_ReplaceIfExists : Bool) : Nat × World :=
  let (Status, oldname) := env.FspPosixMapWindowsToPosixPath (FileName.drop 1)
  if !NT_SUCCESS Status then
    (Status, w.emit .FspPosixDeletePath)
  else
    let (Status, newname) := env.FspPosixMapWindowsToPosixPath (NewFileName.drop 1)
    if !NT_SUCCESS Status then
      (Status, (w.emit .FspPosixDeletePath).emit .FspPosixDeletePath)
    else
      let oldname_size := lstrlenA oldname + 1
      let newname_size := lstrlenA newname + 1
      let ok := env.HeapAlloc w.allocs
      let w1 := w.emit
        (.HeapAlloc .rename_in (sizeof_FUSE_RENAME_IN + oldname_size + newname_size) ok)
      if !ok then
        (STATUS_INSUFFICIENT_RESOURCES, (w1.emit .FspPosixDeletePath).emit .FspPosixDeletePath)
      else
        let (hdr, w2) := FUSE_HEADER_INIT env w1 FUSE_RENAME FUSE_ROOT_ID
          ((sizeof_fuse_rename_in + oldname_size + newname_size) % 2 ^ 32)
        let req : Request :=
          { hdr := hdr
            body := .rename FUSE_ROOT_ID
            data := lstrcpyA oldname ++ lstrcpyA newname
            InBufferSize := hdr.len
            OutBufferSize := sizeof_fuse_out_header }
        let w3 := (w2.emit .FspPosixDeletePath).emit .FspPosixDeletePath
        let r := VirtFsFuseRequest env w3 VirtFs.Device req
        (r.1, r.2.2)

/-! ## Security -/

/-- The callback `SetSecurity`.  The current descriptor is fetched with
`GetFileInfoInternal(VirtFs->FileSystem, ...)`. -/
def SetSecurity (env : Env) (w : World) (VirtFs : VIRTFS) (FileContext : VIRTFS_FILE_CONTEXT)
    (SecurityInformation : Nat) (ModificationDescriptor : List Nat) : Nat × World :=
  let r := GetFileInfoInternal env w VirtFs.FileSystem FileContext.NodeId
    FileContext.FileHandle none (some env.UninitializedDescriptor)
  let FileSecurity := r.SecurityDescriptor.getD env.UninitializedDescriptor
  if !NT_SUCCESS r.Status then
    (r.Status, r.world.emit (.HeapFree .Security))
  else
    let (Status, _, _, Mode) := env.FspPosixMapSecurityDescriptorToPermissions FileSecurity
    if !NT_SUCCESS Status then
      (Status, r.world.emit (.HeapFree .Security))
    else
      let (Status, NewSecurityDescriptor) :=
        env.FspSetSecurityDescriptor FileSecurity SecurityInformation ModificationDescriptor
      let w1 := r.world.emit (.HeapFree .Security)
      if !NT_SUCCESS Status then
        (Status, w1)
      else
        let (Status, _, _, NewMode) :=
          env.FspPosixMapSecurityDescriptorToPermissions NewSecurityDescriptor
        let w2 := w1.emit .FspDeleteSecurityDescriptor
        if !NT_SUCCESS Status then
          (Status, w2)
        else if Mode ≠ NewMode then
          let (hdr, w3) := FUSE_HEADER_INIT env w2 FUSE_SETATTR FileContext.NodeId
            sizeof_fuse_setattr_in
          let req : Request :=
            { hdr := hdr
              body := .setattr { zero_setattr with valid := FATTR_MODE, mode := NewMode }
              data := []
              InBufferSize := sizeof_FUSE_SETATTR_IN
              OutBufferSize := sizeof_FUSE_SETATTR_OUT }
          let q := VirtFsFuseRequest env w3 VirtFs.Device req
          (q.1, q.2.2)
        else
          (Status, w2)

/-! ## Read -/

/-- Status, caller buffer, `*PBytesTransferred` (each `none` for a NULL
pointer) and world after `Read`. -/
structure ReadOut where
  Status : Nat
  Buffer : Option (List Nat)
  PBytesTransferred : Option Nat
  world : World
  deriving DecidableEq, Repr

/-- The value of `sizeof(FUSE_READ_OUT)`: the header, the data being a
flexible member. -/
abbrev sizeof_FUSE_READ_OUT : Nat := sizeof_fuse_out_header

/-- The callback `Read`.  The response block holds the header and `Length`
bytes; `buf` of the reply stands for those bytes as the call leaves them.
`CopyMemory` of more bytes than the block or the caller's buffer holds is a
fault. -/
def Read (env : Env) (w : World) (VirtFs : VIRTFS) (FileContext : VIRTFS_FILE_CONTEXT)
    (Buffer : Option (List Nat)) (Offset Length : Nat) (PBytesTransferred : Option Nat) :
    Except Fault ReadOut :=
  let ok := env.HeapAlloc w.allocs
  let w1 := w.emit (.HeapAlloc .read_out (sizeof_FUSE_READ_OUT + Length) ok)
  if !ok then
    .ok { Status := STATUS_INSUFFICIENT_RESOURCES, Buffer := Buffer
          PBytesTransferred := PBytesTransferred, world := w1 }
  else
    let (hdr, w2) := FUSE_HEADER_INIT env w1 FUSE_READ FileContext.NodeId Length
    let req : Request :=
      { hdr := hdr
        body := .read FileContext.FileHandle Offset Length 0 0 0
        data := []
        InBufferSize := sizeof_FUSE_READ_IN
        OutBufferSize := (sizeof_FUSE_READ_OUT + Length) % 2 ^ 32 }
    let (Status, read_out, w3) := VirtFsFuseRequest env w2 VirtFs.Device req
    let w4 := w3.emit (.HeapFree .read_out)
    if !NT_SUCCESS Status then
      .ok { Status := Status, Buffer := Buffer
            PBytesTransferred := PBytesTransferred.map fun _ => 0, world := w4 }
    else
      match PBytesTransferred with
      | none =>
        .ok { Status := STATUS_SUCCESS, Buffer := Buffer, PBytesTransferred := none
              world := w4 }
      | some _ =>
        let n := sub32 read_out.hdr.len sizeof_fuse_out_header
        match Buffer with
        | none =>
          .ok { Status := STATUS_SUCCESS, Buffer := none, PBytesTransferred := some n
                world := w4 }
        | some b =>
          if read_out.buf.length < n ∨ b.length < n then .error .out_of_bounds
          else
            .ok { Status := STATUS_SUCCESS, Buffer := some (read_out.buf.take n ++ b.drop n)
                  PBytesTransferred := some n, world := w4 }

/-! ## Volume and security queries, service start and stop -/

/-- Status, volume information and world after `GetVolumeInfo`. -/
structure VolumeInfoOut where
  Status : Nat
  VolumeInfo : FSP_FSCTL_VOLUME_INFO
  world : World
  deriving DecidableEq, Repr

/-- The function `wcslen`: the number of characters before the first NUL. -/
def wcslen (s : List Nat) : Nat := (s.takeWhile fun c => c != 0).length

/-- The characters `lstrcpy(VolumeInfo->VolumeLabel, L"VirtFS")` stores. -/
abbrev defaultLabel : List Nat := [0x56, 0x69, 0x72, 0x74, 0x46, 0x53, 0]

/-- The value of `sizeof(FUSE_STATFS_IN)`: the header alone. -/
abbrev sizeof_FUSE_STATFS_IN : Nat := sizeof_fuse_in_header

/-- The value of `sizeof(FUSE_STATFS_OUT)`: header and `fuse_statfs_out`. -/
abbrev sizeof_FUSE_STATFS_OUT : Nat := sizeof_fuse_out_header + sizeof_fuse_statfs_out

/-- The callback `GetVolumeInfo`. -/
def GetVolumeInfo (env : Env) (w : World) (VirtFs : VIRTFS)
    (VolumeInfo : FSP_FSCTL_VOLUME_INFO) : VolumeInfoOut :=
  let (Result, label) := env.GetVolumeName VirtFs.Device VolumeInfo.VolumeLabel
  let w0 := w.emit (.GetVolumeName VirtFs.Device)
  let VolumeLabel :=
    if Result = false then defaultLabel ++ label.drop defaultLabel.length else label
  let (hdr, w1) := FUSE_HEADER_INIT env w0 FUSE_STATFS FUSE_ROOT_ID 0
  let req : Request :=
    { hdr := hdr
      body := .none
      data := []
      InBufferSize := sizeof_FUSE_STATFS_IN
      OutBufferSize := sizeof_FUSE_STATFS_OUT }
  let (Status, statfs_out, w2) := VirtFsFuseRequest env w1 VirtFs.Device req
  if NT_SUCCESS Status then
    { Status := Status
      VolumeInfo :=
        { TotalSize := (statfs_out.statfs.bsize * statfs_out.statfs.blocks) % 2 ^ 64
          FreeSize := (statfs_out.statfs.bsize * statfs_out.statfs.bavail) % 2 ^ 64
          VolumeLabelLength := (wcslen VolumeLabel * 2) % 2 ^ 16
          VolumeLabel := VolumeLabel }
      world := w2 }
  else
    { Status := Status
      VolumeInfo := { VolumeInfo with VolumeLabel := VolumeLabel }
      world := w2 }

/-- The callback `SetVolumeLabel_`: its parameters are unreferenced. -/
def SetVolumeLabel_ (w : World) : Nat × World :=
  (STATUS_INVALID_DEVICE_REQUEST, w)

/-- Status, volume state, `*PFileAttributes`, descriptor buffer,
`*PSecurityDescriptorSize` (each `none` for a NULL pointer) and world after
`GetSecurityByName`. -/
structure SecurityByNameOut where
  Status : Nat
  VirtFs : VIRTFS
  PFileAttributes : Option Nat
  SecurityDescriptor : Option (List Nat)
  PSecurityDescriptorSize : Option Nat
  world : World
  deriving DecidableEq, Repr

/-- The callback `GetSecurityByName`.  A `memcpy` of more bytes than the
descriptor or the caller's buffer holds is a fault. -/
def GetSecurityByName (env : Env) (w : World) (VirtFs : VIRTFS) (FileName : List Nat)
    (PFileAttributes : Option Nat) (SecurityDescriptor : Option (List Nat))
    (PSecurityDescriptorSize : Option Nat) : Except Fault SecurityByNameOut :=
  let (Status, lookup_out, w1) :=
    VirtFsLookupFileName env w VirtFs.Device FileName env.Uninitialized
  if NT_SUCCESS Status then
    let attr := lookup_out.entry.attr
    let VirtFs1 :=
      if FileName = rootPath then { VirtFs with OwnerUid := attr.uid, OwnerGid := attr.gid }
      else VirtFs
    let PFileAttributes1 := PFileAttributes.map fun _ => PosixUnixModeToAttributes attr.mode
    let (Status1, Security) :=
      env.FspPosixMapPermissionsToSecurityDescriptor OWNER_UID OWNER_GID attr.mode
    if NT_SUCCESS Status1 then
      let SecuritySize := env.GetSecurityDescriptorLength Security % 2 ^ 32
      let w2 := w1.emit (.HeapFree .Security)
      if (match PSecurityDescriptorSize with
          | some n => decide (n < SecuritySize)
          | none => false) = true then
        .ok { Status := STATUS_BUFFER_OVERFLOW, VirtFs := VirtFs1
              PFileAttributes := PFileAttributes1, SecurityDescriptor := SecurityDescriptor
              PSecurityDescriptorSize := PSecurityDescriptorSize.map fun _ => SecuritySize
              world := w2 }
      else
        match SecurityDescriptor with
        | none =>
          .ok { Status := Status1, VirtFs := VirtFs1, PFileAttributes := PFileAttributes1
                SecurityDescriptor := none
                PSecurityDescriptorSize := PSecurityDescriptorSize.map fun _ => SecuritySize
                world := w2 }
        | some sd =>
          if Security.length < SecuritySize ∨ sd.length < SecuritySize then
            .error .out_of_bounds
          else
            .ok { Status := Status1, VirtFs := VirtFs1, PFileAttributes := PFileAttributes1
                  SecurityDescriptor := some (Security.take SecuritySize ++ sd.drop SecuritySize)
                  PSecurityDescriptorSize := PSecurityDescriptorSize.map fun _ => SecuritySize
                  world := w2 }
    else
      .ok { Status := Status1, VirtFs := VirtFs1, PFileAttributes := PFileAttributes1
            SecurityDescriptor := SecurityDescriptor
            PSecurityDescriptorSize := PSecurityDescriptorSize.map fun _ => 0
            world := w1 }
  else
    .ok { Status := Status, VirtFs := VirtFs, PFileAttributes := PFileAttributes
          SecurityDescriptor := SecurityDescriptor
          PSecurityDescriptorSize := PSecurityDescriptorSize, world := w1 }

/-- Status, descriptor buffer (`none` for a NULL pointer),
`*PSecurityDescriptorSize` and world after `GetSecurity`. -/
structure GetSecurityOut where
  Status : Nat
  SecurityDescriptor : Option (List Nat)
  PSecurityDescriptorSize : Nat
  world : World
  deriving DecidableEq, Repr

/-- The callback `GetSecurity`.  A `CopyMemory` of more bytes than the
descriptor or the caller's buffer holds is a fault. -/
def GetSecurity (env : Env) (w : World) (VirtFs : VIRTFS) (FileContext : VIRTFS_FILE_CONTEXT)
    (SecurityDescriptor : Option (List Nat)) (PSecurityDescriptorSize : Nat) :
    Except Fault GetSecurityOut :=
  let r := GetFileInfoInternal env w VirtFs.Device FileContext.NodeId
    FileContext.FileHandle none (some env.UninitializedDescriptor)
  let Security := r.SecurityDescriptor.getD env.UninitializedDescriptor
  if !NT_SUCCESS r.Status then
    .ok { Status := r.Status, SecurityDescriptor := SecurityDescriptor
          PSecurityDescriptorSize := 0, world := r.world }
  else
    let SecurityLength := env.GetSecurityDescriptorLength Security % 2 ^ 32
    let w1 := r.world.emit (.HeapFree .Security)
    if PSecurityDescriptorSize < SecurityLength then
      .ok { Status := STATUS_BUFFER_TOO_SMALL, SecurityDescriptor := SecurityDescriptor
            PSecurityDescriptorSize := SecurityLength, world := w1 }
    else
      match SecurityDescriptor with
      | none =>
        .ok { Status := STATUS_SUCCESS, SecurityDescriptor := none
              PSecurityDescriptorSize := SecurityLength, world := w1 }
      | some sd =>
        if Security.length < SecurityLength ∨ sd.length < SecurityLength then
          .error .out_of_bounds
        else
          .ok { Status := STATUS_SUCCESS
                SecurityDescriptor := some (Security.take SecurityLength ++ sd.drop SecurityLength)
                PSecurityDescriptorSize := SecurityLength, world := w1 }

/-- The function `VirtFsDelete`. -/
def VirtFsDelete (w : World) (VirtFs : VIRTFS) : World :=
  let w1 := if VirtFs.FileSystem ≠ 0 then w.emit .FspFileSystemDelete else w
  let w2 := if VirtFs.Device ≠ INVALID_HANDLE_VALUE then w1.emit (.CloseHandle VirtFs.Device)
    else w1
  w2.emit (.HeapFree .VirtFs)

/-- The function `FindDeviceInterface`, its Win32 calls taken together. -/
def FindDeviceInterface (env : Env) (Device : Nat) : Nat × Nat :=
  env.FindDeviceInterface Device

/-- The value of `sizeof(VIRTFS)`. -/
abbrev sizeof_VIRTFS : Nat := 24

/-- The value of `sizeof(FUSE_INIT_IN)`: header and `fuse_init_in`. -/
abbrev sizeof_FUSE_INIT_IN : Nat := sizeof_fuse_in_header + sizeof_fuse_init_in

/-- The value of `sizeof(FUSE_INIT_OUT)`: header and `fuse_init_out`. -/
abbrev sizeof_FUSE_INIT_OUT : Nat := sizeof_fuse_out_header + sizeof_fuse_init_out

/-- Status, the volume state when the service started (`none` when it was
deleted) and world after `SvcStart`. -/
structure SvcStartOut where
  Status : Nat
  VirtFs : Option VIRTFS
  world : World
  deriving DecidableEq, Repr

/-- The function `SvcStart`; the volume parameters it fills in are handed to
`FspFileSystemCreate` and not modelled. -/
def SvcStart (env : Env) (w : World) : SvcStartOut :=
  let ok := env.HeapAlloc w.allocs
  let w1 := w.emit (.HeapAlloc .VirtFs sizeof_VIRTFS ok)
  if !ok then
    { Status := STATUS_INSUFFICIENT_RESOURCES, VirtFs := none, world := w1 }
  else
    let (Status, Device) := FindDeviceInterface env 0
    let VirtFs : VIRTFS := { FileSystem := 0, Device := Device, OwnerUid := 0, OwnerGid := 0 }
    if !NT_SUCCESS Status then
      { Status := Status, VirtFs := none, world := VirtFsDelete w1 VirtFs }
    else
      let (hdr, w2) := FUSE_HEADER_INIT env w1 FUSE_INIT FUSE_ROOT_ID sizeof_fuse_init_in
      let req : Request :=
        { hdr := hdr
          body := .init FUSE_KERNEL_VERSION env.FUSE_KERNEL_MINOR_VERSION 0 FUSE_DO_READDIRPLUS
          data := []
          InBufferSize := sizeof_FUSE_INIT_IN
          OutBufferSize := sizeof_FUSE_INIT_OUT }
      let (Status, _, w3) := VirtFsFuseRequest env w2 VirtFs.Device req
      if !NT_SUCCESS Status then
        { Status := Status, VirtFs := none, world := VirtFsDelete w3 VirtFs }
      else
        let (Status, FileSystem) := env.FspFileSystemCreate
        let VirtFs := { VirtFs with FileSystem := FileSystem }
        if !NT_SUCCESS Status then
          { Status := Status, VirtFs := none, world := VirtFsDelete w3 VirtFs }
        else
          let Status := env.FspFileSystemSetMountPoint
          let Status := if NT_SUCCESS Status then env.FspFileSystemStartDispatcher else Status
          if !NT_SUCCESS Status then
            { Status := Status, VirtFs := none, world := VirtFsDelete w3 VirtFs }
          else
            { Status := Status, VirtFs := some VirtFs, world := w3 }

/-- The function `SvcStop`. -/
def SvcStop (w : World) (VirtFs : VIRTFS) : Nat × World :=
  (STATUS_SUCCESS, VirtFsDelete (w.emit .FspFileSystemStopDispatcher) VirtFs)

/-! ## Wire format of READDIRPLUS listings -/

/-- The `n`-byte little-endian encoding of a value. -/
def enc : Nat → Nat → List Nat
  | 0, _ => []
  | n + 1, v => v % 256 :: enc n (v / 256)

/-- A wire attribute record laid out as `struct fuse_attr`. -/
def encode_fuse_attr (a : fuse_attr) : List Nat :=
  enc 8 a.ino ++ (enc 8 a.size ++ (enc 8 a.blocks ++ (enc 8 a.atime ++ (enc 8 a.mtime ++
  (enc 8 a.ctime ++ (enc 4 a.atimensec ++ (enc 4 a.mtimensec ++ (enc 4 a.ctimensec ++
  (enc 4 a.mode ++ (enc 4 a.nlink ++ (enc 4 a.uid ++ (enc 4 a.gid ++ (enc 4 a.rdev ++
  (enc 4 a.blksize ++ enc 4 a.padding))))))))))))))

/-- Every field of the attribute record fits its C type. -/
def fuse_attr.WF (a : fuse_attr) : Prop :=
  a.ino < 2 ^ 64 ∧ a.size < 2 ^ 64 ∧ a.blocks < 2 ^ 64 ∧ a.atime < 2 ^ 64 ∧
  a.mtime < 2 ^ 64 ∧ a.ctime < 2 ^ 64 ∧ a.atimensec < 2 ^ 32 ∧ a.mtimensec < 2 ^ 32 ∧
  a.ctimensec < 2 ^ 32 ∧ a.mode < 2 ^ 32 ∧ a.nlink < 2 ^ 32 ∧ a.uid < 2 ^ 32 ∧
  a.gid < 2 ^ 32 ∧ a.rdev < 2 ^ 32 ∧ a.blksize < 2 ^ 32 ∧ a.padding < 2 ^ 32

instance (a : fuse_attr) : Decidable a.WF := by
  unfold fuse_attr.WF
  infer_instance

/-- One entry of a READDIRPLUS listing: the `fuse_entry_out`, the fixed
fields of the `fuse_dirent`, the name, and the padding that follows it. -/
structure DirentPlus where
  entry_out : fuse_entry_out
  ino : Nat
  off : Nat
  type : Nat
  name : List Nat
  pad : List Nat
  deriving DecidableEq, Repr

/-- The fixed part of an entry laid out as `struct fuse_direntplus`, up to
the name. -/
def encode_direntplus_fixed (d : DirentPlus) : List Nat :=
  enc 8 d.entry_out.nodeid ++ (enc 8 d.entry_out.generation ++
  (enc 8 d.entry_out.entry_valid ++ (enc 8 d.entry_out.attr_valid ++
  (enc 4 d.entry_out.entry_valid_nsec ++ (enc 4 d.entry_out.attr_valid_nsec ++
  (encode_fuse_attr d.entry_out.attr ++ (enc 8 d.ino ++ (enc 8 d.off ++
  (enc 4 d.name.length ++ enc 4 d.type)))))))))

/-- An entry as it stands in a READDIRPLUS payload. -/
def encode_direntplus (d : DirentPlus) : List Nat :=
  encode_direntplus_fixed d ++ (d.name ++ d.pad)

/-- A payload: the entries one after the other. -/
def encode_listing : List DirentPlus → List Nat
  | [] => []
  | d :: ds => encode_direntplus d ++ encode_listing ds

/-- A well-formed entry: the fields its parser reads fit their C types, the
name is not empty, and the padding completes the entry to the size
`FUSE_DIRENTPLUS_SIZE` gives it. -/
def DirentPlus.WF (d : DirentPlus) : Prop :=
  d.entry_out.attr.WF ∧ d.off < 2 ^ 64 ∧ d.name.length < 2 ^ 32 ∧ d.name ≠ [] ∧
  FUSE_NAME_OFFSET_DIRENTPLUS + d.name.length + d.pad.length
    = FUSE_DIRENTPLUS_SIZE d.name.length

instance (d : DirentPlus) : Decidable d.WF := by
  unfold DirentPlus.WF
  infer_instance

/-- The offset the entry loop leaves in `Offset` after a listing: that of
the last entry, or the one it started with. -/
def lastOff (Offset : Nat) (ds : List DirentPlus) : Nat :=
  ds.foldl (fun _ d => d.off) Offset

/-- A successful READDIRPLUS response whose payload is the given listing:
the device call succeeded, the result code is not negative, the declared
length is the header plus the payload, and the payload heads the buffer. -/
def Reply.carries (rep : Reply) (ds : List DirentPlus) : Prop :=
  rep.Result = true ∧ 0 ≤ rep.hdr.error ∧
  rep.hdr.len = sizeof_fuse_out_header + (encode_listing ds).length ∧
  rep.hdr.len < 2 ^ 32 ∧
  ∃ junk, rep.buf = encode_listing ds ++ junk

/-- The device answers the next requests, whatever they are, with responses
carrying the given listings, one after the other; `n` is the number of
requests sent before. -/
def Serves (env : Env) : Nat → List (List DirentPlus) → Prop
  | _, [] => True
  | n, r :: rs =>
    (∀ history, history.length = n + 1 → (env.device history).carries r) ∧
    Serves env (n + 1) rs

/-- The offsets at which the fill loop is to request a listing delivered in
the given responses and closed by an empty one. -/
def requestOffsets : Nat → List (List DirentPlus) → List Nat
  | Offset, [] => [Offset]
  | Offset, r :: rs => Offset :: requestOffsets (lastOff Offset r) rs

/-! ## Reference mappings written from the specification -/

/-- The error table as the specification words it: a non-negative result
code is success, and the negative codes map to permission-denied, not-found,
io-device-error, invalid-handle, invalid-argument, anything else to the
generic failure. -/
def spec_ErrorTranslator (code : Int) : Nat :=
  if 0 ≤ code then STATUS_SUCCESS
  else if code = -1 then STATUS_ACCESS_DENIED
  else if code = -2 then STATUS_OBJECT_NAME_NOT_FOUND
  else if code = -5 then STATUS_IO_DEVICE_ERROR
  else if code = -9 then STATUS_INVALID_HANDLE
  else if code = -22 then STATUS_INVALID_PARAMETER
  else STATUS_UNSUCCESSFUL

/-- The flag tie-break as the specification words it, on the individual
access bits (bit 0 is FILE_READ_DATA, bit 1 is FILE_WRITE_DATA): write-only
gives O_WRONLY, read-and-write O_RDWR, read-only and neither give
O_RDONLY. -/
def spec_baseFlag (GrantedAccess : Nat) : Nat :=
  let r := GrantedAccess.testBit 0
  let wr := GrantedAccess.testBit 1
  if wr && !r then O_WRONLY
  else if wr && r then O_RDWR
  else O_RDONLY

/-- The directory entry `ReadDirectory` is to hand to the directory buffer
for a listing entry. -/
def spec_dirInfo (env : Env) (d : DirentPlus) : FSP_FSCTL_DIR_INFO :=
  { Size := (sizeof_FSP_FSCTL_DIR_INFO + (env.MultiByteToWideChar d.name).length * 2) % 2 ^ 16
    FileInfo := SetFileInfo env d.entry_out.attr zeroFileInfo
    FileNameBuf := env.MultiByteToWideChar d.name }

/-! ## Observations on the trace -/

/-- The size field of a WRITE request. -/
def Event.writeSize? : Event → Option Nat
  | .request _ r =>
    match r.body with
    | .write _ _ size _ _ _ => some size
    | _ => none
  | _ => none

/-- The size fields of the WRITE requests of a trace, oldest first. -/
def writeSizes (log : List Event) : List Nat := log.filterMap Event.writeSize?

/-- The handle and the offset of a READDIRPLUS request. -/
def Event.readdirplus? : Event → Option (Nat × Nat)
  | .request _ r =>
    if r.hdr.opcode = FUSE_READDIRPLUS then
      match r.body with
      | .read fh offset _ _ _ _ => some (fh, offset)
      | _ => none
    else none
  | _ => none

/-- The READDIRPLUS request a round of the fill loop sends from a given
world. -/
def roundRequest (env : Env) (w : World) (fh Offset : Nat) : Request :=
  readdirplusRequest
    { len := (sizeof_fuse_in_header + sizeof_fuse_read_in) % 2 ^ 32
      opcode := FUSE_READDIRPLUS, unique := (w.uniq + 1) % 2 ^ 64, nodeid := FUSE_ROOT_ID
      uid := 0, gid := 0, pid := env.GetCurrentProcessId } fh Offset

/-- The world after that request. -/
def roundWorld (env : Env) (w : World) (VirtFs : VIRTFS) (fh Offset : Nat) : World :=
  { uniq := (w.uniq + 1) % 2 ^ 64
    log := w.log ++ [.request VirtFs.Device (roundRequest env w fh Offset)] }

/-- The READDIRPLUS exchange of one round of the fill loop, as the loop body
performs it: the status, the response and the world it leaves. -/
def roundOutcome (env : Env) (w : World) (VirtFs : VIRTFS) (fh Offset : Nat) :
    Nat × Reply × World :=
  VirtFsFuseRequest env
    (FUSE_HEADER_INIT env w FUSE_READDIRPLUS FUSE_ROOT_ID sizeof_fuse_read_in).2 VirtFs.Device
    (readdirplusRequest
      (FUSE_HEADER_INIT env w FUSE_READDIRPLUS FUSE_ROOT_ID sizeof_fuse_read_in).1 fh Offset)

/-! ## Concrete environments on which the model is evaluated -/

/-- An attribute record of zeros. -/
def zeroAttr : fuse_attr :=
  { ino := 0, size := 0, blocks := 0, atime := 0, mtime := 0, ctime := 0
    atimensec := 0, mtimensec := 0, ctimensec := 0, mode := 0, nlink := 0
    uid := 0, gid := 0, rdev := 0, blksize := 0, padding := 0 }

/-- A successful, empty response: only the header, result code zero. -/
def emptyReply : Reply :=
  { Result := true, LastError := 0, BytesReturned := 16
    hdr := { len := 16, error := 0, unique := 0 }
    entry := { nodeid := 0, generation := 0, entry_valid := 0, attr_valid := 0
               entry_valid_nsec := 0, attr_valid_nsec := 0, attr := zeroAttr }
    fh := 0, attr := zeroAttr, write_size := 0, buf := []
    statfs := { blocks := 0, bfree := 0, bavail := 0, files := 0, ffree := 0, bsize := 0
                namelen := 0, frsize := 0 } }

/-- A remote side that answers the n-th request of the run with the n-th
reply of a script, and with `emptyReply` once the script is used up; every
allocation succeeds, paths and names convert to themselves. -/
def scriptedEnv (script : List Reply) : Env :=
  { device := fun history => script.getD (history.length - 1) emptyReply
    HeapAlloc := fun _ => true
    FspNtStatusFromWin32 := fun e => 0xC0070000 + e % 65536
    GetCurrentProcessId := 4242
    FspPosixMapWindowsToPosixPath := fun p => (STATUS_SUCCESS, p)
    FspPosixUnixTimeToFileTime := fun sec word => sec * 10000000 + word / 100
    FspPosixMapSecurityDescriptorToPermissions := fun _ => (STATUS_SUCCESS, 0, 0, 0o644)
    FspPosixMapPermissionsToSecurityDescriptor := fun _ _ mode => (STATUS_SUCCESS, [mode])
    MultiByteToWideChar := fun name => name
    FspFileSystemFillDirectoryBuffer := fun _ _ => (true, STATUS_SUCCESS)
    DirectoryBufferAlloc := true
    FspFileSystemReadDirectoryBuffer := fun _ _ _ => ([], 0)
    Uninitialized := emptyReply
    UninitializedFileInfo := zeroFileInfo
    UninitializedDescriptor := []
    FspPosixFileTimeToUnixTime := fun t => (t / 10000000, t % 10000000 * 100)
    FspSetSecurityDescriptor := fun _ _ modification => (STATUS_SUCCESS, modification)
    HeapGarbage := fun n => List.replicate n 0
    GetVolumeName := fun _ label => (false, label)
    GetSecurityDescriptorLength := fun sd => sd.length
    FindDeviceInterface := fun _ => (STATUS_SUCCESS, 7)
    FUSE_KERNEL_MINOR_VERSION := 31
    FspFileSystemCreate := (STATUS_SUCCESS, 99)
    FspFileSystemSetMountPoint := STATUS_SUCCESS
    FspFileSystemStartDispatcher := STATUS_SUCCESS }

/-- The world at service start: the counter holds 1, nothing has happened. -/
def World.initial : World := { uniq := 1, log := [] }

/-- A volume state with device handle 7. -/
def demoVirtFs : VIRTFS := { FileSystem := 99, Device := 7, OwnerUid := 1000, OwnerGid := 1000 }

/-- A request used to exercise the transport call. -/
def demoRequest : Request :=
  { hdr := { len := 40, opcode := FUSE_STATFS, unique := 2, nodeid := FUSE_ROOT_ID
             uid := 0, gid := 0, pid := 4242 }
    body := .none, data := [], InBufferSize := 40, OutBufferSize := 16 }

/-- A response header-only reply carrying the given result code. -/
def errorReply (code : Int) : Reply :=
  { emptyReply with hdr := { len := 16, error := code, unique := 2 } }

/-- A GETATTR reply reporting the given file size. -/
def getattrReply (size : Nat) : Reply :=
  { emptyReply with
    BytesReturned := 120
    hdr := { len := 120, error := 0, unique := 0 }
    attr := { zeroAttr with size := size, mode := 0x81A4 } }

/-- A WRITE reply reporting the given number of bytes written. -/
def writeReply (size : Nat) : Reply :=
  { emptyReply with
    BytesReturned := 24
    hdr := { len := 24, error := 0, unique := 0 }
    write_size := size }

/-- A LOOKUP, MKDIR or CREATE style reply: node id 5, handle 9, the given
mode. -/
def entryReply (mode : Nat) : Reply :=
  { emptyReply with
    BytesReturned := 160
    hdr := { len := 160, error := 0, unique := 0 }
    entry := { emptyReply.entry with nodeid := 5, attr := { zeroAttr with mode := mode } }
    fh := 9 }

/-- A READDIRPLUS response carrying the given listing and nothing else. -/
def listingReply (ds : List DirentPlus) : Reply :=
  { emptyReply with
    BytesReturned := 16 + (encode_listing ds).length
    hdr := { len := 16 + (encode_listing ds).length, error := 0, unique := 0 }
    buf := encode_listing ds }

/-- An open regular file: node 5, handle 3. -/
def demoFile : VIRTFS_FILE_CONTEXT :=
  { DirBuffer := none, IsDirectory := false, NodeId := 5, FileHandle := 3 }

/-- An open directory: node 1, handle 4, no directory buffer yet. -/
def demoDir : VIRTFS_FILE_CONTEXT :=
  { DirBuffer := none, IsDirectory := true, NodeId := 1, FileHandle := 4 }

/-- The wide string `L"\\d"`. -/
def demoPath : List Nat := [0x5C, 0x64]

/-- A listing entry for a regular file of the given one-byte name, size and
next offset. -/
def demoEntry (c size off : Nat) : DirentPlus :=
  { entry_out := { emptyReply.entry with
      nodeid := 10 + off
      attr := { zeroAttr with ino := 10 + off, size := size, blocks := 8, mode := 0x81A4
                              nlink := 1, blksize := 512 } }
    ino := 10 + off, off := off, type := 8, name := [c], pad := List.replicate 7 0 }

/-- A listing of three entries delivered in two responses, then the empty
response that ends it. -/
def demoListing : List (List DirentPlus) :=
  [[demoEntry 0x61 10 1, demoEntry 0x62 20 2], [demoEntry 0x63 30 3]]

/-- The replies of a remote side serving `demoListing`. -/
def demoScript : List Reply :=
  [listingReply [demoEntry 0x61 10 1, demoEntry 0x62 20 2],
   listingReply [demoEntry 0x63 30 3], listingReply []]

/-! ## Transport exchanges, trace observations and further environments -/

/-- The GETATTR exchange of `GetFileInfoInternal`, as the function performs
it: the status, the response and the world it leaves. -/
def getattrExchange (env : Env) (w : World) (Device nodeid fh : Nat) : Nat × Reply × World :=
  VirtFsFuseRequest env
    (FUSE_HEADER_INIT env w FUSE_GETATTR nodeid sizeof_fuse_getattr_in).2 Device
    { hdr := (FUSE_HEADER_INIT env w FUSE_GETATTR nodeid sizeof_fuse_getattr_in).1
      body := .getattr (if fh ≠ 0 then 0 ||| FUSE_GETATTR_FH else 0) fh
      data := []
      InBufferSize := sizeof_fuse_in_header + sizeof_fuse_getattr_in
      OutBufferSize := sizeof_fuse_out_header + sizeof_fuse_attr_out }

/-- The READ exchange of `Read`, as the callback performs it after a
successful allocation: the status, the response and the world it leaves. -/
def readExchange (env : Env) (w : World) (VirtFs : VIRTFS) (FileContext : VIRTFS_FILE_CONTEXT)
    (Offset Length : Nat) : Nat × Reply × World :=
  VirtFsFuseRequest env
    (FUSE_HEADER_INIT env
      (w.emit (.HeapAlloc .read_out (sizeof_FUSE_READ_OUT + Length) true))
      FUSE_READ FileContext.NodeId Length).2 VirtFs.Device
    { hdr := (FUSE_HEADER_INIT env
        (w.emit (.HeapAlloc .read_out (sizeof_FUSE_READ_OUT + Length) true))
        FUSE_READ FileContext.NodeId Length).1
      body := .read FileContext.FileHandle Offset Length 0 0 0
      data := []
      InBufferSize := sizeof_FUSE_READ_IN
      OutBufferSize := (sizeof_FUSE_READ_OUT + Length) % 2 ^ 32 }

/-- A READ reply of the given declared total length and payload bytes. -/
def readReply (len : Nat) (buf : List Nat) : Reply :=
  { emptyReply with
    BytesReturned := 16 + buf.length
    hdr := { len := len, error := 0, unique := 0 }
    buf := buf }

/-- The mode of a socket with permission bits 0755: `S_IFSOCK | 0755`. -/
def socketMode : Nat := 0xC1ED

/-- The opcode and payload of each request of a trace, oldest first. -/
def sentOps (w : World) : List (Nat × Payload) :=
  w.requests.map fun p => (p.2.hdr.opcode, p.2.body)

/-- The SETATTR request by which `SetSecurity` stores a new mode, sent from a
given world. -/
def modeRequest (env : Env) (w : World) (nodeid NewMode : Nat) : Request :=
  { hdr := { len := (sizeof_fuse_in_header + sizeof_fuse_setattr_in) % 2 ^ 32
             opcode := FUSE_SETATTR, unique := (w.uniq + 1) % 2 ^ 64, nodeid := nodeid
             uid := 0, gid := 0, pid := env.GetCurrentProcessId }
    body := .setattr { zero_setattr with valid := FATTR_MODE, mode := NewMode }
    data := []
    InBufferSize := sizeof_FUSE_SETATTR_IN
    OutBufferSize := sizeof_FUSE_SETATTR_OUT }

/-- A GETATTR reply reporting the given mode. -/
def modeReply (mode : Nat) : Reply :=
  { getattrReply 0 with attr := { zeroAttr with mode := mode } }

/-- An environment like `scriptedEnv` in which the permissions derived from a
descriptor are its first word. -/
def securityEnv (script : List Reply) : Env :=
  { scriptedEnv script with
    FspPosixMapSecurityDescriptorToPermissions := fun sd => (STATUS_SUCCESS, 0, 0, sd.headD 0) }

/-- An environment like `scriptedEnv` whose directory buffer takes a given
number of entries and refuses the next. -/
def boundedFillEnv (capacity : Nat) (script : List Reply) : Env :=
  { scriptedEnv script with
    FspFileSystemFillDirectoryBuffer := fun b _ =>
      if b.length < capacity then (true, STATUS_SUCCESS)
      else (false, STATUS_INSUFFICIENT_RESOURCES) }

/-- A listing entry with the 12-byte name `long-name.tx`, 168 bytes long. -/
def overlongEntry : DirentPlus :=
  { demoEntry 0x6C 10 1 with
    name := [0x6C, 0x6F, 0x6E, 0x67, 0x2D, 0x6E, 0x61, 0x6D, 0x65, 0x2E, 0x74, 0x78]
    pad := List.replicate 4 0 }

/-- A successful READDIRPLUS response that declares a payload of 160 bytes
(total length 176) whose single entry, `overlongEntry`, declares a size of
168 bytes.  The response buffer holds that entry and, after it, what an
earlier response left there: two entries named `g` and `h`. -/
def truncatedReply : Reply :=
  { emptyReply with
    BytesReturned := 176
    hdr := { len := 176, error := 0, unique := 0 }
    buf := encode_listing [overlongEntry, demoEntry 0x67 20 2, demoEntry 0x68 30 3] }

/-- The names of the entries in the directory buffer a round of the fill loop
hands to the next round. -/
def Round.names : Round → Option (List (List Nat))
  | .again _ _ b => some (b.map fun d => d.FileNameBuf)
  | .exit _ => none

/-- A remote side serving a directory of two files, `a` (next offset 1) and
`b` (next offset 2): a READDIRPLUS at offset 0 is answered with both entries,
at offset 1 with `b`, at any other offset with the empty response. -/
def twoFileDevice (history : List (Nat × Request)) : Reply :=
  match history.getLast? with
  | some (_, r) =>
    match r.body with
    | .read _ offset _ _ _ _ =>
      if offset = 0 then listingReply [demoEntry 0x61 10 1, demoEntry 0x62 20 2]
      else if offset = 1 then listingReply [demoEntry 0x62 20 2]
      else listingReply []
    | _ => emptyReply
  | none => emptyReply

/-- An environment with that remote side and a directory buffer that takes
one entry and refuses the next. -/
def fullBufferEnv : Env :=
  { boundedFillEnv 1 [] with device := twoFileDevice }

/-- The directory-buffer entry of the file `a`. -/
def entryA : FSP_FSCTL_DIR_INFO := spec_dirInfo fullBufferEnv (demoEntry 0x61 10 1)

/-- The opcode, the declared length `hdr.len` and the size handed to the
transport call, for each request of a trace, oldest first. -/
def sentLengths (w : World) : List (Nat × Nat × Nat) :=
  w.requests.map fun p => (p.2.hdr.opcode, p.2.hdr.len, p.2.InBufferSize)

/-- The SETATTR records of the requests of a trace, oldest first. -/
def sentSetattrs (w : World) : List fuse_setattr_in :=
  w.requests.filterMap fun p =>
    match p.2.body with
    | .setattr s => some s
    | _ => none

/-- The handle and the opcode of each request of a trace, oldest first. -/
def sentHandles (w : World) : List (Nat × Nat) :=
  w.requests.map fun p => (p.1, p.2.hdr.opcode)

/-- The mode of a block device with permission bits 0660: `S_IFBLK | 0660`. -/
def blockDeviceMode : Nat := 0x61B0

/-! ## Credentials and unique ids along a run -/

/-- The credentials a request is to carry: the cached owner identity of the
volume state for CREATE and MKDIR, zero for every other opcode. -/
def credsOK (VirtFs : VIRTFS) (r : Request) : Prop :=
  if r.hdr.opcode = FUSE_CREATE ∨ r.hdr.opcode = FUSE_MKDIR then
    r.hdr.uid = VirtFs.OwnerUid ∧ r.hdr.gid = VirtFs.OwnerGid
  else r.hdr.uid = 0 ∧ r.hdr.gid = 0

instance (VirtFs : VIRTFS) (r : Request) : Decidable (credsOK VirtFs r) := by
  unfold credsOK
  infer_instance

/-- The way the trace and the counter of `GetUniqueIdentifier` move from one
world to a later one: by effects that are not requests, which leave the
counter alone, and by requests that satisfy `P`, each sent with the counter
incremented and carrying the incremented value as its unique id. -/
inductive Stamps (P : Request → Prop) : World → World → Prop
  | refl (w : World) : Stamps P w w
  | event {w w1 : World} (e : Event) :
      Stamps P w w1 → e.sent? = none → Stamps P w (w1.emit e)
  | request {w w1 : World} (d : Nat) (r : Request) :
      Stamps P w w1 → P r → r.hdr.unique = (w1.uniq + 1) % 2 ^ 64 →
      Stamps P w (World.emit ⟨(w1.uniq + 1) % 2 ^ 64, w1.log⟩ (.request d r))

/-- The unique ids of the requests of a trace, oldest first. -/
def uniqueIds (w : World) : List Nat := w.requests.map fun p => p.2.hdr.unique

/-- A step from one world to another adds requests that all carry the
credentials they are to carry for the given volume state, and removes or
changes none. -/
def AddsWithCreds (VirtFs : VIRTFS) (w w1 : World) : Prop :=
  ∃ added : List (Nat × Request),
    w1.requests = w.requests ++ added ∧ ∀ p ∈ added, credsOK VirtFs p.2

/-- The worlds a sequential run of the service can reach: from the initial
world by `SvcStart`, the callbacks of `VirtFsInterface` and `SvcStop`, in any
order and with any arguments; a call that faults, or a `ReadDirectory` that
does not return, ends the run. -/
inductive Run (env : Env) : World → Prop
  | start : Run env World.initial
  | svcStart {w : World} : Run env w → Run env (SvcStart env w).world
  | svcStop {w : World} (VirtFs : VIRTFS) : Run env w → Run env (SvcStop w VirtFs).2
  | getVolumeInfo {w : World} (VirtFs : VIRTFS) (VolumeInfo : FSP_FSCTL_VOLUME_INFO) :
      Run env w → Run env (GetVolumeInfo env w VirtFs VolumeInfo).world
  | setVolumeLabel {w : World} : Run env w → Run env (SetVolumeLabel_ w).2
  | getSecurityByName {w : World} (VirtFs : VIRTFS) (FileName : List Nat)
      (PFileAttributes : Option Nat) (SecurityDescriptor : Option (List Nat))
      (PSecurityDescriptorSize : Option Nat) (r : SecurityByNameOut) :
      Run env w →
      GetSecurityByName env w VirtFs FileName PFileAttributes SecurityDescriptor
        PSecurityDescriptorSize = .ok r →
      Run env r.world
  | create {w : World} (VirtFs : VIRTFS) (FileName : List Nat)
      (CreateOptions GrantedAccess : Nat) (SecurityDescriptor : Option (List Nat))
      (PFileContext : Option VIRTFS_FILE_CONTEXT) (FileInfo : FSP_FSCTL_FILE_INFO) :
      Run env w →
      Run env (Create env w VirtFs FileName CreateOptions GrantedAccess SecurityDescriptor
        PFileContext FileInfo).world
  | open_ {w : World} (VirtFs : VIRTFS) (FileName : List Nat) (GrantedAccess : Nat)
      (PFileContext : Option VIRTFS_FILE_CONTEXT) (FileInfo : FSP_FSCTL_FILE_INFO) :
      Run env w → Run env (Open env w VirtFs FileName GrantedAccess PFileContext FileInfo).world
  | overwrite {w : World} (VirtFs : VIRTFS) (FileContext : VIRTFS_FILE_CONTEXT)
      (FileAttributes : Nat) (ReplaceFileAttributes : Bool) (AllocationSize : Nat)
      (FileInfo : FSP_FSCTL_FILE_INFO) :
      Run env w →
      Run env (Overwrite env w VirtFs FileContext FileAttributes ReplaceFileAttributes
        AllocationSize FileInfo).world
  | cleanup {w : World} (VirtFs : VIRTFS) (FileContext : VIRTFS_FILE_CONTEXT)
      (FileName : Option (List Nat)) (Flags : Nat) :
      Run env w → Run env (Cleanup env w VirtFs FileContext FileName Flags)
  | close {w : World} (VirtFs : VIRTFS) (FileContext : VIRTFS_FILE_CONTEXT) :
      Run env w → Run env (Close env w VirtFs FileContext)
  | read {w : World} (VirtFs : VIRTFS) (FileContext : VIRTFS_FILE_CONTEXT)
      (Buffer : Option (List Nat)) (Offset Length : Nat) (PBytesTransferred : Option Nat)
      (r : ReadOut) :
      Run env w →
      Read env w VirtFs FileContext Buffer Offset Length PBytesTransferred = .ok r →
      Run env r.world
  | write {w : World} (VirtFs : VIRTFS) (FileContext : VIRTFS_FILE_CONTEXT)
      (Buffer : Option (List Nat)) (Offset Length : Nat) (WriteToEndOfFile ConstrainedIo : Bool)
      (PBytesTransferred : Option Nat) (FileInfo : FSP_FSCTL_FILE_INFO) :
      Run env w →
      Run env (Write env w VirtFs FileContext Buffer Offset Length WriteToEndOfFile
        ConstrainedIo PBytesTransferred FileInfo).world
  | flush {w : World} (VirtFs : VIRTFS) (FileContext : VIRTFS_FILE_CONTEXT)
      (FileInfo : FSP_FSCTL_FILE_INFO) :
      Run env w → Run env (Flush env w VirtFs FileContext FileInfo).world
  | getFileInfo {w : World} (VirtFs : VIRTFS) (FileContext : VIRTFS_FILE_CONTEXT)
      (FileInfo : FSP_FSCTL_FILE_INFO) :
      Run env w → Run env (GetFileInfo env w VirtFs FileContext FileInfo).world
  | setBasicInfo {w : World} (VirtFs : VIRTFS) (FileContext : VIRTFS_FILE_CONTEXT)
      (FileAttributes CreationTime LastAccessTime LastWriteTime ChangeTime : Nat)
      (FileInfo : FSP_FSCTL_FILE_INFO) :
      Run env w →
      Run env (SetBasicInfo env w VirtFs FileContext FileAttributes CreationTime
        LastAccessTime LastWriteTime ChangeTime FileInfo).world
  | setFileSize {w : World} (VirtFs : VIRTFS) (FileContext : VIRTFS_FILE_CONTEXT)
      (NewSize : Nat) (SetAllocationSize : Bool) (FileInfo : FSP_FSCTL_FILE_INFO) :
      Run env w →
      Run env (SetFileSize env w VirtFs FileContext NewSize SetAllocationSize FileInfo).world
  | canDelete {w : World} (VirtFs : VIRTFS) (FileContext : VIRTFS_FILE_CONTEXT) :
      Run env w → Run env (CanDelete env w VirtFs FileContext).2
  | rename {w : World} (VirtFs : VIRTFS) (FileName NewFileName : List Nat)
      (ReplaceIfExists : Bool) :
      Run env w → Run env (Rename env w VirtFs FileName NewFileName ReplaceIfExists).2
  | getSecurity {w : World} (VirtFs : VIRTFS) (FileContext : VIRTFS_FILE_CONTEXT)
      (SecurityDescriptor : Option (List Nat)) (PSecurityDescriptorSize : Nat)
      (r : GetSecurityOut) :
      Run env w →
      GetSecurity env w VirtFs FileContext SecurityDescriptor PSecurityDescriptorSize = .ok r →
      Run env r.world
  | setSecurity {w : World} (VirtFs : VIRTFS) (FileContext : VIRTFS_FILE_CONTEXT)
      (SecurityInformation : Nat) (ModificationDescriptor : List Nat) :
      Run env w →
      Run env (SetSecurity env w VirtFs FileContext SecurityInformation
        ModificationDescriptor).2
  | readDirectory {w : World} (fuel : Nat) (VirtFs : VIRTFS)
      (FileContext : VIRTFS_FILE_CONTEXT) (Marker : Option (List Nat)) (Buffer : List Nat)
      (BufferLength PBytesTransferred : Nat) (r : ReadDirectoryOut) :
      Run env w →
      ReadDirectory env fuel w VirtFs FileContext Marker Buffer BufferLength
        PBytesTransferred = some (.ok r) →
      Run env r.world

/-- The credentials of the requests of a trace, with the opcode, oldest
first. -/
def sentCredentials (w : World) : List (Nat × Nat × Nat) :=
  w.requests.map fun p => (p.2.hdr.opcode, p.2.hdr.uid, p.2.hdr.gid)

/-! ## Theorems -/

/-! ### Request construction -/

/-- The header and world produced by `FUSE_HEADER_INIT`, spelled out. -/
theorem FUSE_HEADER_INIT_eq (env : Env) (w : World) (opcode nodeid datalen : Nat) :
    FUSE_HEADER_INIT env w opcode nodeid datalen =
      ({ len := (sizeof_fuse_in_header + datalen) % 2 ^ 32, opcode := opcode
         unique := (w.uniq + 1) % 2 ^ 64, nodeid := nodeid, uid := 0, gid := 0
         pid := env.GetCurrentProcessId }, { w with uniq := (w.uniq + 1) % 2 ^ 64 }) := rfl

/-- The three results of `VirtFsFuseRequest`, spelled out: the request is
appended to the trace, the device answers the history, the status is
`replyStatus` of the answer. -/
theorem VirtFsFuseRequest_eq (env : Env) (w : World) (Device : Nat) (req : Request) :
    VirtFsFuseRequest env w Device req =
      (replyStatus env (env.device (w.emit (.request Device req)).requests),
       env.device (w.emit (.request Device req)).requests,
       w.emit (.request Device req)) := by
  unfold VirtFsFuseRequest replyStatus
  dsimp only
  split_ifs <;> rfl

/-! ### C1: error mapping -/

/-- Counterexample to C1 as stated: for the result code -9 (EBADF) the
transport call succeeded, and the status returned by `VirtFsFuseRequest` is
the object-name-invalid status, not the invalid-handle status of the
specification table. -/
theorem C1_counterexample :
    (errorReply (-9)).Result = true ∧
    (VirtFsFuseRequest (scriptedEnv [errorReply (-9)]) World.initial 7 demoRequest).1
      = STATUS_OBJECT_NAME_INVALID ∧
    (VirtFsFuseRequest (scriptedEnv [errorReply (-9)]) World.initial 7 demoRequest).1
      ≠ spec_ErrorTranslator (-9) := by
  decide

/-- C1 (amended): whenever the transport call succeeded, the status returned
by `VirtFsFuseRequest` is a function of the response result code only; it is
the specification table at every code except -9 (EBADF), where it is the
object-name-invalid status. -/
theorem C1_status_function_of_result_code (env : Env) (w : World) (Device : Nat)
    (req : Request)
    (hok : (env.device (w.emit (.request Device req)).requests).Result = true) :
    (VirtFsFuseRequest env w Device req).1 =
      if (env.device (w.emit (.request Device req)).requests).hdr.error = -9 then
        STATUS_OBJECT_NAME_INVALID
      else spec_ErrorTranslator (env.device (w.emit (.request Device req)).requests).hdr.error := by
  simp only [VirtFsFuseRequest, hok, errorSwitch, spec_ErrorTranslator]
  generalize (env.device (w.emit (.request Device req)).requests).hdr.error = e
  by_cases h0 : e < 0
  · have hn : ¬ (0 ≤ e) := by omega
    simp only [h0, hn, if_true, if_false]
    by_cases h1 : e = -1
    · subst h1; simp
    by_cases h2 : e = -2
    · subst h2; simp
    by_cases h5 : e = -5
    · subst h5; simp
    by_cases h9 : e = -9
    · subst h9; simp
    by_cases h22 : e = -22
    · subst h22; simp
    simp [h1, h2, h5, h9, h22]
  · have hn : 0 ≤ e := by omega
    have h9 : e ≠ -9 := by omega
    simp [h0, hn, h9]

/-- Witness for C1: the amended table at a reply with result code -2. -/
theorem C1_witness :
    (VirtFsFuseRequest (scriptedEnv [errorReply (-2)]) World.initial 7 demoRequest).1
      = STATUS_OBJECT_NAME_NOT_FOUND :=
  (C1_status_function_of_result_code (scriptedEnv [errorReply (-2)]) World.initial 7
    demoRequest (by decide)).trans (by decide)

/-! ### C2: open flags -/

/-- The read/write data bits of an access mask select the same case of the
`switch` as the two bits tested one by one. -/
theorem and_three_cases (g : Nat) :
    g &&& 3 = (if g.testBit 1 then 2 else 0) + (if g.testBit 0 then 1 else 0) := by
  apply Nat.eq_of_testBit_eq
  intro i
  rw [Nat.testBit_and]
  rcases i with _ | _ | i
  · by_cases h0 : g.testBit 0 <;> by_cases h1 : g.testBit 1 <;> simp [h0, h1]
  · by_cases h0 : g.testBit 0 <;> by_cases h1 : g.testBit 1 <;> simp [h0, h1] <;> decide
  · have h3 : Nat.testBit 3 (i + 2) = false := by
      have : (3 : Nat) < 2 ^ (i + 2) := by
        have : 2 ^ 2 ≤ 2 ^ (i + 2) := Nat.pow_le_pow_right (by decide) (by omega)
        omega
      exact Nat.testBit_lt_two_pow this
    have hr : ∀ n : Nat, n < 4 → Nat.testBit n (i + 2) = false := by
      intro n hn
      have : n < 2 ^ (i + 2) := by
        have : 2 ^ 2 ≤ 2 ^ (i + 2) := Nat.pow_le_pow_right (by decide) (by omega)
        omega
      exact Nat.testBit_lt_two_pow this
    rw [h3, Bool.and_false]
    symm
    apply hr
    by_cases h0 : g.testBit 0 <;> by_cases h1 : g.testBit 1 <;> simp [h0, h1]

/-- The append bit of an access mask, as the `if` of the source tests it. -/
theorem and_four_ne_zero (g : Nat) : g &&& 4 ≠ 0 ↔ g.testBit 2 = true := by
  have h : g &&& 4 = if g.testBit 2 then 4 else 0 := by
    apply Nat.eq_of_testBit_eq
    intro i
    rw [Nat.testBit_and]
    by_cases hi : i = 2
    · subst hi
      by_cases h2 : g.testBit 2 <;> simp [h2]
    · have h4 : Nat.testBit 4 i = false := by
        have : (4 : Nat) = 2 ^ 2 := by norm_num
        rw [this, Nat.testBit_two_pow]
        simpa using fun h => hi h.symm
      rw [h4, Bool.and_false]
      by_cases h2 : g.testBit 2
      · simp [h2, h4]
      · simp [h2]
  rw [h]
  by_cases h2 : g.testBit 2 <;> simp [h2]

/-- The CREATE request is the one effect of `VirtFsCreateFile`, and carries
the flags computed from the access mask. -/
theorem VirtFsCreateFile_log (env : Env) (w : World) (VirtFs : VIRTFS)
    (FileContext : VIRTFS_FILE_CONTEXT) (GrantedAccess : Nat) (FileName : List Nat)
    (Mode : Nat) (FileInfo : FSP_FSCTL_FILE_INFO) :
    ∃ req : Request,
      (VirtFsCreateFile env w VirtFs FileContext GrantedAccess FileName Mode FileInfo).world.log
        = w.log ++ [.request VirtFs.Device req] ∧
      req.hdr.opcode = FUSE_CREATE ∧
      req.body = .create (VirtFsCreateFile_flags GrantedAccess) Mode 0 := by
  simp only [VirtFsCreateFile, FUSE_HEADER_INIT, GetUniqueIdentifier, VirtFsFuseRequest]
  split_ifs <;> exact ⟨_, rfl, rfl, rfl⟩

/-- Every request `VirtFsLookupFileName` adds to the trace is a LOOKUP. -/
theorem VirtFsLookupFileName_requests (env : Env) (w : World) (Device : Nat)
    (FileName : List Nat) (LookupOut : Reply) (d : Nat) (r : Request)
    (h : Event.request d r ∈ (VirtFsLookupFileName env w Device FileName LookupOut).2.2.log) :
    Event.request d r ∈ w.log ∨ r.hdr.opcode = FUSE_LOOKUP := by
  revert h
  simp only [VirtFsLookupFileName, FUSE_HEADER_INIT_eq, VirtFsFuseRequest_eq, World.emit]
  split_ifs <;>
    simp only [List.mem_append, List.mem_singleton, reduceCtorEq, or_false,
      Event.request.injEq] <;>
    intro h <;>
    first
    | exact Or.inl h
    | (rcases h with h | ⟨_, rfl⟩
       · exact Or.inl h
       · exact Or.inr rfl)

/-- Every request `Open` sends beyond the lookup is an OPEN or OPENDIR
request carrying the flags computed from the access mask and the directory
classification. -/
theorem Open_requests (env : Env) (w : World) (VirtFs : VIRTFS) (FileName : List Nat)
    (GrantedAccess : Nat) (PFileContext : Option VIRTFS_FILE_CONTEXT)
    (FileInfo : FSP_FSCTL_FILE_INFO) (d : Nat) (req : Request)
    (hmem : Event.request d req ∈ (Open env w VirtFs FileName GrantedAccess PFileContext
      FileInfo).world.log)
    (hnew : Event.request d req ∉ w.log) (hop : req.hdr.opcode ≠ FUSE_LOOKUP) :
    ∃ IsDirectory : Bool,
      req.hdr.opcode = (if IsDirectory = true then FUSE_OPENDIR else FUSE_OPEN) ∧
      req.body = .open_ (Open_flags GrantedAccess IsDirectory) := by
  have hL := VirtFsLookupFileName_requests env
    (w.emit (.HeapAlloc .FileContext sizeof_VIRTFS_FILE_CONTEXT (env.HeapAlloc w.allocs)))
    VirtFs.Device FileName env.Uninitialized d req
  simp only [Open, FUSE_HEADER_INIT_eq, VirtFsFuseRequest_eq] at hmem
  generalize VirtFsLookupFileName env
    (w.emit (.HeapAlloc .FileContext sizeof_VIRTFS_FILE_CONTEXT (env.HeapAlloc w.allocs)))
    VirtFs.Device FileName env.Uninitialized = L at hL hmem
  obtain ⟨Status, lookup_out, w2⟩ := L
  have hw2 : Event.request d req ∉ w2.log := by
    intro h
    rcases hL h with h1 | h1
    · simp only [World.emit, List.mem_append, List.mem_singleton, reduceCtorEq, or_false] at h1
      exact hnew h1
    · exact hop h1
  simp only [World.emit] at hmem
  split_ifs at hmem <;>
    simp only [List.mem_append, List.mem_singleton, reduceCtorEq, or_false,
      Event.request.injEq, hnew, hw2, false_or] at hmem
  all_goals
    obtain ⟨_, rfl⟩ := hmem
    refine ⟨decide (lookup_out.entry.attr.mode &&& S_IFDIR ≠ 0), ?_, rfl⟩
    first
    | rw [if_pos (by assumption)]
    | rw [if_neg (by assumption)]

/-- The flags of the CREATE request, bit by bit. -/
theorem VirtFsCreateFile_flags_eq (g : Nat) :
    VirtFsCreateFile_flags g = spec_baseFlag g ||| (if g.testBit 2 then O_APPEND else 0) := by
  have h3 := and_three_cases g
  have h4 := and_four_ne_zero g
  unfold VirtFsCreateFile_flags spec_baseFlag
  simp only [show FILE_READ_DATA ||| FILE_WRITE_DATA = 3 from rfl,
    show FILE_APPEND_DATA = 4 from rfl, h3, h4]
  cases g.testBit 0 <;> cases g.testBit 1 <;> cases g.testBit 2 <;> decide

/-- The flags of the OPEN and OPENDIR requests, bit by bit. -/
theorem Open_flags_eq (g : Nat) (dir : Bool) :
    Open_flags g dir = spec_baseFlag g ||| (if dir then O_DIRECTORY else 0)
      ||| (if g.testBit 2 then O_APPEND else 0) := by
  have h3 := and_three_cases g
  have h4 := and_four_ne_zero g
  unfold Open_flags spec_baseFlag
  simp only [show FILE_READ_DATA ||| FILE_WRITE_DATA = 3 from rfl,
    show FILE_APPEND_DATA = 4 from rfl, h3, h4]
  cases g.testBit 0 <;> cases g.testBit 1 <;> cases g.testBit 2 <;> cases dir <;> decide

/-- C2: for every access mask, `VirtFsCreateFile` and `Open` choose the base
open flag from the read/write data bits as write-only to O_WRONLY,
read-and-write to O_RDWR, read-only and neither to O_RDONLY; with the append
bit set the flags contain O_APPEND whatever the base flag.  The flags are
those carried by the CREATE request and by the OPEN or OPENDIR request. -/
theorem C2_flag_tie_break (GrantedAccess : Nat) :
    VirtFsCreateFile_flags GrantedAccess =
      (spec_baseFlag GrantedAccess ||| (if GrantedAccess.testBit 2 then O_APPEND else 0)) ∧
    (∀ dir : Bool, Open_flags GrantedAccess dir =
      (spec_baseFlag GrantedAccess ||| (if dir then O_DIRECTORY else 0)
        ||| (if GrantedAccess.testBit 2 then O_APPEND else 0))) ∧
    (GrantedAccess &&& FILE_APPEND_DATA ≠ 0 →
      VirtFsCreateFile_flags GrantedAccess &&& O_APPEND = O_APPEND ∧
      ∀ dir : Bool, Open_flags GrantedAccess dir &&& O_APPEND = O_APPEND) ∧
    (∀ (env : Env) (w : World) (VirtFs : VIRTFS) (FileContext : VIRTFS_FILE_CONTEXT)
        (FileName : List Nat) (Mode : Nat) (FileInfo : FSP_FSCTL_FILE_INFO),
      ∃ req : Request,
        (VirtFsCreateFile env w VirtFs FileContext GrantedAccess FileName Mode
          FileInfo).world.log = w.log ++ [.request VirtFs.Device req] ∧
        req.hdr.opcode = FUSE_CREATE ∧
        req.body = .create (VirtFsCreateFile_flags GrantedAccess) Mode 0) ∧
    (∀ (env : Env) (w : World) (VirtFs : VIRTFS) (FileName : List Nat)
        (PFileContext : Option VIRTFS_FILE_CONTEXT) (FileInfo : FSP_FSCTL_FILE_INFO)
        (d : Nat) (req : Request),
      Event.request d req ∈
          (Open env w VirtFs FileName GrantedAccess PFileContext FileInfo).world.log →
      Event.request d req ∉ w.log → req.hdr.opcode ≠ FUSE_LOOKUP →
      ∃ IsDirectory : Bool,
        req.hdr.opcode = (if IsDirectory = true then FUSE_OPENDIR else FUSE_OPEN) ∧
        req.body = .open_ (Open_flags GrantedAccess IsDirectory)) := by
  refine ⟨VirtFsCreateFile_flags_eq _, fun dir => Open_flags_eq _ dir, ?_, ?_, ?_⟩
  · intro happ
    have h2 : GrantedAccess.testBit 2 = true := (and_four_ne_zero _).1 happ
    refine ⟨?_, fun dir => ?_⟩
    · rw [VirtFsCreateFile_flags_eq, h2]
      unfold spec_baseFlag
      cases GrantedAccess.testBit 0 <;> cases GrantedAccess.testBit 1 <;> decide
    · rw [Open_flags_eq, h2]
      unfold spec_baseFlag
      cases GrantedAccess.testBit 0 <;> cases GrantedAccess.testBit 1 <;> cases dir <;> decide
  · intro env w VirtFs FileContext FileName Mode FileInfo
    exact VirtFsCreateFile_log env w VirtFs FileContext GrantedAccess FileName Mode FileInfo
  · intro env w VirtFs FileName PFileContext FileInfo d req hmem hnew hop
    exact Open_requests env w VirtFs FileName GrantedAccess PFileContext FileInfo d req
      hmem hnew hop

/-! ### C3: allocation size -/

/-- Counterexample to C3 as stated: a well-formed attribute record whose
block count times block size is 2^64 gets allocation size 0. -/
theorem C3_counterexample :
    ({ zeroAttr with blocks := 2 ^ 63, blksize := 2 } : fuse_attr).blocks < 2 ^ 64 ∧
    ({ zeroAttr with blocks := 2 ^ 63, blksize := 2 } : fuse_attr).blksize < 2 ^ 32 ∧
    ({ zeroAttr with blocks := 2 ^ 63, blksize := 2 } : fuse_attr).blksize *
      ({ zeroAttr with blocks := 2 ^ 63, blksize := 2 } : fuse_attr).blocks = 2 ^ 64 ∧
    (SetFileInfo (scriptedEnv []) { zeroAttr with blocks := 2 ^ 63, blksize := 2 }
      zeroFileInfo).AllocationSize = 0 ∧
    (SetFileInfo (scriptedEnv []) { zeroAttr with blocks := 2 ^ 63, blksize := 2 }
      zeroFileInfo).AllocationSize ≠ 2 ^ 64 := by
  decide

/-- C3 (amended): for any wire attribute record whose block size times block
count equals S, with S below 2^64, `SetFileInfo` sets AllocationSize to
exactly S. -/
theorem C3_allocation_size (env : Env) (attr : fuse_attr) (FileInfo : FSP_FSCTL_FILE_INFO)
    (S : Nat) (hS : attr.blksize * attr.blocks = S) (hfit : S < 2 ^ 64) :
    (SetFileInfo env attr FileInfo).AllocationSize = S := by
  show (attr.blocks * attr.blksize) % 2 ^ 64 = S
  rw [Nat.mul_comm, hS]
  exact Nat.mod_eq_of_lt hfit

/-- Witness for C3: 8 blocks of 512 bytes give allocation size 4096. -/
theorem C3_witness :
    (SetFileInfo (scriptedEnv []) { zeroAttr with blocks := 8, blksize := 512 }
      zeroFileInfo).AllocationSize = 4096 :=
  C3_allocation_size (scriptedEnv []) { zeroAttr with blocks := 8, blksize := 512 }
    zeroFileInfo 4096 (by decide) (by decide)

/-! ### C4: directory classification -/

/-- C4: for every mode value, `PosixUnixModeToAttributes` returns the
directory attribute exactly when the file-type bits equal S_IFDIR, the
normal-file attribute exactly when they do not, and never anything else. -/
theorem C4_directory_classification (mode : Nat) :
    (PosixUnixModeToAttributes mode = FILE_ATTRIBUTE_DIRECTORY ↔ mode &&& S_IFMT = S_IFDIR) ∧
    (PosixUnixModeToAttributes mode = FILE_ATTRIBUTE_NORMAL ↔ mode &&& S_IFMT ≠ S_IFDIR) ∧
    (PosixUnixModeToAttributes mode = FILE_ATTRIBUTE_DIRECTORY ∨
      PosixUnixModeToAttributes mode = FILE_ATTRIBUTE_NORMAL) := by
  unfold PosixUnixModeToAttributes
  by_cases h : mode &&& S_IFMT = S_IFDIR
  · simp [h]
  · simp [h]

/-! ### C5, C6: constrained writes -/

/-- `GetFileInfoInternal` sends no WRITE request and allocates nothing. -/
theorem GetFileInfoInternal_world (env : Env) (w : World) (Device nodeid fh : Nat)
    (FileInfo : Option FSP_FSCTL_FILE_INFO) (sd : Option (List Nat)) :
    writeSizes (GetFileInfoInternal env w Device nodeid fh FileInfo sd).world.log = writeSizes w.log ∧
    (GetFileInfoInternal env w Device nodeid fh FileInfo sd).world.allocs = w.allocs := by
  simp only [GetFileInfoInternal, FUSE_HEADER_INIT_eq, VirtFsFuseRequest_eq, World.emit]
  split_ifs <;> cases sd <;>
    simp [writeSizes, World.allocs, List.filterMap_append, List.filter_append, Event.writeSize?]

/-- The one WRITE request of `Write_send`, sent when its buffer could be
allocated, carries the length the function was given. -/
theorem Write_send_writeSizes (env : Env) (w : World) (VirtFs : VIRTFS)
    (FileContext : VIRTFS_FILE_CONTEXT) (Buffer : Option (List Nat)) (Offset Length : Nat)
    (P : Option Nat) (FileInfo : FSP_FSCTL_FILE_INFO) :
    writeSizes (Write_send env w VirtFs FileContext Buffer Offset Length P FileInfo).world.log
      = writeSizes w.log ++ (if env.HeapAlloc w.allocs = true then [Length] else []) := by
  unfold Write_send
  simp only [FUSE_HEADER_INIT_eq, VirtFsFuseRequest_eq]
  split_ifs with h1 h2 h3 h3
  all_goals
    simp only [(GetFileInfoInternal_world _ _ _ _ _ _ _).1]
    simp_all [writeSizes, World.emit, List.filterMap_append, Event.writeSize?]

/-- Counterexample to C5 as stated: file size 2^64 - 1, a constrained write
at offset 2^64 - 2 of length 5.  The sum `Offset + Length` wraps to 3, the
clipping test fails, and the WRITE request carries length 5 although only 1
byte remains before end-of-file. -/
theorem C5_counterexample :
    NT_SUCCESS (GetFileInfoInternal (scriptedEnv [getattrReply (2 ^ 64 - 1), writeReply 5])
      World.initial 7 5 3 (some zeroFileInfo) none).Status = true ∧
    ((GetFileInfoInternal (scriptedEnv [getattrReply (2 ^ 64 - 1), writeReply 5])
      World.initial 7 5 3 (some zeroFileInfo) none).FileInfo.getD zeroFileInfo).FileSize
      = 2 ^ 64 - 1 ∧
    writeSizes (Write (scriptedEnv [getattrReply (2 ^ 64 - 1), writeReply 5]) World.initial
      demoVirtFs demoFile none (2 ^ 64 - 2) 5 false true (some 0) zeroFileInfo).world.log
      = [5] ∧
    min 5 ((2 ^ 64 - 1) - (2 ^ 64 - 2)) = 1 := by
  decide

/-- C5 (amended): for a constrained `Write` whose attribute query succeeded,
whose Offset is below the fetched file size S and whose `Offset + Length`
does not wrap 64 bits, the WRITE request (sent when its buffer could be
allocated) carries length `min Length (S - Offset)`; for an unconstrained
`Write` it carries `Length` unchanged. -/
theorem C5_write_length (env : Env) (w : World) (VirtFs : VIRTFS)
    (FileContext : VIRTFS_FILE_CONTEXT) (Buffer : Option (List Nat)) (Offset Length : Nat)
    (WriteToEndOfFile : Bool) (P : Option Nat) (FileInfo : FSP_FSCTL_FILE_INFO)
    (hLength : Length < 2 ^ 32) :
    (NT_SUCCESS (GetFileInfoInternal env w VirtFs.Device FileContext.NodeId
        FileContext.FileHandle (some FileInfo) none).Status = true →
      Offset < ((GetFileInfoInternal env w VirtFs.Device FileContext.NodeId
        FileContext.FileHandle (some FileInfo) none).FileInfo.getD FileInfo).FileSize →
      Offset + Length < 2 ^ 64 →
      writeSizes (Write env w VirtFs FileContext Buffer Offset Length WriteToEndOfFile true P
          FileInfo).world.log
        = writeSizes w.log ++
          (if env.HeapAlloc w.allocs = true then
            [min Length (((GetFileInfoInternal env w VirtFs.Device FileContext.NodeId
              FileContext.FileHandle (some FileInfo) none).FileInfo.getD FileInfo).FileSize
              - Offset)]
           else [])) ∧
    writeSizes (Write env w VirtFs FileContext Buffer Offset Length WriteToEndOfFile false P
        FileInfo).world.log
      = writeSizes w.log ++ (if env.HeapAlloc w.allocs = true then [Length] else []) := by
  constructor
  · intro hq hlt hwrap
    have hg := GetFileInfoInternal_world env w VirtFs.Device FileContext.NodeId
      FileContext.FileHandle (some FileInfo) none
    unfold Write
    generalize GetFileInfoInternal env w VirtFs.Device FileContext.NodeId
      FileContext.FileHandle (some FileInfo) none = q at hq hlt hg ⊢
    simp only [if_true, hq, Bool.not_true, Bool.false_eq_true, if_false,
      if_neg (Nat.not_le.mpr hlt), Write_send_writeSizes, hg.1, hg.2, ge_iff_le]
    rw [Nat.mod_eq_of_lt hwrap]
    split_ifs with h1 h2
    · rw [Nat.mod_eq_of_lt (by omega)]
      congr 2
      omega
    · congr 2
      omega
    · rfl
  · simp only [Write, Bool.false_eq_true, if_false, Write_send_writeSizes]

/-- Witness for C5: file size 100, a constrained write at offset 90 of length
50 sends a WRITE request of length 10. -/
theorem C5_witness :
    writeSizes (Write (scriptedEnv [getattrReply 100, writeReply 10]) World.initial
      demoVirtFs demoFile none 90 50 false true (some 0) zeroFileInfo).world.log = [10] :=
  ((C5_write_length (scriptedEnv [getattrReply 100, writeReply 10]) World.initial
      demoVirtFs demoFile none 90 50 false (some 0) zeroFileInfo (by decide)).1
    (by decide) (by decide) (by decide)).trans (by decide)

/-- C6 (code evaluated at the failing input): file size 100, a constrained
write at offset 150 with the caller's bytes-transferred variable holding 7.
`Write` returns success and sends no WRITE request, but the output still
holds 7: the early return does not store zero. -/
theorem C6_early_return_keeps_bytes_transferred :
    (Write (scriptedEnv [getattrReply 100]) World.initial demoVirtFs demoFile none 150 10
      false true (some 7) zeroFileInfo).Status = STATUS_SUCCESS ∧
    writeSizes (Write (scriptedEnv [getattrReply 100]) World.initial demoVirtFs demoFile none
      150 10 false true (some 7) zeroFileInfo).world.log = [] ∧
    (Write (scriptedEnv [getattrReply 100]) World.initial demoVirtFs demoFile none 150 10
      false true (some 7) zeroFileInfo).PBytesTransferred = some 7 := by
  decide

/-! ### C7, C8: directory enumeration -/

/-- An `n`-byte encoding has `n` bytes. -/
theorem enc_length (n v : Nat) : (enc n v).length = n := by
  induction n generalizing v with
  | zero => rfl
  | succ n ih => simp [enc, ih]

/-- Decoding an encoding gives the value modulo `256 ^ n`. -/
theorem leVal_enc (n v : Nat) : leVal (enc n v) = v % 256 ^ n := by
  induction n generalizing v with
  | zero => simp [enc, leVal, Nat.mod_one]
  | succ n ih =>
    simp only [enc, leVal, ih]
    rw [pow_succ, Nat.mul_comm (256 ^ n) 256, Nat.mod_mul]

/-- A field read where its encoding starts. -/
theorem rd_enc (n v : Nat) (l : List Nat) : rd n 0 (enc n v ++ l) = v % 256 ^ n := by
  unfold rd
  rw [List.drop_zero, List.take_left' (enc_length n v), leVal_enc]

/-- A field read past an encoded field that precedes it. -/
theorem rd_skip (n off k v : Nat) (l : List Nat) (h : k ≤ off) :
    rd n off (enc k v ++ l) = rd n (off - k) l := by
  unfold rd
  rw [List.drop_append_eq_append_drop, enc_length, List.drop_of_length_le (by rw [enc_length]; exact h),
    List.nil_append]

/-- A 64-bit field read back. -/
theorem rd8_enc (v : Nat) (l : List Nat) (h : v < 2 ^ 64) : rd 8 0 (enc 8 v ++ l) = v := by
  rw [rd_enc, Nat.mod_eq_of_lt (by simpa using h)]

/-- A 32-bit field read back. -/
theorem rd4_enc (v : Nat) (l : List Nat) (h : v < 2 ^ 32) : rd 4 0 (enc 4 v ++ l) = v := by
  rw [rd_enc, Nat.mod_eq_of_lt (by simpa using h)]

/-- An encoded attribute record decodes to itself. -/
theorem decode_encode_fuse_attr (a : fuse_attr) (h : a.WF) (l : List Nat) :
    decode_fuse_attr 0 (encode_fuse_attr a ++ l) = a := by
  obtain ⟨h1, h2, h3, h4, h5, h6, h7, h8, h9, h10, h11, h12, h13, h14, h15, h16⟩ := h
  simp only [decode_fuse_attr, encode_fuse_attr, List.append_assoc, Nat.zero_add]
  simp (disch := first | assumption | decide) only [rd_skip, Nat.reduceSub, rd8_enc, rd4_enc,
    Nat.le_refl, Nat.sub_self]

/-- The encoding of `struct fuse_attr` has 88 bytes. -/
theorem encode_fuse_attr_length (a : fuse_attr) : (encode_fuse_attr a).length = 88 := by
  simp [encode_fuse_attr, enc_length]

/-- A field read past an encoded attribute record that precedes it. -/
theorem rd_skip_attr (n off : Nat) (a : fuse_attr) (l : List Nat) (h : 88 ≤ off) :
    rd n off (encode_fuse_attr a ++ l) = rd n (off - 88) l := by
  unfold rd
  rw [List.drop_append_eq_append_drop, encode_fuse_attr_length,
    List.drop_of_length_le (by rw [encode_fuse_attr_length]; exact h), List.nil_append]

/-- The fixed part of an entry has `sizeof(struct fuse_direntplus)` bytes. -/
theorem encode_direntplus_fixed_length (d : DirentPlus) :
    (encode_direntplus_fixed d).length = 152 := by
  simp [encode_direntplus_fixed, enc_length, encode_fuse_attr_length]

/-- A well-formed entry occupies `FUSE_DIRENTPLUS_SIZE` bytes. -/
theorem encode_direntplus_length (d : DirentPlus) (h : d.WF) :
    (encode_direntplus d).length = FUSE_DIRENTPLUS_SIZE d.name.length := by
  rw [← h.2.2.2.2]
  simp only [encode_direntplus, List.length_append, encode_direntplus_fixed_length]
  show 152 + (d.name.length + d.pad.length) = 152 + d.name.length + d.pad.length
  omega

/-- The parser reads the name length of a well-formed entry. -/
theorem rd_namelen (d : DirentPlus) (h : d.WF) (l : List Nat) :
    rd 4 off_direntplus_namelen (encode_direntplus d ++ l) = d.name.length := by
  simp only [encode_direntplus, encode_direntplus_fixed, List.append_assoc]
  simp (disch := first | assumption | decide) only [rd_skip, rd_skip_attr, Nat.reduceSub]
  exact rd4_enc _ _ h.2.2.1

/-- The parser reads the next offset of a well-formed entry. -/
theorem rd_off (d : DirentPlus) (h : d.WF) (l : List Nat) :
    rd 8 off_direntplus_off (encode_direntplus d ++ l) = d.off := by
  simp only [encode_direntplus, encode_direntplus_fixed, List.append_assoc]
  simp (disch := first | assumption | decide) only [rd_skip, rd_skip_attr, Nat.reduceSub]
  exact rd8_enc _ _ h.2.1

/-- An attribute record decoded past an encoded field that precedes it. -/
theorem decode_fuse_attr_shift (k : Nat) (v : Nat) (o : Nat) (l : List Nat) (h : k ≤ o) :
    decode_fuse_attr o (enc k v ++ l) = decode_fuse_attr (o - k) l := by
  simp only [decode_fuse_attr]
  simp only [rd_skip _ _ k v l (Nat.le_trans h (Nat.le_add_right _ _)), rd_skip _ _ k v l h,
    Nat.sub_add_comm h]

/-- The parser reads the attribute record of a well-formed entry. -/
theorem decode_attr_direntplus (d : DirentPlus) (h : d.WF) (l : List Nat) :
    decode_fuse_attr off_direntplus_attr (encode_direntplus d ++ l) = d.entry_out.attr := by
  simp only [encode_direntplus, encode_direntplus_fixed, List.append_assoc]
  simp (disch := decide) only [decode_fuse_attr_shift, Nat.reduceSub]
  exact decode_encode_fuse_attr _ h.1 _

/-- The parser reads the name of an entry. -/
theorem name_direntplus (d : DirentPlus) (l : List Nat) :
    ((encode_direntplus d ++ l).drop FUSE_NAME_OFFSET_DIRENTPLUS).take d.name.length = d.name := by
  have hlen := encode_direntplus_fixed_length d
  simp only [encode_direntplus, List.append_assoc]
  rw [List.drop_left' hlen, List.take_left' rfl]

/-- Advancing the cursor by `FUSE_DIRENTPLUS_SIZE` skips a well-formed entry. -/
theorem drop_direntplus (d : DirentPlus) (h : d.WF) (l : List Nat) :
    (encode_direntplus d ++ l).drop (FUSE_DIRENTPLUS_SIZE d.name.length) = l :=
  List.drop_left' (encode_direntplus_length d h)

/-- An entry with a non-empty name is larger than `struct fuse_direntplus`. -/
theorem FUSE_DIRENTPLUS_SIZE_gt (n : Nat) (h : 0 < n) :
    sizeof_fuse_direntplus < FUSE_DIRENTPLUS_SIZE n := by
  unfold FUSE_DIRENTPLUS_SIZE FUSE_DIRENT_ALIGN
  show 152 < (152 + n + 7) / 8 * 8
  omega

/-- Without wrap-around `sub32` is the difference. -/
theorem sub32_of_le (a b : Nat) (h : b ≤ a) (ha : a < 2 ^ 32) : sub32 a b = a - b := by
  unfold sub32
  rw [if_pos h]
  exact Nat.mod_eq_of_lt (by omega)

/-- The guarded definition of `sub32` is the 64-bit difference truncated to
32 bits. -/
theorem sub32_eq (a b : Nat) : sub32 a b = (a + 2 ^ 64 - b) % 2 ^ 32 := by
  unfold sub32
  split_ifs with h
  · have : a + 2 ^ 64 - b = (a - b) + 2 ^ 32 * 2 ^ 32 := by omega
    rw [this, Nat.add_mul_mod_self_left]
  · rfl

/-- A payload has at least one byte per entry. -/
theorem encode_listing_length_ge (ds : List DirentPlus) : ds.length ≤ (encode_listing ds).length := by
  induction ds with
  | nil => simp [encode_listing]
  | cons d ds ih =>
    have := encode_direntplus_fixed_length d
    simp only [encode_listing, encode_direntplus, List.length_append, List.length_cons]
    omega

/-- The entry loop on a payload of well-formed entries with a buffer that
accepts them: every entry is appended, in order, and `Offset` ends at the
offset of the last one. -/
theorem entryLoop_listing (env : Env)
    (hfill : ∀ b d, (env.FspFileSystemFillDirectoryBuffer b d).1 = true)
    (ds : List DirentPlus) :
    (∀ d ∈ ds, d.WF ∧ env.MultiByteToWideChar d.name ≠ []) →
    ∀ (fuel : Nat) (junk : List Nat) (Remains Offset : Nat) (buf : List FSP_FSCTL_DIR_INFO)
      (Status : Nat),
      ds.length < fuel → Remains = (encode_listing ds).length → Remains < 2 ^ 32 →
      ∃ st, entryLoop env fuel (encode_listing ds ++ junk) Remains Offset buf Status
        = .ok { Offset := lastOff Offset ds, DirBuffer := buf ++ ds.map (spec_dirInfo env)
                Status := st } := by
  induction ds with
  | nil =>
    intro _ fuel junk Remains Offset buf Status hfuel hrem _
    obtain ⟨fuel, rfl⟩ : ∃ k, fuel = k + 1 := ⟨fuel - 1, by simp at hfuel; omega⟩
    refine ⟨Status, ?_⟩
    simp only [encode_listing, List.length_nil] at hrem
    subst hrem
    simp [entryLoop, lastOff]
  | cons d ds ih =>
    intro hwf fuel junk Remains Offset buf Status hfuel hrem hlt
    obtain ⟨fuel, rfl⟩ : ∃ k, fuel = k + 1 := ⟨fuel - 1, by simp at hfuel; omega⟩
    obtain ⟨hd, hconv⟩ := hwf d (List.mem_cons_self _ _)
    have hwf' : ∀ e ∈ ds, e.WF ∧ env.MultiByteToWideChar e.name ≠ [] :=
      fun e he => hwf e (List.mem_cons_of_mem _ he)
    have hsize := encode_direntplus_length d hd
    have hname : 0 < d.name.length := List.length_pos.mpr hd.2.2.2.1
    have hgt := FUSE_DIRENTPLUS_SIZE_gt d.name.length hname
    have hpad := hd.2.2.2.2
    simp only [encode_listing, List.length_append] at hrem
    rw [hsize] at hrem
    have hcur : (encode_direntplus d ++ (encode_listing ds ++ junk)).length
        = FUSE_DIRENTPLUS_SIZE d.name.length + ((encode_listing ds).length + junk.length) := by
      simp only [List.length_append, hsize]
    have hconvlen : 0 < (env.MultiByteToWideChar d.name).length := List.length_pos.mpr hconv
    have hrem1 : sub32 Remains (FUSE_DIRENTPLUS_SIZE d.name.length)
        = (encode_listing ds).length := by
      rw [sub32_of_le _ _ (by omega) (by omega), hrem]
      omega
    obtain ⟨st, hst⟩ := ih hwf' fuel junk (encode_listing ds).length d.off
      (buf ++ [spec_dirInfo env d])
      (env.FspFileSystemFillDirectoryBuffer buf (spec_dirInfo env d)).2
      (by simp at hfuel; omega) rfl (by omega)
    refine ⟨st, ?_⟩
    have hmk : makeDirInfo env (encode_direntplus d ++ (encode_listing ds ++ junk))
        (env.MultiByteToWideChar d.name) = spec_dirInfo env d := by
      simp only [makeDirInfo, spec_dirInfo, decode_attr_direntplus d hd]
    simp only [encode_listing, List.append_assoc]
    rw [entryLoop]
    simp only [rd_namelen d hd, rd_off d hd, name_direntplus, drop_direntplus d hd, hmk, hrem1,
      hfill, hcur]
    rw [if_pos (by omega), if_neg (by omega), if_neg (by unfold FUSE_NAME_OFFSET_DIRENTPLUS at hpad ⊢; omega),
      if_pos hconvlen]
    simp only [Bool.true_eq_false, if_false]
    rw [hst]
    simp [lastOff]

/-- A response that carries a listing has status success. -/
theorem replyStatus_carries (env : Env) (rep : Reply) (ds : List DirentPlus)
    (h : rep.carries ds) : replyStatus env rep = STATUS_SUCCESS := by
  obtain ⟨h1, h2, _⟩ := h
  simp [replyStatus, h1, Int.not_lt.mpr h2]

/-- One round of the fill loop in terms of the response to its request. -/
theorem fillRound_eq (env : Env) (VirtFs : VIRTFS) (fh : Nat) (w : World) (Offset : Nat)
    (buf : List FSP_FSCTL_DIR_INFO) (rep : Reply)
    (hrep : env.device (roundWorld env w VirtFs fh Offset).requests = rep) :
    fillRound env VirtFs fh w Offset buf =
      if !NT_SUCCESS (replyStatus env rep) then
        .exit (.ok { Status := replyStatus env rep, DirBuffer := buf
                     world := roundWorld env w VirtFs fh Offset })
      else if sub32 rep.hdr.len sizeof_fuse_out_header = 0 then
        .exit (.ok { Status := replyStatus env rep, DirBuffer := buf
                     world := roundWorld env w VirtFs fh Offset })
      else
        match entryLoop env (rep.buf.length + 1) rep.buf
            (sub32 rep.hdr.len sizeof_fuse_out_header) Offset buf
            (replyStatus env rep) with
        | .error f => .exit (.error f)
        | .ok r => .again (roundWorld env w VirtFs fh Offset) r.Offset r.DirBuffer := by
  subst hrep
  simp only [fillRound, FUSE_HEADER_INIT_eq, VirtFsFuseRequest_eq]
  rfl

/-- The round adds its request to the history. -/
theorem roundWorld_requests (env : Env) (w : World) (VirtFs : VIRTFS) (fh Offset : Nat) :
    (roundWorld env w VirtFs fh Offset).requests
      = w.requests ++ [(VirtFs.Device, roundRequest env w fh Offset)] := by
  simp [roundWorld, World.requests, List.filterMap_append, Event.sent?]

/-- The round adds one READDIRPLUS request, on the handle and at the offset
of the round. -/
theorem roundWorld_readdirplus (env : Env) (w : World) (VirtFs : VIRTFS) (fh Offset : Nat) :
    (roundWorld env w VirtFs fh Offset).log.filterMap Event.readdirplus?
      = w.log.filterMap Event.readdirplus? ++ [(fh, Offset)] := by
  simp [roundWorld, roundRequest, readdirplusRequest, List.filterMap_append, Event.readdirplus?]

/-- A round whose response is empty leaves the loop. -/
theorem fillRound_empty (env : Env) (VirtFs : VIRTFS) (fh : Nat) (w : World) (Offset : Nat)
    (buf : List FSP_FSCTL_DIR_INFO)
    (hrep : (env.device (roundWorld env w VirtFs fh Offset).requests).carries []) :
    fillRound env VirtFs fh w Offset buf =
      .exit (.ok { Status := STATUS_SUCCESS, DirBuffer := buf
                   world := roundWorld env w VirtFs fh Offset }) := by
  rw [fillRound_eq env VirtFs fh w Offset buf _ rfl, replyStatus_carries env _ _ hrep,
    hrep.2.2.1]
  rw [if_neg (by decide), if_pos (by decide)]

/-- A round whose response carries well-formed entries appends them and goes
round again from the offset of the last one. -/
theorem fillRound_listing (env : Env)
    (hfill : ∀ b d, (env.FspFileSystemFillDirectoryBuffer b d).1 = true)
    (VirtFs : VIRTFS) (fh : Nat) (w : World) (Offset : Nat)
    (buf : List FSP_FSCTL_DIR_INFO) (ds : List DirentPlus) (hne : ds ≠ [])
    (hwf : ∀ d ∈ ds, d.WF ∧ env.MultiByteToWideChar d.name ≠ [])
    (hrep : (env.device (roundWorld env w VirtFs fh Offset).requests).carries ds) :
    fillRound env VirtFs fh w Offset buf =
      .again (roundWorld env w VirtFs fh Offset) (lastOff Offset ds)
        (buf ++ ds.map (spec_dirInfo env)) := by
  obtain ⟨h1, h2, h3, h4, junk, h5⟩ := hrep
  have hpos : 0 < (encode_listing ds).length :=
    Nat.lt_of_lt_of_le (List.length_pos.mpr hne) (encode_listing_length_ge ds)
  have hrem : sub32 (env.device (roundWorld env w VirtFs fh Offset).requests).hdr.len
      sizeof_fuse_out_header = (encode_listing ds).length := by
    rw [sub32_of_le _ _ (by rw [h3]; omega) h4, h3]
    omega
  obtain ⟨st, hst⟩ := entryLoop_listing env hfill ds hwf
    ((env.device (roundWorld env w VirtFs fh Offset).requests).buf.length + 1) junk
    (encode_listing ds).length Offset buf
    (replyStatus env (env.device (roundWorld env w VirtFs fh Offset).requests))
    (by
      rw [h5, List.length_append]
      have := encode_listing_length_ge ds
      omega)
    rfl
    (by rw [h3] at h4; omega)
  rw [fillRound_eq env VirtFs fh w Offset buf _ rfl,
    replyStatus_carries env _ _ ⟨h1, h2, h3, h4, junk, h5⟩, hrem]
  rw [replyStatus_carries env _ _ ⟨h1, h2, h3, h4, junk, h5⟩] at hst
  rw [if_neg (by decide), if_neg (by omega)]
  conv_lhs =>
    rw [h5]
  rw [h5] at hst
  rw [hst]

/-- The round adds one request to the history. -/
theorem roundWorld_requests_length (env : Env) (w : World) (VirtFs : VIRTFS) (fh Offset : Nat) :
    (roundWorld env w VirtFs fh Offset).requests.length = w.requests.length + 1 := by
  rw [roundWorld_requests, List.length_append, List.length_singleton]

/-- The fill loop on a listing served in well-formed responses and closed by
an empty one. -/
theorem fillLoop_listing (env : Env)
    (hfill : ∀ b d, (env.FspFileSystemFillDirectoryBuffer b d).1 = true)
    (VirtFs : VIRTFS) (fh : Nat) (resps : List (List DirentPlus)) :
    (∀ r ∈ resps, r ≠ [] ∧ ∀ d ∈ r, d.WF ∧ env.MultiByteToWideChar d.name ≠ []) →
    ∀ (fuel : Nat) (w : World) (Offset : Nat) (buf : List FSP_FSCTL_DIR_INFO),
      resps.length + 1 ≤ fuel → Serves env w.requests.length (resps ++ [[]]) →
      ∃ r, fillLoop env VirtFs fh fuel w Offset buf = some (.ok r) ∧
        r.Status = STATUS_SUCCESS ∧
        r.DirBuffer = buf ++ resps.flatten.map (spec_dirInfo env) ∧
        r.world.log.filterMap Event.readdirplus?
          = w.log.filterMap Event.readdirplus?
            ++ (requestOffsets Offset resps).map (fun o => (fh, o)) ∧
        r.world.requests.length = w.requests.length + (resps.length + 1) := by
  induction resps with
  | nil =>
    intro _ fuel w Offset buf hfuel hserv
    obtain ⟨fuel, rfl⟩ : ∃ k, fuel = k + 1 := ⟨fuel - 1, by simp at hfuel; omega⟩
    simp only [List.nil_append, Serves] at hserv
    have hrep := hserv.1 (roundWorld env w VirtFs fh Offset).requests
      (roundWorld_requests_length env w VirtFs fh Offset)
    rw [fillLoop, fillRound_empty env VirtFs fh w Offset buf hrep]
    refine ⟨_, rfl, rfl, ?_, ?_, ?_⟩
    · simp
    · simp [requestOffsets, roundWorld_readdirplus]
    · simp [roundWorld_requests_length]
  | cons r rs ih =>
    intro hwf fuel w Offset buf hfuel hserv
    obtain ⟨fuel, rfl⟩ : ∃ k, fuel = k + 1 := ⟨fuel - 1, by simp at hfuel; omega⟩
    simp only [List.cons_append, Serves] at hserv
    have hrep := hserv.1 (roundWorld env w VirtFs fh Offset).requests
      (roundWorld_requests_length env w VirtFs fh Offset)
    obtain ⟨hne, hwfr⟩ := hwf r (List.mem_cons_self _ _)
    have hwf' : ∀ r' ∈ rs, r' ≠ [] ∧ ∀ d ∈ r', d.WF ∧ env.MultiByteToWideChar d.name ≠ [] :=
      fun r' h' => hwf r' (List.mem_cons_of_mem _ h')
    have hserv' : Serves env (roundWorld env w VirtFs fh Offset).requests.length (rs ++ [[]]) := by
      rw [roundWorld_requests_length]
      exact hserv.2
    obtain ⟨res, h1, h2, h3, h4, h5⟩ := ih hwf' fuel (roundWorld env w VirtFs fh Offset)
      (lastOff Offset r) (buf ++ r.map (spec_dirInfo env))
      (by simp at hfuel; omega) hserv'
    rw [fillLoop, fillRound_listing env hfill VirtFs fh w Offset buf r hne hwfr hrep]
    refine ⟨res, h1, h2, ?_, ?_, ?_⟩
    · rw [h3]; simp
    · rw [h4, roundWorld_readdirplus]; simp [requestOffsets]
    · rw [h5, roundWorld_requests_length]; simp; omega

/-- The three results of the READDIRPLUS exchange of a round. -/
theorem roundOutcome_eq (env : Env) (w : World) (VirtFs : VIRTFS) (fh Offset : Nat) :
    roundOutcome env w VirtFs fh Offset =
      (replyStatus env (env.device (roundWorld env w VirtFs fh Offset).requests),
       env.device (roundWorld env w VirtFs fh Offset).requests,
       roundWorld env w VirtFs fh Offset) := by
  simp only [roundOutcome, FUSE_HEADER_INIT_eq, VirtFsFuseRequest_eq]
  rfl

/-- Acquiring with `Reset` set gives an empty buffer to fill, if a missing
buffer can be allocated. -/
theorem acquire_reset (env : Env) (b : Option (List FSP_FSCTL_DIR_INFO))
    (h : b ≠ none ∨ env.DirectoryBufferAlloc = true) :
    FspFileSystemAcquireDirectoryBuffer env b true = (true, STATUS_SUCCESS, some []) := by
  unfold FspFileSystemAcquireDirectoryBuffer
  cases b with
  | none =>
    rcases h with h | h
    · exact absurd rfl h
    · simp [h]
  | some l => simp

/-- Whenever the buffer is acquired for filling it is empty. -/
theorem acquire_true (env : Env) (b : Option (List FSP_FSCTL_DIR_INFO)) (Reset : Bool)
    (h : (FspFileSystemAcquireDirectoryBuffer env b Reset).1 = true) :
    FspFileSystemAcquireDirectoryBuffer env b Reset = (true, STATUS_SUCCESS, some []) := by
  unfold FspFileSystemAcquireDirectoryBuffer at h ⊢
  cases b with
  | none =>
    by_cases ha : env.DirectoryBufferAlloc = true
    · simp [ha]
    · simp [ha] at h
  | some l =>
    by_cases hr : Reset = true
    · simp [hr]
    · simp [hr] at h

/-- C7: a remote listing delivered as K well-formed READDIRPLUS responses
(each with at least one entry, every entry with a non-empty, convertible
name) followed by an empty response, with a directory buffer that can be
acquired and accepts every entry.  `ReadDirectory` called with the start
marker, given at least K + 1 rounds, returns success; the context's
directory buffer then holds exactly the entries of the listing, in the
original order; K + 1 requests were sent, all READDIRPLUS on the context's
handle, the first at offset zero and each next one at the offset reported by
the last entry of the response before. -/
theorem C7_listing_fills_directory_buffer (env : Env) (w : World) (VirtFs : VIRTFS)
    (FileContext : VIRTFS_FILE_CONTEXT) (resps : List (List DirentPlus))
    (Buffer : List Nat) (BufferLength PBytesTransferred fuel : Nat)
    (hacq : FileContext.DirBuffer ≠ none ∨ env.DirectoryBufferAlloc = true)
    (hfill : ∀ b d, (env.FspFileSystemFillDirectoryBuffer b d).1 = true)
    (hwf : ∀ r ∈ resps, r ≠ [] ∧ ∀ d ∈ r, d.WF ∧ env.MultiByteToWideChar d.name ≠ [])
    (hserv : Serves env w.requests.length (resps ++ [[]]))
    (hfuel : resps.length + 1 ≤ fuel) :
    ∃ r, ReadDirectory env fuel w VirtFs FileContext none Buffer BufferLength
        PBytesTransferred = some (.ok r) ∧
      r.Status = STATUS_SUCCESS ∧
      r.FileContext.DirBuffer = some (resps.flatten.map (spec_dirInfo env)) ∧
      r.world.log.filterMap Event.readdirplus?
        = w.log.filterMap Event.readdirplus?
          ++ (requestOffsets 0 resps).map (fun o => (FileContext.FileHandle, o)) ∧
      r.world.requests.length = w.requests.length + (resps.length + 1) := by
  obtain ⟨res, h1, h2, h3, h4, h5⟩ := fillLoop_listing env hfill VirtFs FileContext.FileHandle
    resps hwf fuel w 0 [] hfuel hserv
  unfold ReadDirectory
  simp only [decide_True, acquire_reset env _ hacq, if_true, Option.getD_some, h1]
  refine ⟨_, rfl, ?_, ?_, ?_, ?_⟩
  · simp [ReadDirectory_finish, h2, NT_SUCCESS]
  · simp [ReadDirectory_finish, h2, NT_SUCCESS, h3]
  · simp [ReadDirectory_finish, h2, NT_SUCCESS, World.emit, List.filterMap_append, h4,
      Event.readdirplus?]
  · simp only [ReadDirectory_finish, h2]
    rw [← h5]
    simp [NT_SUCCESS, World.emit, World.requests, List.filterMap_append, Event.sent?]

/-- C8: in the fill phase, a successful READDIRPLUS response whose payload
length (total length minus the response header) is zero ends the fill loop
at once: the loop returns with the directory buffer as it was and with that
one request as its only effect; when this is the first response of
`ReadDirectory`, the call ends with an empty directory buffer after one
request. -/
theorem C8_empty_response_ends_fill (env : Env) (w : World) (VirtFs : VIRTFS)
    (fh Offset fuel : Nat) (buf : List FSP_FSCTL_DIR_INFO)
    (hst : NT_SUCCESS (roundOutcome env w VirtFs fh Offset).1 = true)
    (hlen : (roundOutcome env w VirtFs fh Offset).2.1.hdr.len = sizeof_fuse_out_header) :
    fillLoop env VirtFs fh (fuel + 1) w Offset buf =
      some (.ok { Status := (roundOutcome env w VirtFs fh Offset).1, DirBuffer := buf
                  world := (roundOutcome env w VirtFs fh Offset).2.2 }) ∧
    (roundOutcome env w VirtFs fh Offset).2.2.log =
      w.log ++ [.request VirtFs.Device
        (readdirplusRequest
          (FUSE_HEADER_INIT env w FUSE_READDIRPLUS FUSE_ROOT_ID sizeof_fuse_read_in).1 fh
          Offset)] ∧
    (∀ (FileContext : VIRTFS_FILE_CONTEXT) (Marker : Option (List Nat)) (Buffer : List Nat)
        (BufferLength PBytesTransferred : Nat),
      FileContext.FileHandle = fh → Offset = 0 →
      (FspFileSystemAcquireDirectoryBuffer env FileContext.DirBuffer
        (decide (Marker = none))).1 = true →
      ∃ r, ReadDirectory env (fuel + 1) w VirtFs FileContext Marker Buffer BufferLength
          PBytesTransferred = some (.ok r) ∧
        r.FileContext.DirBuffer = some [] ∧
        r.world.requests.length = w.requests.length + 1) := by
  rw [roundOutcome_eq] at hst hlen
  simp only at hst hlen
  have hround : fillRound env VirtFs fh w Offset buf =
      .exit (.ok { Status := replyStatus env (env.device (roundWorld env w VirtFs fh Offset).requests)
                   DirBuffer := buf, world := roundWorld env w VirtFs fh Offset }) := by
    rw [fillRound_eq env VirtFs fh w Offset buf _ rfl, hst, hlen]
    rfl
  have hloop : ∀ b, fillLoop env VirtFs fh (fuel + 1) w Offset b =
      some (.ok { Status := replyStatus env (env.device (roundWorld env w VirtFs fh Offset).requests)
                  DirBuffer := b, world := roundWorld env w VirtFs fh Offset }) := by
    intro b
    have hb : fillRound env VirtFs fh w Offset b =
        .exit (.ok { Status :=
                       replyStatus env (env.device (roundWorld env w VirtFs fh Offset).requests)
                     DirBuffer := b, world := roundWorld env w VirtFs fh Offset }) := by
      rw [fillRound_eq env VirtFs fh w Offset b _ rfl, hst, hlen]
      rfl
    rw [fillLoop, hb]
  refine ⟨?_, ?_, ?_⟩
  · rw [roundOutcome_eq]
    exact hloop buf
  · rw [roundOutcome_eq]
    rfl
  · intro FileContext Marker Buffer BufferLength PBytesTransferred hfh hoff hacq
    subst hfh hoff
    unfold ReadDirectory
    simp only [acquire_true env _ _ hacq, if_true, Option.getD_some, hloop]
    refine ⟨_, rfl, ?_, ?_⟩
    · simp only [ReadDirectory_finish, hst, if_true]
    · simp only [ReadDirectory_finish, hst, if_true]
      simp [World.emit, World.requests, roundWorld, List.filterMap_append, Event.sent?]

/-- The scripted remote side answers a history of `n + 1` requests with the
reply of index `n`. -/
theorem scriptedEnv_device (script : List Reply) (history : List (Nat × Request)) (n : Nat)
    (hl : history.length = n + 1) :
    (scriptedEnv script).device history = script.getD n emptyReply := by
  simp [scriptedEnv, hl]

set_option maxRecDepth 100000 in
/-- Witness for C7: three entries delivered in two responses and closed by
an empty one are all filled, after requests at offsets 0, 2 and 3. -/
theorem C7_witness :
    ∃ r, ReadDirectory (scriptedEnv demoScript) 3 World.initial demoVirtFs demoDir none [] 0 0
        = some (.ok r) ∧
      r.Status = STATUS_SUCCESS ∧
      r.FileContext.DirBuffer
        = some (demoListing.flatten.map (spec_dirInfo (scriptedEnv demoScript))) ∧
      r.world.log.filterMap Event.readdirplus?
        = World.initial.log.filterMap Event.readdirplus?
          ++ (requestOffsets 0 demoListing).map (fun o => (demoDir.FileHandle, o)) ∧
      r.world.requests.length = World.initial.requests.length + (demoListing.length + 1) :=
  C7_listing_fills_directory_buffer (scriptedEnv demoScript) World.initial demoVirtFs demoDir
    demoListing [] 0 0 3 (Or.inr rfl) (fun _ _ => rfl) (by decide)
    (show Serves (scriptedEnv demoScript) 0 (demoListing ++ [[]]) from
      ⟨fun history hl => by
          rw [scriptedEnv_device _ _ _ hl]
          exact ⟨by decide, by decide, by decide, by decide, [], by decide⟩,
        fun history hl => by
          rw [scriptedEnv_device _ _ _ hl]
          exact ⟨by decide, by decide, by decide, by decide, [], by decide⟩,
        fun history hl => by
          rw [scriptedEnv_device _ _ _ hl]
          exact ⟨by decide, by decide, by decide, by decide, [], by decide⟩,
        trivial⟩)
    (by decide)

/-- Witness for C8: a remote side whose first READDIRPLUS response is empty;
the fill loop returns after that one request with the buffer it was given. -/
theorem C8_witness :
    fillLoop (scriptedEnv []) demoVirtFs 4 1 World.initial 0 [] =
      some (.ok { Status := (roundOutcome (scriptedEnv []) World.initial demoVirtFs 4 0).1
                  DirBuffer := []
                  world := (roundOutcome (scriptedEnv []) World.initial demoVirtFs 4 0).2.2 }) :=
  (C8_empty_response_ends_fill (scriptedEnv []) World.initial demoVirtFs 4 0 0 []
    (by decide) (by decide)).1

/-! ### C9: handle binding of created contexts -/

/-- C9 (code evaluated at the failing input): `Create` of a directory, the
remote side answering MKDIR successfully with node id 5.  The call succeeds
and publishes a context whose NodeId is 5 but whose FileHandle is still 0,
and `Close` on that context sends RELEASEDIR carrying handle 0. -/
theorem C9_created_directory_has_no_handle :
    (entryReply 0x41ED).entry.nodeid ≠ 0 ∧ (entryReply 0x41ED).fh ≠ 0 ∧
    (Create (scriptedEnv [entryReply 0x41ED]) World.initial demoVirtFs demoPath
      FILE_DIRECTORY_FILE FILE_READ_DATA none none zeroFileInfo).Status = STATUS_SUCCESS ∧
    (Create (scriptedEnv [entryReply 0x41ED]) World.initial demoVirtFs demoPath
      FILE_DIRECTORY_FILE FILE_READ_DATA none none zeroFileInfo).PFileContext
      = some { DirBuffer := none, IsDirectory := true, NodeId := 5, FileHandle := 0 } ∧
    (Close (scriptedEnv [entryReply 0x41ED]) World.initial demoVirtFs
      { DirBuffer := none, IsDirectory := true, NodeId := 5, FileHandle := 0 }).requests
      = [(7, { hdr := { len := 64, opcode := FUSE_RELEASEDIR, unique := 2, nodeid := 5
                        uid := 0, gid := 0, pid := 4242 }
               body := .release 0 0 0 0, data := [], InBufferSize := 64
               OutBufferSize := 16 })] := by
  decide

/-! ### C10: Close -/

/-- C10: for every file context and every behaviour of the device, `Close`
adds exactly three effects to the trace, in this order: one request on the
volume's device handle, RELEASEDIR if the directory flag is set and RELEASE
otherwise, targeting the context's NodeId and carrying its FileHandle; the
deletion of the directory buffer; one release of the context's block. -/
theorem C10_close_effects (env : Env) (w : World) (VirtFs : VIRTFS)
    (FileContext : VIRTFS_FILE_CONTEXT) :
    (Close env w VirtFs FileContext).log =
      w.log ++
        [ .request VirtFs.Device
            { hdr := { len := sizeof_fuse_in_header + sizeof_fuse_release_in
                       opcode := if FileContext.IsDirectory = true then FUSE_RELEASEDIR
                                 else FUSE_RELEASE
                       unique := (w.uniq + 1) % 2 ^ 64
                       nodeid := FileContext.NodeId
                       uid := 0, gid := 0, pid := env.GetCurrentProcessId }
              body := .release FileContext.FileHandle 0 0 0
              data := []
              InBufferSize := sizeof_fuse_in_header + sizeof_fuse_release_in
              OutBufferSize := sizeof_fuse_out_header },
          .FspFileSystemDeleteDirectoryBuffer,
          .HeapFree .FileContext ] := by
  simp only [Close, FUSE_HEADER_INIT_eq, VirtFsFuseRequest_eq, World.emit, List.append_assoc,
    List.singleton_append, List.cons_append, List.nil_append]
  rfl

/-! ### C11: metadata on failure -/

/-- `GetFileInfoInternal` without a descriptor pointer, in terms of its
GETATTR exchange: the metadata is translated from the response on success and
left alone on failure. -/
theorem GetFileInfoInternal_eq (env : Env) (w : World) (Device nodeid fh : Nat)
    (FileInfo : Option FSP_FSCTL_FILE_INFO) :
    GetFileInfoInternal env w Device nodeid fh FileInfo none =
      { Status := (getattrExchange env w Device nodeid fh).1
        FileInfo :=
          if NT_SUCCESS (getattrExchange env w Device nodeid fh).1 then
            FileInfo.map (SetFileInfo env (getattrExchange env w Device nodeid fh).2.1.attr)
          else FileInfo
        SecurityDescriptor := none
        world := (getattrExchange env w Device nodeid fh).2.2 } := by
  simp only [GetFileInfoInternal, getattrExchange, FUSE_HEADER_INIT_eq, VirtFsFuseRequest_eq]
  split_ifs <;> rfl

/-- The call that ends the metadata callbacks, in terms of its GETATTR
exchange. -/
theorem fetchFileInfo_eq (env : Env) (w : World) (Device : Nat)
    (FileContext : VIRTFS_FILE_CONTEXT) (FileInfo : FSP_FSCTL_FILE_INFO) :
    fetchFileInfo env w Device FileContext FileInfo =
      { Status := (getattrExchange env w Device FileContext.NodeId FileContext.FileHandle).1
        FileInfo :=
          if NT_SUCCESS (getattrExchange env w Device FileContext.NodeId
              FileContext.FileHandle).1 then
            SetFileInfo env
              (getattrExchange env w Device FileContext.NodeId FileContext.FileHandle).2.1.attr
              FileInfo
          else FileInfo
        world := (getattrExchange env w Device FileContext.NodeId FileContext.FileHandle).2.2 } := by
  simp only [fetchFileInfo, GetFileInfoInternal_eq]
  split_ifs <;> rfl

/-- A failed attribute fetch leaves the metadata alone. -/
theorem fetchFileInfo_fail (env : Env) (w : World) (Device : Nat)
    (FileContext : VIRTFS_FILE_CONTEXT) (FileInfo : FSP_FSCTL_FILE_INFO)
    (h : NT_SUCCESS (fetchFileInfo env w Device FileContext FileInfo).Status = false) :
    (fetchFileInfo env w Device FileContext FileInfo).FileInfo = FileInfo := by
  rw [fetchFileInfo_eq] at h ⊢
  simp only at h ⊢
  rw [if_neg (by simp [h])]

/-- A failed `VirtFsCreateFile` leaves the metadata alone. -/
theorem VirtFsCreateFile_fail (env : Env) (w : World) (VirtFs : VIRTFS)
    (FileContext : VIRTFS_FILE_CONTEXT) (GrantedAccess : Nat) (FileName : List Nat)
    (Mode : Nat) (FileInfo : FSP_FSCTL_FILE_INFO)
    (h : NT_SUCCESS (VirtFsCreateFile env w VirtFs FileContext GrantedAccess FileName Mode
      FileInfo).Status = false) :
    (VirtFsCreateFile env w VirtFs FileContext GrantedAccess FileName Mode FileInfo).FileInfo
      = FileInfo := by
  revert h
  simp only [VirtFsCreateFile, FUSE_HEADER_INIT_eq, VirtFsFuseRequest_eq]
  split_ifs with h1
  · intro h; exact absurd (h1.symm.trans h) (by decide)
  · intro _; rfl

/-- A failed `VirtFsCreateDir` leaves the metadata alone. -/
theorem VirtFsCreateDir_fail (env : Env) (w : World) (VirtFs : VIRTFS)
    (FileContext : VIRTFS_FILE_CONTEXT) (FileName : List Nat)
    (Mode : Nat) (FileInfo : FSP_FSCTL_FILE_INFO)
    (h : NT_SUCCESS (VirtFsCreateDir env w VirtFs FileContext FileName Mode
      FileInfo).Status = false) :
    (VirtFsCreateDir env w VirtFs FileContext FileName Mode FileInfo).FileInfo = FileInfo := by
  revert h
  simp only [VirtFsCreateDir, FUSE_HEADER_INIT_eq, VirtFsFuseRequest_eq]
  split_ifs with h1
  · intro h; exact absurd (h1.symm.trans h) (by decide)
  · intro _; rfl

/-- A failed `Create` leaves the metadata alone. -/
theorem Create_fail (env : Env) (w : World) (VirtFs : VIRTFS) (FileName : List Nat)
    (CreateOptions GrantedAccess : Nat) (SecurityDescriptor : Option (List Nat))
    (PFileContext : Option VIRTFS_FILE_CONTEXT) (FileInfo : FSP_FSCTL_FILE_INFO)
    (h : NT_SUCCESS (Create env w VirtFs FileName CreateOptions GrantedAccess
      SecurityDescriptor PFileContext FileInfo).Status = false) :
    (Create env w VirtFs FileName CreateOptions GrantedAccess SecurityDescriptor PFileContext
      FileInfo).FileInfo = FileInfo := by
  revert h
  unfold Create
  generalize env.FspPosixMapWindowsToPosixPath (FileName.drop 1) = p
  obtain ⟨Status, filename⟩ := p
  dsimp only
  split_ifs with h1 h2 h3 h4 h5
  · intro _; rfl
  · intro _; rfl
  · intro _; exact VirtFsCreateDir_fail _ _ _ _ _ _ _ (Eq.mp (Bool.not_eq_true' _) h4)
  · intro h; exact VirtFsCreateDir_fail _ _ _ _ _ _ _ h
  · intro _; exact VirtFsCreateFile_fail _ _ _ _ _ _ _ _ (Eq.mp (Bool.not_eq_true' _) h5)
  · intro h; exact VirtFsCreateFile_fail _ _ _ _ _ _ _ _ h

/-- A failed `Open` leaves the metadata alone. -/
theorem Open_fail (env : Env) (w : World) (VirtFs : VIRTFS) (FileName : List Nat)
    (GrantedAccess : Nat) (PFileContext : Option VIRTFS_FILE_CONTEXT)
    (FileInfo : FSP_FSCTL_FILE_INFO)
    (h : NT_SUCCESS (Open env w VirtFs FileName GrantedAccess PFileContext FileInfo).Status
      = false) :
    (Open env w VirtFs FileName GrantedAccess PFileContext FileInfo).FileInfo = FileInfo := by
  revert h
  simp only [Open, FUSE_HEADER_INIT_eq, VirtFsFuseRequest_eq]
  generalize VirtFsLookupFileName env
    (w.emit (.HeapAlloc .FileContext sizeof_VIRTFS_FILE_CONTEXT (env.HeapAlloc w.allocs)))
    VirtFs.Device FileName env.Uninitialized = L
  obtain ⟨Status, lookup_out, w2⟩ := L
  split_ifs with h1 h2 h3 h4 h5
  · intro _; rfl
  · intro _; rfl
  · intro _; rfl
  · intro h; exact absurd (Eq.mpr (Bool.not_eq_true' _) h) h4
  · intro _; rfl
  · intro h; exact absurd (Eq.mpr (Bool.not_eq_true' _) h) h5

/-- A failed `Write_send` leaves the metadata alone. -/
theorem Write_send_fail (env : Env) (w : World) (VirtFs : VIRTFS)
    (FileContext : VIRTFS_FILE_CONTEXT) (Buffer : Option (List Nat)) (Offset Length : Nat)
    (PBytesTransferred : Option Nat) (FileInfo : FSP_FSCTL_FILE_INFO)
    (h : NT_SUCCESS (Write_send env w VirtFs FileContext Buffer Offset Length PBytesTransferred
      FileInfo).Status = false) :
    (Write_send env w VirtFs FileContext Buffer Offset Length PBytesTransferred
      FileInfo).FileInfo = FileInfo := by
  revert h
  simp only [Write_send, FUSE_HEADER_INIT_eq, VirtFsFuseRequest_eq]
  split_ifs with h1 h2
  · intro _; rfl
  · intro _; rfl
  · intro h; exact fetchFileInfo_fail _ _ _ _ _ h

/-- A failed `Flush` leaves the metadata alone. -/
theorem Flush_fail (env : Env) (w : World) (VirtFs : VIRTFS)
    (FileContext : VIRTFS_FILE_CONTEXT) (FileInfo : FSP_FSCTL_FILE_INFO)
    (h : NT_SUCCESS (Flush env w VirtFs FileContext FileInfo).Status = false) :
    (Flush env w VirtFs FileContext FileInfo).FileInfo = FileInfo := by
  revert h
  simp only [Flush, FUSE_HEADER_INIT_eq, VirtFsFuseRequest_eq]
  split_ifs with h1
  · intro _; rfl
  · intro h; exact fetchFileInfo_fail _ _ _ _ _ h

/-- A failed SETATTR exchange or trailing fetch leaves the metadata alone. -/
theorem setattrAndFetch_fail (env : Env) (w : World) (VirtFs : VIRTFS)
    (FileContext : VIRTFS_FILE_CONTEXT) (s : fuse_setattr_in) (FileInfo : FSP_FSCTL_FILE_INFO)
    (h : NT_SUCCESS (setattrAndFetch env w VirtFs FileContext s FileInfo).Status = false) :
    (setattrAndFetch env w VirtFs FileContext s FileInfo).FileInfo = FileInfo := by
  revert h
  simp only [setattrAndFetch, FUSE_HEADER_INIT_eq, VirtFsFuseRequest_eq]
  split_ifs with h1
  · intro _; rfl
  · intro h; exact fetchFileInfo_fail _ _ _ _ _ h

/-- A failed `Overwrite` leaves in the metadata what its first attribute
fetch left there. -/
theorem Overwrite_fail (env : Env) (w : World) (VirtFs : VIRTFS)
    (FileContext : VIRTFS_FILE_CONTEXT) (a : Nat) (Replace : Bool) (s : Nat)
    (FileInfo : FSP_FSCTL_FILE_INFO)
    (h : NT_SUCCESS (Overwrite env w VirtFs FileContext a Replace s FileInfo).Status = false) :
    (Overwrite env w VirtFs FileContext a Replace s FileInfo).FileInfo =
      if Replace = true then FileInfo
      else (fetchFileInfo env w VirtFs.Device FileContext FileInfo).FileInfo := by
  revert h
  unfold Overwrite
  cases Replace
  · simp only [if_true, Bool.false_eq_true, if_false]
    split_ifs with h1
    · intro _; rfl
    · intro h; exact fetchFileInfo_fail _ _ _ _ _ h
  · simp only [Bool.true_eq_false, if_false, if_true]
    intro h; exact fetchFileInfo_fail _ _ _ _ _ h

/-- A failed `Write` leaves in the metadata what its constrained-I/O fetch, if
any, left there. -/
theorem Write_fail (env : Env) (w : World) (VirtFs : VIRTFS)
    (FileContext : VIRTFS_FILE_CONTEXT) (Buffer : Option (List Nat)) (Offset Length : Nat)
    (eof ConstrainedIo : Bool) (PBytesTransferred : Option Nat) (FileInfo : FSP_FSCTL_FILE_INFO)
    (h : NT_SUCCESS (Write env w VirtFs FileContext Buffer Offset Length eof ConstrainedIo
      PBytesTransferred FileInfo).Status = false) :
    (Write env w VirtFs FileContext Buffer Offset Length eof ConstrainedIo
      PBytesTransferred FileInfo).FileInfo =
      if ConstrainedIo = true then
        (fetchFileInfo env w VirtFs.Device FileContext FileInfo).FileInfo
      else FileInfo := by
  revert h
  unfold Write
  cases ConstrainedIo
  · simp only [Bool.false_eq_true, if_false]
    intro h; exact Write_send_fail _ _ _ _ _ _ _ _ _ h
  · simp only [if_true]
    split_ifs with h1 h2
    all_goals first
      | (intro _; rfl)
      | (intro h; exact Write_send_fail _ _ _ _ _ _ _ _ _ h)

/-- C11, as stated, fails: `Overwrite` without `ReplaceFileAttributes`, with a
remote side that answers the first GETATTR (file size 100) and fails the
second with `-EIO`, returns a failure status while the caller's `FileInfo`,
all zeros before the call, holds the metadata of the first answer. -/
theorem C11_counterexample :
    NT_SUCCESS (Overwrite (scriptedEnv [getattrReply 100, errorReply (-5)]) World.initial
      demoVirtFs demoFile 0 false 0 zeroFileInfo).Status = false ∧
    (Overwrite (scriptedEnv [getattrReply 100, errorReply (-5)]) World.initial
      demoVirtFs demoFile 0 false 0 zeroFileInfo).FileInfo ≠ zeroFileInfo ∧
    (Overwrite (scriptedEnv [getattrReply 100, errorReply (-5)]) World.initial
      demoVirtFs demoFile 0 false 0 zeroFileInfo).FileInfo.FileSize = 100 := by
  decide

/-- C11, amended: a callback with a metadata output that returns a failure
status leaves the caller's `FileInfo` as it was before the call, for `Create`,
`Open`, `Overwrite` with `ReplaceFileAttributes`, unconstrained `Write`,
`Flush`, `GetFileInfo`, `SetBasicInfo` and `SetFileSize`; `Overwrite` without
`ReplaceFileAttributes` and `Write` with `ConstrainedIo` leave in it what
their first attribute fetch left there (the fetched metadata when that fetch
succeeded, the value before the call when it failed). -/
theorem C11_failure_leaves_metadata (env : Env) (w : World) (VirtFs : VIRTFS)
    (FileContext : VIRTFS_FILE_CONTEXT) (FileInfo : FSP_FSCTL_FILE_INFO) :
    (∀ FileName CreateOptions GrantedAccess SecurityDescriptor PFileContext,
      NT_SUCCESS (Create env w VirtFs FileName CreateOptions GrantedAccess SecurityDescriptor
        PFileContext FileInfo).Status = false →
      (Create env w VirtFs FileName CreateOptions GrantedAccess SecurityDescriptor
        PFileContext FileInfo).FileInfo = FileInfo) ∧
    (∀ FileName GrantedAccess PFileContext,
      NT_SUCCESS (Open env w VirtFs FileName GrantedAccess PFileContext FileInfo).Status
        = false →
      (Open env w VirtFs FileName GrantedAccess PFileContext FileInfo).FileInfo = FileInfo) ∧
    (∀ FileAttributes ReplaceFileAttributes AllocationSize,
      NT_SUCCESS (Overwrite env w VirtFs FileContext FileAttributes ReplaceFileAttributes
        AllocationSize FileInfo).Status = false →
      (Overwrite env w VirtFs FileContext FileAttributes ReplaceFileAttributes
        AllocationSize FileInfo).FileInfo =
        if ReplaceFileAttributes = true then FileInfo
        else (fetchFileInfo env w VirtFs.Device FileContext FileInfo).FileInfo) ∧
    (∀ Buffer Offset Length WriteToEndOfFile ConstrainedIo PBytesTransferred,
      NT_SUCCESS (Write env w VirtFs FileContext Buffer Offset Length WriteToEndOfFile
        ConstrainedIo PBytesTransferred FileInfo).Status = false →
      (Write env w VirtFs FileContext Buffer Offset Length WriteToEndOfFile
        ConstrainedIo PBytesTransferred FileInfo).FileInfo =
        if ConstrainedIo = true then
          (fetchFileInfo env w VirtFs.Device FileContext FileInfo).FileInfo
        else FileInfo) ∧
    (NT_SUCCESS (Flush env w VirtFs FileContext FileInfo).Status = false →
      (Flush env w VirtFs FileContext FileInfo).FileInfo = FileInfo) ∧
    (NT_SUCCESS (GetFileInfo env w VirtFs FileContext FileInfo).Status = false →
      (GetFileInfo env w VirtFs FileContext FileInfo).FileInfo = FileInfo) ∧
    (∀ FileAttributes CreationTime LastAccessTime LastWriteTime ChangeTime,
      NT_SUCCESS (SetBasicInfo env w VirtFs FileContext FileAttributes CreationTime
        LastAccessTime LastWriteTime ChangeTime FileInfo).Status = false →
      (SetBasicInfo env w VirtFs FileContext FileAttributes CreationTime
        LastAccessTime LastWriteTime ChangeTime FileInfo).FileInfo = FileInfo) ∧
    (∀ NewSize SetAllocationSize,
      NT_SUCCESS (SetFileSize env w VirtFs FileContext NewSize SetAllocationSize
        FileInfo).Status = false →
      (SetFileSize env w VirtFs FileContext NewSize SetAllocationSize FileInfo).FileInfo
        = FileInfo) ∧
    (NT_SUCCESS (fetchFileInfo env w VirtFs.Device FileContext FileInfo).Status = false →
      (fetchFileInfo env w VirtFs.Device FileContext FileInfo).FileInfo = FileInfo) := by
  refine ⟨?_, ?_, ?_, ?_, ?_, ?_, ?_, ?_, ?_⟩
  · intro _ _ _ _ _ h; exact Create_fail _ _ _ _ _ _ _ _ _ h
  · intro _ _ _ h; exact Open_fail _ _ _ _ _ _ _ h
  · intro _ _ _ h; exact Overwrite_fail _ _ _ _ _ _ _ _ h
  · intro _ _ _ _ _ _ h; exact Write_fail _ _ _ _ _ _ _ _ _ _ _ h
  · exact Flush_fail _ _ _ _ _
  · exact fetchFileInfo_fail _ _ _ _ _
  · intro _ _ _ _ _ h; exact setattrAndFetch_fail _ _ _ _ _ _ h
  · intro _ _ h; exact setattrAndFetch_fail _ _ _ _ _ _ h
  · exact fetchFileInfo_fail _ _ _ _ _

/-- C11, on a concrete run: `SetFileSize` whose SETATTR request the remote
side fails with `-EIO` returns a failure status and the metadata, all zeros
before the call, is all zeros after it. -/
theorem C11_witness :
    NT_SUCCESS (SetFileSize (scriptedEnv [errorReply (-5)]) World.initial demoVirtFs demoFile
      64 false zeroFileInfo).Status = false ∧
    (SetFileSize (scriptedEnv [errorReply (-5)]) World.initial demoVirtFs demoFile
      64 false zeroFileInfo).FileInfo = zeroFileInfo :=
  ⟨by decide,
   (C11_failure_leaves_metadata (scriptedEnv [errorReply (-5)]) World.initial demoVirtFs
      demoFile zeroFileInfo).2.2.2.2.2.2.2.1 64 false (by decide)⟩

/-! ### C12: bytes transferred by Read -/

/-- C12, as stated, fails: a successful READ response whose declared total
length, 8, is below the 16-byte response header makes `Read` report
4294967288 bytes transferred (with no caller buffer), and a successful
response that declares 24 bytes where 4 payload bytes were asked for and
delivered makes the copy leave the response block and the caller's 4-byte
buffer. -/
theorem C12_counterexample :
    (Read (scriptedEnv [readReply 8 []]) World.initial demoVirtFs demoFile none 0 4
      (some 0)).map (fun r => (r.Status, r.PBytesTransferred))
      = .ok (STATUS_SUCCESS, some 4294967288) ∧
    Read (scriptedEnv [readReply 24 [1, 2, 3, 4]]) World.initial demoVirtFs demoFile
      (some [0, 0, 0, 0]) 0 4 (some 0) = .error .out_of_bounds := by
  decide

/-- C12, amended: when the response block could be allocated and both
`PBytesTransferred` and `Buffer` are given, a successful READ response whose
declared total length is at least the 16-byte header and whose payload length
`len - 16` exceeds neither the payload bytes of the response block nor the
caller's buffer makes `Read` succeed, report `len - 16` bytes transferred and
put exactly the first `len - 16` payload bytes, in order, at the start of the
caller's buffer; a failed request makes it report zero bytes, leave the buffer
alone and return the error. -/
theorem C12_read_transfers_payload (env : Env) (w : World) (VirtFs : VIRTFS)
    (FileContext : VIRTFS_FILE_CONTEXT) (b : List Nat) (Offset Length P0 : Nat)
    (halloc : env.HeapAlloc w.allocs = true) :
    (NT_SUCCESS (readExchange env w VirtFs FileContext Offset Length).1 = true →
      sizeof_fuse_out_header ≤ (readExchange env w VirtFs FileContext Offset Length).2.1.hdr.len →
      (readExchange env w VirtFs FileContext Offset Length).2.1.hdr.len < 2 ^ 32 →
      (readExchange env w VirtFs FileContext Offset Length).2.1.hdr.len - sizeof_fuse_out_header
        ≤ (readExchange env w VirtFs FileContext Offset Length).2.1.buf.length →
      (readExchange env w VirtFs FileContext Offset Length).2.1.hdr.len - sizeof_fuse_out_header
        ≤ b.length →
      Read env w VirtFs FileContext (some b) Offset Length (some P0) =
        .ok { Status := STATUS_SUCCESS
              Buffer := some
                ((readExchange env w VirtFs FileContext Offset Length).2.1.buf.take
                    ((readExchange env w VirtFs FileContext Offset Length).2.1.hdr.len
                      - sizeof_fuse_out_header)
                  ++ b.drop ((readExchange env w VirtFs FileContext Offset Length).2.1.hdr.len
                      - sizeof_fuse_out_header))
              PBytesTransferred := some
                ((readExchange env w VirtFs FileContext Offset Length).2.1.hdr.len
                  - sizeof_fuse_out_header)
              world := (readExchange env w VirtFs FileContext Offset Length).2.2.emit
                (.HeapFree .read_out) }) ∧
    (NT_SUCCESS (readExchange env w VirtFs FileContext Offset Length).1 = false →
      Read env w VirtFs FileContext (some b) Offset Length (some P0) =
        .ok { Status := (readExchange env w VirtFs FileContext Offset Length).1
              Buffer := some b
              PBytesTransferred := some 0
              world := (readExchange env w VirtFs FileContext Offset Length).2.2.emit
                (.HeapFree .read_out) }) := by
  have hR : Read env w VirtFs FileContext (some b) Offset Length (some P0) =
      if !NT_SUCCESS (readExchange env w VirtFs FileContext Offset Length).1 then
        .ok { Status := (readExchange env w VirtFs FileContext Offset Length).1
              Buffer := some b
              PBytesTransferred := some 0
              world := (readExchange env w VirtFs FileContext Offset Length).2.2.emit
                (.HeapFree .read_out) }
      else if (readExchange env w VirtFs FileContext Offset Length).2.1.buf.length <
            sub32 (readExchange env w VirtFs FileContext Offset Length).2.1.hdr.len
              sizeof_fuse_out_header ∨
          b.length < sub32 (readExchange env w VirtFs FileContext Offset Length).2.1.hdr.len
              sizeof_fuse_out_header then .error .out_of_bounds
      else
        .ok { Status := STATUS_SUCCESS
              Buffer := some
                ((readExchange env w VirtFs FileContext Offset Length).2.1.buf.take
                    (sub32 (readExchange env w VirtFs FileContext Offset Length).2.1.hdr.len
                      sizeof_fuse_out_header)
                  ++ b.drop (sub32
                    (readExchange env w VirtFs FileContext Offset Length).2.1.hdr.len
                      sizeof_fuse_out_header))
              PBytesTransferred := some
                (sub32 (readExchange env w VirtFs FileContext Offset Length).2.1.hdr.len
                  sizeof_fuse_out_header)
              world := (readExchange env w VirtFs FileContext Offset Length).2.2.emit
                (.HeapFree .read_out) } := by
    simp only [Read, readExchange, halloc, FUSE_HEADER_INIT_eq, VirtFsFuseRequest_eq]
    split_ifs <;> first | rfl | simp_all
  constructor
  · intro hs h16 h32 hbuf hb
    rw [hR, sub32_of_le _ _ h16 h32]
    rw [if_neg (by simp [hs]), if_neg (by omega)]
  · intro hs
    rw [hR, if_pos (by simp [hs])]

/-- C12, on a concrete run: a 3-byte answer to a 4-byte read. -/
theorem C12_witness :
    Read (scriptedEnv [readReply 19 [1, 2, 3, 0]]) World.initial demoVirtFs demoFile
      (some [9, 9, 9, 9, 9]) 0 4 (some 77) =
      .ok { Status := STATUS_SUCCESS
            Buffer := some [1, 2, 3, 9, 9]
            PBytesTransferred := some 3
            world := (readExchange (scriptedEnv [readReply 19 [1, 2, 3, 0]]) World.initial
              demoVirtFs demoFile 0 4).2.2.emit (.HeapFree .read_out) } :=
  (C12_read_transfers_payload (scriptedEnv [readReply 19 [1, 2, 3, 0]]) World.initial
    demoVirtFs demoFile [9, 9, 9, 9, 9] 0 4 77 rfl).1
    (by decide) (by decide) (by decide) (by decide) (by decide)

/-! ### C13: Open after lookup -/

/-- C13 at a looked-up node that is a socket (mode `S_IFSOCK | 0755`, which
`PosixUnixModeToAttributes` classifies as not a directory): `Open` tests
`mode & S_IFDIR`, which is non-zero, so after the LOOKUP it sends OPENDIR with
`O_DIRECTORY` and publishes a context whose directory flag is set, while the
metadata it returns says the node is not a directory. -/
theorem C13_socket_opened_as_directory :
    PosixUnixModeToAttributes socketMode = FILE_ATTRIBUTE_NORMAL ∧
    sentOps (Open (scriptedEnv [entryReply socketMode, entryReply 0]) World.initial demoVirtFs
      demoPath FILE_READ_DATA none zeroFileInfo).world =
      [(FUSE_LOOKUP, .none), (FUSE_OPENDIR, .open_ (O_RDONLY ||| O_DIRECTORY))] ∧
    (Open (scriptedEnv [entryReply socketMode, entryReply 0]) World.initial demoVirtFs
      demoPath FILE_READ_DATA none zeroFileInfo).Status = STATUS_SUCCESS ∧
    (Open (scriptedEnv [entryReply socketMode, entryReply 0]) World.initial demoVirtFs
      demoPath FILE_READ_DATA none zeroFileInfo).PFileContext =
      some { DirBuffer := none, IsDirectory := true, NodeId := 5, FileHandle := 9 } ∧
    (Open (scriptedEnv [entryReply socketMode, entryReply 0]) World.initial demoVirtFs
      demoPath FILE_READ_DATA none zeroFileInfo).FileInfo.FileAttributes
      = FILE_ATTRIBUTE_NORMAL := by
  decide

/-! ### C14: CanDelete -/

/-- The directory bit of the attributes `SetFileInfo` stores is set exactly
when the mode is that of a directory. -/
theorem SetFileInfo_directory_bit (env : Env) (attr : fuse_attr) (FileInfo : FSP_FSCTL_FILE_INFO) :
    ((SetFileInfo env attr FileInfo).FileAttributes &&& FILE_ATTRIBUTE_DIRECTORY ≠ 0) ↔
      attr.mode &&& S_IFMT = S_IFDIR := by
  simp only [SetFileInfo, PosixUnixModeToAttributes]
  split_ifs with h
  · simp [h]
  · simp only [h, ne_eq, iff_false, not_not]
    decide

/-- C14: `CanDelete` returns the status of its attribute fetch when the fetch
fails; when the fetch succeeds it returns `STATUS_DIRECTORY_NOT_EMPTY` if the
fetched mode is that of a directory (nothing about the directory's contents
is asked of the remote side: the GETATTR is the only request), and the
successful status of the fetch for every other mode. -/
theorem C14_can_delete (env : Env) (w : World) (VirtFs : VIRTFS)
    (FileContext : VIRTFS_FILE_CONTEXT) :
    (NT_SUCCESS (getattrExchange env w VirtFs.Device FileContext.NodeId
        FileContext.FileHandle).1 = false →
      (CanDelete env w VirtFs FileContext).1 =
        (getattrExchange env w VirtFs.Device FileContext.NodeId FileContext.FileHandle).1) ∧
    (NT_SUCCESS (getattrExchange env w VirtFs.Device FileContext.NodeId
        FileContext.FileHandle).1 = true →
      (getattrExchange env w VirtFs.Device FileContext.NodeId
        FileContext.FileHandle).2.1.attr.mode &&& S_IFMT = S_IFDIR →
      (CanDelete env w VirtFs FileContext).1 = STATUS_DIRECTORY_NOT_EMPTY) ∧
    (NT_SUCCESS (getattrExchange env w VirtFs.Device FileContext.NodeId
        FileContext.FileHandle).1 = true →
      (getattrExchange env w VirtFs.Device FileContext.NodeId
        FileContext.FileHandle).2.1.attr.mode &&& S_IFMT ≠ S_IFDIR →
      NT_SUCCESS (CanDelete env w VirtFs FileContext).1 = true) ∧
    (CanDelete env w VirtFs FileContext).2 =
      (getattrExchange env w VirtFs.Device FileContext.NodeId FileContext.FileHandle).2.2 := by
  have hd := SetFileInfo_directory_bit env
    (getattrExchange env w VirtFs.Device FileContext.NodeId FileContext.FileHandle).2.1.attr
    env.UninitializedFileInfo
  simp only [CanDelete, fetchFileInfo_eq]
  refine ⟨?_, ?_, ?_, ?_⟩
  · intro h
    simp [h]
  · intro h hdir
    simp only [h, Bool.not_true, Bool.false_eq_true, if_false, if_true]
    rw [if_pos (hd.mpr hdir)]
  · intro h hdir
    simp only [h, Bool.not_true, Bool.false_eq_true, if_false, if_true]
    rw [if_neg (fun hc => hdir (hd.mp hc))]
    exact h
  · split_ifs <;> rfl

/-- C14, on concrete runs: a failed fetch, a directory, a regular file. -/
theorem C14_witness :
    (CanDelete (scriptedEnv [errorReply (-2)]) World.initial demoVirtFs demoFile).1
      = STATUS_OBJECT_NAME_NOT_FOUND ∧
    (CanDelete (scriptedEnv [{ getattrReply 0 with attr := { zeroAttr with mode := 0x41ED } }])
      World.initial demoVirtFs demoDir).1 = STATUS_DIRECTORY_NOT_EMPTY ∧
    NT_SUCCESS (CanDelete (scriptedEnv [getattrReply 100]) World.initial demoVirtFs demoFile).1
      = true :=
  ⟨((C14_can_delete (scriptedEnv [errorReply (-2)]) World.initial demoVirtFs demoFile).1
      (by decide)).trans (by decide),
   (C14_can_delete (scriptedEnv [{ getattrReply 0 with attr := { zeroAttr with mode := 0x41ED } }])
      World.initial demoVirtFs demoDir).2.1 (by decide) (by decide),
   (C14_can_delete (scriptedEnv [getattrReply 100]) World.initial demoVirtFs demoFile).2.2.1
      (by decide) (by decide)⟩

/-! ### C15: SetSecurity -/

/-- `GetFileInfoInternal` with a descriptor pointer and no metadata pointer,
in terms of its GETATTR exchange. -/
theorem GetFileInfoInternal_descriptor (env : Env) (w : World) (Device nodeid fh : Nat)
    (sd : List Nat) :
    GetFileInfoInternal env w Device nodeid fh none (some sd) =
      if NT_SUCCESS (getattrExchange env w Device nodeid fh).1 then
        { Status := (env.FspPosixMapPermissionsToSecurityDescriptor OWNER_UID OWNER_GID
            (getattrExchange env w Device nodeid fh).2.1.attr.mode).1
          FileInfo := none
          SecurityDescriptor := some (env.FspPosixMapPermissionsToSecurityDescriptor OWNER_UID
            OWNER_GID (getattrExchange env w Device nodeid fh).2.1.attr.mode).2
          world := (getattrExchange env w Device nodeid fh).2.2 }
      else
        { Status := (getattrExchange env w Device nodeid fh).1
          FileInfo := none
          SecurityDescriptor := some sd
          world := (getattrExchange env w Device nodeid fh).2.2 } := by
  simp only [GetFileInfoInternal, getattrExchange, FUSE_HEADER_INIT_eq, VirtFsFuseRequest_eq]
  split_ifs <;> rfl

/-- C15: in `SetSecurity`, when the attribute fetch, the two conversions
between descriptor and permissions and `FspSetSecurityDescriptor` all succeed,
the requests sent after the initial attribute fetch are one SETATTR on the
device handle, whose `valid` mask is `FATTR_MODE` alone and whose `mode` is the
mode derived from the modified descriptor, when that mode differs from the
mode derived from the current descriptor, and none when the two modes are
equal, in which case the call succeeds. -/
theorem C15_setattr_iff_mode_changed (env : Env) (w : World) (VirtFs : VIRTFS)
    (FileContext : VIRTFS_FILE_CONTEXT) (SecurityInformation : Nat)
    (ModificationDescriptor FileSecurity NewSecurityDescriptor : List Nat)
    (S1 S2 S3 S4 Uid Gid Mode Uid1 Gid1 NewMode : Nat)
    (hfetch : NT_SUCCESS (getattrExchange env w VirtFs.FileSystem FileContext.NodeId
      FileContext.FileHandle).1 = true)
    (hsd : env.FspPosixMapPermissionsToSecurityDescriptor OWNER_UID OWNER_GID
      (getattrExchange env w VirtFs.FileSystem FileContext.NodeId
        FileContext.FileHandle).2.1.attr.mode = (S1, FileSecurity))
    (h1 : NT_SUCCESS S1 = true)
    (hmode : env.FspPosixMapSecurityDescriptorToPermissions FileSecurity = (S2, Uid, Gid, Mode))
    (h2 : NT_SUCCESS S2 = true)
    (hset : env.FspSetSecurityDescriptor FileSecurity SecurityInformation
      ModificationDescriptor = (S3, NewSecurityDescriptor))
    (h3 : NT_SUCCESS S3 = true)
    (hnew : env.FspPosixMapSecurityDescriptorToPermissions NewSecurityDescriptor
      = (S4, Uid1, Gid1, NewMode))
    (h4 : NT_SUCCESS S4 = true) :
    (SetSecurity env w VirtFs FileContext SecurityInformation ModificationDescriptor).2.requests =
      (getattrExchange env w VirtFs.FileSystem FileContext.NodeId
        FileContext.FileHandle).2.2.requests ++
      (if Mode ≠ NewMode then
        [(VirtFs.Device, modeRequest env (getattrExchange env w VirtFs.FileSystem
          FileContext.NodeId FileContext.FileHandle).2.2 FileContext.NodeId NewMode)]
       else []) ∧
    (Mode = NewMode →
      NT_SUCCESS (SetSecurity env w VirtFs FileContext SecurityInformation
        ModificationDescriptor).1 = true) := by
  simp only [SetSecurity, GetFileInfoInternal_descriptor, hfetch, if_true, hsd,
    Option.getD_some, h1, Bool.not_true, Bool.false_eq_true, if_false, hmode, h2, hset, h3,
    hnew, h4, FUSE_HEADER_INIT_eq, VirtFsFuseRequest_eq]
  split_ifs with hm
  · refine ⟨?_, fun h => absurd h hm⟩
    simp [World.requests, World.emit, List.filterMap_append, Event.sent?, modeRequest]
  · refine ⟨?_, fun _ => h4⟩
    simp [World.requests, World.emit, List.filterMap_append, Event.sent?]

/-- C15, on a concrete run: the current mode is 0644, the modified descriptor
gives 0600, and the one request after the fetch is the SETATTR of mode 0600
on the device handle. -/
theorem C15_witness :
    (SetSecurity (securityEnv [modeReply 0o644])
      World.initial demoVirtFs demoFile 4 [0o600]).2.requests =
      (getattrExchange (securityEnv [modeReply 0o644])
        World.initial demoVirtFs.FileSystem demoFile.NodeId demoFile.FileHandle).2.2.requests ++
      [(7, { hdr := { len := 128, opcode := FUSE_SETATTR, unique := 3, nodeid := 5
                      uid := 0, gid := 0, pid := 4242 }
             body := .setattr { zero_setattr with valid := FATTR_MODE, mode := 0o600 }
             data := [], InBufferSize := 128, OutBufferSize := 120 })] :=
  (C15_setattr_iff_mode_changed
    (securityEnv [modeReply 0o644])
    World.initial demoVirtFs demoFile 4 [0o600] [0o644] [0o600]
    STATUS_SUCCESS STATUS_SUCCESS STATUS_SUCCESS STATUS_SUCCESS 0 0 0o644 0 0 0o600
    (by decide) (by decide) (by decide) rfl (by decide) rfl (by decide) rfl (by decide)).1.trans
    (by decide)

/-! ### C16: Cleanup with the delete flag -/

/-- A byte string without a NUL is what `lstrlenA` measures. -/
theorem lstrlenA_of_no_nul (s : List Nat) (h : 0 ∉ s) : lstrlenA s = s.length := by
  unfold lstrlenA
  rw [List.takeWhile_eq_self_iff.mpr]
  intro x hx
  simp only [bne_iff_ne, ne_eq]
  rintro rfl
  exact h hx

/-- A byte string without a NUL is copied whole, with its terminator. -/
theorem lstrcpyA_of_no_nul (s : List Nat) (h : 0 ∉ s) : lstrcpyA s = s ++ [0] := by
  unfold lstrcpyA
  rw [List.takeWhile_eq_self_iff.mpr]
  intro x hx
  simp only [bne_iff_ne, ne_eq]
  rintro rfl
  exact h hx

/-- C16: `Cleanup` with a path that converts (to a string `filename`) sends,
when `FspCleanupDelete` is set, exactly one request: RMDIR if the context's
directory flag is set and UNLINK otherwise, with node id `FUSE_ROOT_ID` (not
the context's `NodeId`), carrying `filename` and its terminator; when
`FspCleanupDelete` is not set it sends nothing, whatever the other flags. -/
theorem C16_cleanup_delete (env : Env) (w : World) (VirtFs : VIRTFS)
    (FileContext : VIRTFS_FILE_CONTEXT) (FileName filename : List Nat) (Flags Status : Nat)
    (hconv : env.FspPosixMapWindowsToPosixPath (FileName.drop 1) = (Status, filename))
    (hok : NT_SUCCESS Status = true) (hstr : 0 ∉ filename) :
    (Cleanup env w VirtFs FileContext (some FileName) Flags).requests =
      w.requests ++
      if Flags &&& FspCleanupDelete ≠ 0 then
        [(VirtFs.Device,
          { hdr := { len := (sizeof_fuse_in_header + (filename.length + 1) % 2 ^ 32) % 2 ^ 32
                     opcode := if FileContext.IsDirectory = true then FUSE_RMDIR else FUSE_UNLINK
                     unique := (w.uniq + 1) % 2 ^ 64
                     nodeid := FUSE_ROOT_ID
                     uid := 0, gid := 0, pid := env.GetCurrentProcessId }
            body := .none
            data := filename ++ [0]
            InBufferSize := (sizeof_fuse_in_header + (filename.length + 1) % 2 ^ 32) % 2 ^ 32
            OutBufferSize := sizeof_fuse_out_header })]
      else [] := by
  simp only [Cleanup, hconv, hok, VirtFsDeleteFile, FUSE_HEADER_INIT_eq, VirtFsFuseRequest_eq,
    lstrlenA_of_no_nul _ hstr, lstrcpyA_of_no_nul _ hstr, Bool.not_true, Bool.false_eq_true,
    if_false]
  split_ifs <;> simp [World.requests, World.emit, List.filterMap_append, Event.sent?]

/-- C16, on a concrete run: deleting the open file `\d` sends one UNLINK of
`d` at the root. -/
theorem C16_witness :
    (Cleanup (scriptedEnv []) World.initial demoVirtFs demoFile (some demoPath)
      FspCleanupDelete).requests =
      [(7, { hdr := { len := 42, opcode := FUSE_UNLINK, unique := 2, nodeid := 1
                      uid := 0, gid := 0, pid := 4242 }
             body := .none, data := [0x64, 0], InBufferSize := 42, OutBufferSize := 16 })] :=
  (C16_cleanup_delete (scriptedEnv []) World.initial demoVirtFs demoFile demoPath [0x64]
    FspCleanupDelete STATUS_SUCCESS rfl (by decide) (by decide)).trans (by decide)

/-! ### C17: the RENAME request -/

/-- C17: when both paths convert (to strings `oldname` and `newname`), the
request block can be allocated and the request fits the 32-bit length field,
`Rename` sends exactly one request: a RENAME whose header names
`FUSE_ROOT_ID`, whose `newdir` is `FUSE_ROOT_ID`, whose trailer is `oldname`,
a NUL, `newname`, a NUL, and whose declared length is the header size plus
`sizeof(struct fuse_rename_in)` plus both name lengths with their
terminators.  The whole outcome is the same for `ReplaceIfExists` true and
false. -/
theorem C17_rename_request (env : Env) (w : World) (VirtFs : VIRTFS)
    (FileName NewFileName oldname newname : List Nat) (ReplaceIfExists : Bool)
    (Status1 Status2 : Nat)
    (hold : env.FspPosixMapWindowsToPosixPath (FileName.drop 1) = (Status1, oldname))
    (hok1 : NT_SUCCESS Status1 = true)
    (hnew : env.FspPosixMapWindowsToPosixPath (NewFileName.drop 1) = (Status2, newname))
    (hok2 : NT_SUCCESS Status2 = true)
    (halloc : env.HeapAlloc w.allocs = true)
    (hstr1 : 0 ∉ oldname) (hstr2 : 0 ∉ newname)
    (hfit : sizeof_fuse_in_header + sizeof_fuse_rename_in + (oldname.length + 1)
      + (newname.length + 1) < 2 ^ 32) :
    (Rename env w VirtFs FileName NewFileName ReplaceIfExists).2.requests =
      w.requests ++
      [(VirtFs.Device,
        { hdr := { len := sizeof_fuse_in_header + sizeof_fuse_rename_in
                     + (oldname.length + 1) + (newname.length + 1)
                   opcode := FUSE_RENAME
                   unique := (w.uniq + 1) % 2 ^ 64
                   nodeid := FUSE_ROOT_ID
                   uid := 0, gid := 0, pid := env.GetCurrentProcessId }
          body := .rename FUSE_ROOT_ID
          data := oldname ++ [0] ++ newname ++ [0]
          InBufferSize := sizeof_fuse_in_header + sizeof_fuse_rename_in
            + (oldname.length + 1) + (newname.length + 1)
          OutBufferSize := sizeof_fuse_out_header })] ∧
    Rename env w VirtFs FileName NewFileName true =
      Rename env w VirtFs FileName NewFileName false := by
  refine ⟨?_, rfl⟩
  have hlen : (sizeof_fuse_in_header + (sizeof_fuse_rename_in + (oldname.length + 1)
      + (newname.length + 1)) % 2 ^ 32) % 2 ^ 32 =
      sizeof_fuse_in_header + sizeof_fuse_rename_in + (oldname.length + 1)
        + (newname.length + 1) := by
    have e : sizeof_fuse_in_header + sizeof_fuse_rename_in + (oldname.length + 1)
        + (newname.length + 1) = oldname.length + newname.length + 50 := by
      show 40 + 8 + (oldname.length + 1) + (newname.length + 1) = _
      omega
    rw [e] at hfit ⊢
    show (40 + (8 + (oldname.length + 1) + (newname.length + 1)) % 2 ^ 32) % 2 ^ 32 = _
    omega
  simp only [Rename, hold, hok1, hnew, hok2, halloc, FUSE_HEADER_INIT_eq, VirtFsFuseRequest_eq,
    lstrlenA_of_no_nul _ hstr1, lstrcpyA_of_no_nul _ hstr1, lstrlenA_of_no_nul _ hstr2,
    lstrcpyA_of_no_nul _ hstr2, Bool.not_true, Bool.false_eq_true, if_false, hlen]
  simp [World.requests, World.emit, List.filterMap_append, Event.sent?]

/-- C17, on a concrete run: renaming `\a` to `\b`. -/
theorem C17_witness :
    (Rename (scriptedEnv []) World.initial demoVirtFs [0x5C, 0x61] [0x5C, 0x62] true).2.requests =
      [(7, { hdr := { len := 52, opcode := FUSE_RENAME, unique := 2, nodeid := 1
                      uid := 0, gid := 0, pid := 4242 }
             body := .rename 1, data := [0x61, 0, 0x62, 0], InBufferSize := 52
             OutBufferSize := 16 })] :=
  (C17_rename_request (scriptedEnv []) World.initial demoVirtFs [0x5C, 0x61] [0x5C, 0x62]
    [0x61] [0x62] true STATUS_SUCCESS STATUS_SUCCESS rfl (by decide) rfl (by decide) rfl
    (by decide) (by decide) (by decide)).1.trans (by decide)

/-! ### C18: the cursor of the entry loop -/

set_option maxRecDepth 100000 in
/-- C18 at a response that declares a 160-byte payload whose entry declares a
size of 168 bytes: `Remains -= FUSE_DIRENTPLUS_SIZE(DirEntryPlus)` wraps to
4294967288, the loop test `Remains > sizeof(struct fuse_direntplus)` stays
true, and the entry named `g`, which lies at offset 168 of the buffer, beyond
the payload, is read and put in the directory buffer. -/
theorem C18_cursor_passes_payload :
    sub32 truncatedReply.hdr.len sizeof_fuse_out_header = 160 ∧
    FUSE_DIRENTPLUS_SIZE overlongEntry.name.length = 168 ∧
    sub32 160 (FUSE_DIRENTPLUS_SIZE overlongEntry.name.length) = 4294967288 ∧
    (fillRound (boundedFillEnv 2 [truncatedReply]) demoVirtFs demoDir.FileHandle World.initial
      0 []).names = some [overlongEntry.name, [0x67]] := by
  decide

/-! ### C19: refusal of the fill primitive -/

/-- Asked at offset 1, the two-file remote side answers with the entry `b`. -/
theorem twoFileDevice_at_one (w : World) :
    fullBufferEnv.device (roundWorld fullBufferEnv w demoVirtFs demoDir.FileHandle 1).requests
      = listingReply [demoEntry 0x62 20 2] := by
  rw [roundWorld_requests]
  simp [fullBufferEnv, twoFileDevice, roundRequest, readdirplusRequest]

set_option maxRecDepth 100000 in
/-- With `a` in the directory buffer and `Offset` 1, a round of the fill loop
is refused the entry `b` and hands the next round the same `Offset` and
buffer. -/
theorem fillRound_stuck (w : World) :
    fillRound fullBufferEnv demoVirtFs demoDir.FileHandle w 1 [entryA] =
      .again (roundWorld fullBufferEnv w demoVirtFs demoDir.FileHandle 1) 1 [entryA] := by
  rw [fillRound_eq _ _ _ w 1 [entryA] _ (twoFileDevice_at_one w)]
  have he : entryLoop fullBufferEnv ((listingReply [demoEntry 0x62 20 2]).buf.length + 1)
      (listingReply [demoEntry 0x62 20 2]).buf
      (sub32 (listingReply [demoEntry 0x62 20 2]).hdr.len sizeof_fuse_out_header) 1 [entryA]
      (replyStatus fullBufferEnv (listingReply [demoEntry 0x62 20 2])) =
      .ok { Offset := 1, DirBuffer := [entryA], Status := STATUS_INSUFFICIENT_RESOURCES } := by
    decide
  rw [he, if_neg (by decide), if_neg (by decide)]

/-- From that state the fill loop is still running after any number of
rounds. -/
theorem fillLoop_stuck (fuel : Nat) (w : World) :
    fillLoop fullBufferEnv demoVirtFs demoDir.FileHandle fuel w 1 [entryA] = none := by
  induction fuel generalizing w with
  | zero => rfl
  | succ n ih => rw [fillLoop, fillRound_stuck]; exact ih _

set_option maxRecDepth 100000 in
/-- The first round on the two-file directory: `a` is taken, `b` is refused,
and the loop goes round again from `Offset` 1. -/
theorem fillRound_first :
    fillRound fullBufferEnv demoVirtFs demoDir.FileHandle World.initial 0 [] =
      .again (roundWorld fullBufferEnv World.initial demoVirtFs demoDir.FileHandle 0) 1
        [entryA] := by
  have hdev : fullBufferEnv.device
      (roundWorld fullBufferEnv World.initial demoVirtFs demoDir.FileHandle 0).requests
      = listingReply [demoEntry 0x61 10 1, demoEntry 0x62 20 2] := by
    decide
  rw [fillRound_eq _ _ _ World.initial 0 [] _ hdev]
  have he : entryLoop fullBufferEnv
      ((listingReply [demoEntry 0x61 10 1, demoEntry 0x62 20 2]).buf.length + 1)
      (listingReply [demoEntry 0x61 10 1, demoEntry 0x62 20 2]).buf
      (sub32 (listingReply [demoEntry 0x61 10 1, demoEntry 0x62 20 2]).hdr.len
        sizeof_fuse_out_header) 0 []
      (replyStatus fullBufferEnv (listingReply [demoEntry 0x61 10 1, demoEntry 0x62 20 2])) =
      .ok { Offset := 1, DirBuffer := [entryA], Status := STATUS_INSUFFICIENT_RESOURCES } := by
    decide
  rw [he, if_neg (by decide), if_neg (by decide)]

/-- C19 on a directory of two files and a directory buffer that takes one
entry: the fill primitive refuses `b` in the first round, yet the second
round sends another READDIRPLUS (at offset 1, after the one at offset 0), is
refused `b` again and leaves the loop where it was; so does every later round,
and neither the fill loop nor `ReadDirectory` has returned after any number of
rounds. -/
theorem C19_refusal_does_not_stop_fill :
    (∃ w1 w2,
      fillRound fullBufferEnv demoVirtFs demoDir.FileHandle World.initial 0 [] =
        .again w1 1 [entryA] ∧
      (fullBufferEnv.FspFileSystemFillDirectoryBuffer [entryA]
        (spec_dirInfo fullBufferEnv (demoEntry 0x62 20 2))).1 = false ∧
      fillRound fullBufferEnv demoVirtFs demoDir.FileHandle w1 1 [entryA] =
        .again w2 1 [entryA] ∧
      w2.log.filterMap Event.readdirplus? = [(demoDir.FileHandle, 0), (demoDir.FileHandle, 1)]) ∧
    (∀ w, fillRound fullBufferEnv demoVirtFs demoDir.FileHandle w 1 [entryA] =
      .again (roundWorld fullBufferEnv w demoVirtFs demoDir.FileHandle 1) 1 [entryA]) ∧
    (∀ fuel, fillLoop fullBufferEnv demoVirtFs demoDir.FileHandle fuel World.initial 0 []
      = none) ∧
    (∀ fuel, ReadDirectory fullBufferEnv fuel World.initial demoVirtFs demoDir none [] 0 0
      = none) := by
  have hloop : ∀ fuel, fillLoop fullBufferEnv demoVirtFs demoDir.FileHandle fuel World.initial
      0 [] = none := by
    intro fuel
    cases fuel with
    | zero => rfl
    | succ n => rw [fillLoop, fillRound_first]; exact fillLoop_stuck n _
  refine ⟨⟨_, _, fillRound_first, by decide, fillRound_stuck _, ?_⟩, fillRound_stuck, hloop, ?_⟩
  · rw [roundWorld_readdirplus, roundWorld_readdirplus]
    rfl
  · intro fuel
    have h := hloop fuel
    simp only [ReadDirectory, FspFileSystemAcquireDirectoryBuffer, demoDir] at h ⊢
    have hd : fullBufferEnv.DirectoryBufferAlloc = true := rfl
    simp only [hd, if_true, Option.getD_some]
    rw [h]

/-! ### C20: declared request lengths -/

/-- C20 at `Read` with `Length` 4096: the READ request is the 80 bytes of
`FUSE_READ_IN` (header and `fuse_read_in`, no trailing bytes), and that is
the size handed to the transport call, but `FUSE_HEADER_INIT` is given
`Length` for the payload size and the header declares 4136 bytes.  The
READDIRPLUS request of `ReadDirectory`, which has the same layout, declares
80. -/
theorem C20_read_declares_wrong_length :
    (Read (scriptedEnv [readReply 16 []]) World.initial demoVirtFs demoFile none 0 4096
      (some 0)).map (fun r => sentLengths r.world) = .ok [(FUSE_READ, 4136, 80)] ∧
    sizeof_fuse_in_header + sizeof_fuse_read_in = 80 ∧
    (roundRequest (scriptedEnv []) World.initial demoDir.FileHandle 0).hdr.len = 80 ∧
    (ReadDirectory (scriptedEnv []) 1 World.initial demoVirtFs demoDir none [] 0 0).map
      (fun x => x.map fun r => sentLengths r.world) = some (.ok [(FUSE_READDIRPLUS, 80, 80)]) := by
  decide

/-! ### C23: the SETATTR records of SetBasicInfo and SetFileSize -/

/-- The GETATTR exchange adds no SETATTR record. -/
theorem fetchFileInfo_sentSetattrs (env : Env) (w : World) (Device : Nat)
    (FileContext : VIRTFS_FILE_CONTEXT) (FileInfo : FSP_FSCTL_FILE_INFO) :
    sentSetattrs (fetchFileInfo env w Device FileContext FileInfo).world = sentSetattrs w := by
  simp only [fetchFileInfo_eq, getattrExchange, FUSE_HEADER_INIT_eq, VirtFsFuseRequest_eq]
  simp [sentSetattrs, World.requests, World.emit, List.filterMap_append, Event.sent?]

/-- The one SETATTR record `setattrAndFetch` sends is the one it is given. -/
theorem setattrAndFetch_sentSetattrs (env : Env) (w : World) (VirtFs : VIRTFS)
    (FileContext : VIRTFS_FILE_CONTEXT) (s : fuse_setattr_in) (FileInfo : FSP_FSCTL_FILE_INFO) :
    sentSetattrs (setattrAndFetch env w VirtFs FileContext s FileInfo).world
      = sentSetattrs w ++ [s] := by
  simp only [setattrAndFetch, FUSE_HEADER_INIT_eq, VirtFsFuseRequest_eq]
  split_ifs
  · simp [sentSetattrs, World.requests, World.emit, List.filterMap_append, Event.sent?]
  · rw [fetchFileInfo_sentSetattrs]
    simp [sentSetattrs, World.requests, World.emit, List.filterMap_append, Event.sent?]

/-- C23: the valid mask of the SETATTR record of `SetBasicInfo` is
`FATTR_FH`, `FATTR_ATIME` iff `LastAccessTime` is non-zero, `FATTR_MTIME` iff
`LastWriteTime` is non-zero, `FATTR_CTIME` iff `ChangeTime` is non-zero, and
its `fh` is the context's handle; the record of `SetFileSize` is all zeros
but for `valid = FATTR_SIZE` and `size = NewSize`.  But a field of the
`SetBasicInfo` record that is not marked valid need not be zero: with only
`LastAccessTime` given (1.00005 s after the origin of the conversion), the
16 bytes stored at `&setattr.atime` put the seconds in `atime` and the
nanoseconds, 500, in `mtime`, while the mask is `FATTR_FH | FATTR_ATIME`. -/
theorem C23_setattr_records :
    (∀ (env : Env) (w : World) (VirtFs : VIRTFS) (FileContext : VIRTFS_FILE_CONTEXT)
        (FileAttributes CreationTime LastAccessTime LastWriteTime ChangeTime : Nat)
        (FileInfo : FSP_FSCTL_FILE_INFO),
      ∃ s, sentSetattrs (SetBasicInfo env w VirtFs FileContext FileAttributes CreationTime
          LastAccessTime LastWriteTime ChangeTime FileInfo).world = sentSetattrs w ++ [s] ∧
        s.valid = FATTR_FH ||| (if LastAccessTime ≠ 0 then FATTR_ATIME else 0)
          ||| (if LastWriteTime ≠ 0 then FATTR_MTIME else 0)
          ||| (if ChangeTime ≠ 0 then FATTR_CTIME else 0) ∧
        s.fh = FileContext.FileHandle) ∧
    (∀ (env : Env) (w : World) (VirtFs : VIRTFS) (FileContext : VIRTFS_FILE_CONTEXT)
        (NewSize : Nat) (SetAllocationSize : Bool) (FileInfo : FSP_FSCTL_FILE_INFO),
      sentSetattrs (SetFileSize env w VirtFs FileContext NewSize SetAllocationSize
          FileInfo).world =
        sentSetattrs w ++ [{ zero_setattr with valid := FATTR_SIZE, size := NewSize }]) ∧
    sentSetattrs (SetBasicInfo (scriptedEnv []) World.initial demoVirtFs demoFile 0 0 10000005
        0 0 zeroFileInfo).world =
      [{ zero_setattr with valid := FATTR_FH ||| FATTR_ATIME, fh := 3, atime := 1
                           mtime := 500 }] := by
  refine ⟨?_, ?_, by decide⟩
  · intro env w VirtFs FileContext FileAttributes CreationTime LastAccessTime LastWriteTime
      ChangeTime FileInfo
    refine ⟨_, setattrAndFetch_sentSetattrs _ _ _ _ _ _, ?_, ?_⟩
    · simp only [SetBasicInfo_setattr]
      split_ifs <;> simp
    · simp only [SetBasicInfo_setattr]
      split_ifs <;> rfl
  · intro env w VirtFs FileContext NewSize SetAllocationSize FileInfo
    exact setattrAndFetch_sentSetattrs _ _ _ _ _ _

/-! ### C24: the handle of the trailing fetch -/

/-- C24 at `SetFileSize` and `SetBasicInfo` on a volume whose device handle
is 7 and whose `FSP_FILE_SYSTEM` pointer is 99: the SETATTR goes to handle 7
and, after it succeeds, the trailing GETATTR is sent with 99 for the handle;
`Flush` and `Write` send theirs on handle 7.  When the mutating request
fails, none of the four sends a GETATTR. -/
theorem C24_trailing_fetch_handle :
    sentHandles (SetFileSize (scriptedEnv []) World.initial demoVirtFs demoFile 64 false
      zeroFileInfo).world = [(7, FUSE_SETATTR), (99, FUSE_GETATTR)] ∧
    sentHandles (SetBasicInfo (scriptedEnv []) World.initial demoVirtFs demoFile 0 0 10000005
      0 0 zeroFileInfo).world = [(7, FUSE_SETATTR), (99, FUSE_GETATTR)] ∧
    sentHandles (Flush (scriptedEnv []) World.initial demoVirtFs demoFile zeroFileInfo).world
      = [(7, FUSE_FLUSH), (7, FUSE_GETATTR)] ∧
    sentHandles (Write (scriptedEnv []) World.initial demoVirtFs demoFile (some [1, 2]) 0 2
      false false (some 0) zeroFileInfo).world = [(7, FUSE_WRITE), (7, FUSE_GETATTR)] ∧
    sentHandles (SetFileSize (scriptedEnv [errorReply (-5)]) World.initial demoVirtFs demoFile
      64 false zeroFileInfo).world = [(7, FUSE_SETATTR)] ∧
    sentHandles (SetBasicInfo (scriptedEnv [errorReply (-5)]) World.initial demoVirtFs demoFile
      0 0 10000005 0 0 zeroFileInfo).world = [(7, FUSE_SETATTR)] ∧
    sentHandles (Flush (scriptedEnv [errorReply (-5)]) World.initial demoVirtFs demoFile
      zeroFileInfo).world = [(7, FUSE_FLUSH)] ∧
    sentHandles (Write (scriptedEnv [errorReply (-5)]) World.initial demoVirtFs demoFile
      (some [1, 2]) 0 2 false false (some 0) zeroFileInfo).world = [(7, FUSE_WRITE)] := by
  decide

/-! ### C25: times and fixed fields of SetFileInfo -/

/-- C25: for every wire attribute record `SetFileInfo` stores a `ChangeTime`
equal to `LastWriteTime`, a `FileSize` equal to the record's `size`, and zero
in `ReparseTag`, `HardLinks`, `EaSize` and `IndexNumber`; each time is the
conversion of the two 64-bit words found at the record's `ctime`, `atime`
and `mtime`.  The second word of the access time is the record's `mtime`
(and that of the write time its `ctime`): two records with the same access
time 1600000000 and different `mtime` get different `LastAccessTime`. -/
theorem C25_file_times :
    (∀ (env : Env) (attr : fuse_attr) (FileInfo : FSP_FSCTL_FILE_INFO),
      (SetFileInfo env attr FileInfo).ChangeTime = (SetFileInfo env attr FileInfo).LastWriteTime ∧
      (SetFileInfo env attr FileInfo).FileSize = attr.size ∧
      (SetFileInfo env attr FileInfo).ReparseTag = 0 ∧
      (SetFileInfo env attr FileInfo).HardLinks = 0 ∧
      (SetFileInfo env attr FileInfo).EaSize = 0 ∧
      (SetFileInfo env attr FileInfo).IndexNumber = 0 ∧
      (SetFileInfo env attr FileInfo).CreationTime =
        env.FspPosixUnixTimeToFileTime attr.ctime (attr.atimensec + 2 ^ 32 * attr.mtimensec) ∧
      (SetFileInfo env attr FileInfo).LastAccessTime =
        env.FspPosixUnixTimeToFileTime attr.atime attr.mtime ∧
      (SetFileInfo env attr FileInfo).LastWriteTime =
        env.FspPosixUnixTimeToFileTime attr.mtime attr.ctime) ∧
    (SetFileInfo (scriptedEnv []) { zeroAttr with atime := 1600000000 }
      zeroFileInfo).LastAccessTime = 16000000000000000 ∧
    (SetFileInfo (scriptedEnv []) { zeroAttr with atime := 1600000000, mtime := 1600000000 }
      zeroFileInfo).LastAccessTime = 16000000016000000 := by
  refine ⟨fun env attr FileInfo => ⟨rfl, rfl, rfl, rfl, rfl, rfl, rfl, rfl, rfl⟩, by decide,
    by decide⟩

/-! ### C26: the two directory classifications -/

/-- C26 at the mode of a block device (`S_IFBLK | 0660`):
`PosixUnixModeToAttributes` classifies it as not a directory, while `Open`
stores a set directory flag in the context it publishes; `Close` on that
context then sends RELEASEDIR and `Cleanup` with the delete flag sends
RMDIR. -/
theorem C26_directory_flag_disagrees :
    PosixUnixModeToAttributes blockDeviceMode = FILE_ATTRIBUTE_NORMAL ∧
    (Open (scriptedEnv [entryReply blockDeviceMode, entryReply 0]) World.initial demoVirtFs
      demoPath FILE_READ_DATA none zeroFileInfo).PFileContext =
      some { DirBuffer := none, IsDirectory := true, NodeId := 5, FileHandle := 9 } ∧
    sentHandles (Open (scriptedEnv [entryReply blockDeviceMode, entryReply 0]) World.initial
      demoVirtFs demoPath FILE_READ_DATA none zeroFileInfo).world =
      [(7, FUSE_LOOKUP), (7, FUSE_OPENDIR)] ∧
    sentHandles (Close (scriptedEnv []) World.initial demoVirtFs
      { DirBuffer := none, IsDirectory := true, NodeId := 5, FileHandle := 9 }) =
      [(7, FUSE_RELEASEDIR)] ∧
    sentHandles (Cleanup (scriptedEnv []) World.initial demoVirtFs
      { DirBuffer := none, IsDirectory := true, NodeId := 5, FileHandle := 9 }
      (some demoPath) FspCleanupDelete) = [(7, FUSE_RMDIR)] := by
  decide

/-! ### C27: the time fields of SetBasicInfo -/

/-- C27: the `ctime` of the SETATTR record of `SetBasicInfo`, when
`ChangeTime` is non-zero, is the conversion of `CreationTime`, whatever the
value of `ChangeTime`; `atime` is the conversion of `LastAccessTime` and
`mtime` that of `LastWriteTime` when those are non-zero.  Two calls that
differ only in `CreationTime` (3 s and 5 s, with `ChangeTime` 7 s) send
`ctime` 3 and 5. -/
theorem C27_change_time_field :
    (∀ (env : Env) (fh CreationTime LastAccessTime LastWriteTime ChangeTime : Nat),
      (SetBasicInfo_setattr env fh CreationTime LastAccessTime LastWriteTime ChangeTime).ctime =
        (if ChangeTime ≠ 0 then (env.FspPosixFileTimeToUnixTime CreationTime).1
         else if LastWriteTime ≠ 0 then (env.FspPosixFileTimeToUnixTime LastWriteTime).2
         else 0) ∧
      (SetBasicInfo_setattr env fh CreationTime LastAccessTime LastWriteTime ChangeTime).atime =
        (if LastAccessTime ≠ 0 then (env.FspPosixFileTimeToUnixTime LastAccessTime).1 else 0) ∧
      (SetBasicInfo_setattr env fh CreationTime LastAccessTime LastWriteTime ChangeTime).mtime =
        (if LastWriteTime ≠ 0 then (env.FspPosixFileTimeToUnixTime LastWriteTime).1
         else if LastAccessTime ≠ 0 then (env.FspPosixFileTimeToUnixTime LastAccessTime).2
         else 0)) ∧
    sentSetattrs (SetBasicInfo (scriptedEnv []) World.initial demoVirtFs demoFile 0 30000000
        0 0 70000000 zeroFileInfo).world =
      [{ zero_setattr with valid := FATTR_FH ||| FATTR_CTIME, fh := 3, ctime := 3 }] ∧
    sentSetattrs (SetBasicInfo (scriptedEnv []) World.initial demoVirtFs demoFile 0 50000000
        0 0 70000000 zeroFileInfo).world =
      [{ zero_setattr with valid := FATTR_FH ||| FATTR_CTIME, fh := 3, ctime := 5 }] := by
  refine ⟨?_, by decide, by decide⟩
  intro env fh CreationTime LastAccessTime LastWriteTime ChangeTime
  simp only [SetBasicInfo_setattr]
  refine ⟨?_, ?_, ?_⟩ <;> split_ifs <;> rfl

/-! ### C28: bytes transferred against the requested length -/

/-- C28 at `Read` with `Length` 4 and a successful response that declares a
total length of 24 and holds 4 payload bytes: `Read` reports 8 bytes
transferred, and with a caller buffer the copy of 8 bytes leaves the response
block; at a successful response that declares a total length of 8 it reports
4294967288 bytes. -/
theorem C28_read_exceeds_length :
    (Read (scriptedEnv [readReply 24 [1, 2, 3, 4]]) World.initial demoVirtFs demoFile none 0 4
      (some 0)).map (fun r => r.PBytesTransferred) = .ok (some 8) ∧
    Read (scriptedEnv [readReply 24 [1, 2, 3, 4]]) World.initial demoVirtFs demoFile
      (some [0, 0, 0, 0, 0, 0, 0, 0]) 0 4 (some 0) = .error .out_of_bounds ∧
    (Read (scriptedEnv [readReply 8 []]) World.initial demoVirtFs demoFile none 0 4
      (some 0)).map (fun r => r.PBytesTransferred) = .ok (some 4294967288) := by
  decide

/-! ### C21, C22: credentials and unique ids -/

/-- `Stamps` composes. -/
theorem Stamps.trans {P : Request → Prop} {a b c : World} (h1 : Stamps P a b)
    (h2 : Stamps P b c) : Stamps P a c := by
  induction h2 with
  | refl => exact h1
  | event e _ he ih => exact Stamps.event e ih he
  | request d r _ hP hu ih => exact Stamps.request d r ih hP hu

/-- `Stamps` is monotone in the property of the requests. -/
theorem Stamps.mono {P Q : Request → Prop} {a b : World} (h : Stamps P a b)
    (hPQ : ∀ r, P r → Q r) : Stamps Q a b := by
  induction h with
  | refl => exact Stamps.refl _
  | event e _ he ih => exact Stamps.event e ih he
  | request d r _ hP hu ih => exact Stamps.request d r ih (hPQ r hP) hu

/-- What `Stamps` says of the requests added and of the counter. -/
theorem Stamps.added {P : Request → Prop} {w w1 : World} (h : Stamps P w w1) :
    ∃ added : List (Nat × Request),
      w1.requests = w.requests ++ added ∧
      (∀ p ∈ added, P p.2) ∧
      w1.uniq % 2 ^ 64 = (w.uniq + added.length) % 2 ^ 64 ∧
      ∀ i (hi : i < added.length),
        (added.get ⟨i, hi⟩).2.hdr.unique = (w.uniq + i + 1) % 2 ^ 64 := by
  induction h with
  | refl => exact ⟨[], by simp, by simp, by simp, by simp⟩
  | @event w1 e _ he ih =>
    obtain ⟨added, h1, h2, h3, h4⟩ := ih
    refine ⟨added, ?_, h2, h3, h4⟩
    rw [← h1]
    cases e <;> simp_all [World.requests, World.emit, List.filterMap_append, Event.sent?]
  | @request w1 d r _ hP hu ih =>
    obtain ⟨added, h1, h2, h3, h4⟩ := ih
    refine ⟨added ++ [(d, r)], ?_, ?_, ?_, ?_⟩
    · have : (World.emit ⟨(w1.uniq + 1) % 2 ^ 64, w1.log⟩ (.request d r)).requests
          = w1.requests ++ [(d, r)] := by
        simp [World.requests, World.emit, List.filterMap_append, Event.sent?]
      rw [this, h1, List.append_assoc]
    · intro p hp
      rcases List.mem_append.mp hp with hp | hp
      · exact h2 p hp
      · rw [List.mem_singleton.mp hp]; exact hP
    · simp only [World.emit, List.length_append, List.length_singleton]
      omega
    · intro i hi
      simp only [List.length_append, List.length_singleton] at hi
      by_cases hlt : i < added.length
      · rw [List.get_eq_getElem, List.getElem_append_left hlt]
        exact h4 i hlt
      · have hieq : i = added.length := by omega
        subst hieq
        simp only [List.get_eq_getElem, List.getElem_concat_length]
        rw [hu]
        omega

/-- A request with zero credentials whose opcode is neither CREATE nor MKDIR
carries the credentials it is to carry. -/
theorem credsOK_zero (VirtFs : VIRTFS) (r : Request) (hu : r.hdr.uid = 0) (hg : r.hdr.gid = 0)
    (h1 : r.hdr.opcode ≠ FUSE_CREATE) (h2 : r.hdr.opcode ≠ FUSE_MKDIR) : credsOK VirtFs r := by
  unfold credsOK
  rw [if_neg (by simp [h1, h2])]
  exact ⟨hu, hg⟩

/-- The requests `GetFileInfoInternal` sends are stamped with successive unique ids and
carry the credentials they are to carry. -/
theorem GetFileInfoInternal_stamps (env : Env) (w : World) (VirtFs : VIRTFS)
    (Device nodeid fh : Nat)
    (FileInfo : Option FSP_FSCTL_FILE_INFO) (SecurityDescriptor : Option (List Nat)) :
    Stamps (credsOK VirtFs) w
      (GetFileInfoInternal env w Device nodeid fh FileInfo SecurityDescriptor).world := by
  simp only [GetFileInfoInternal, FUSE_HEADER_INIT_eq, VirtFsFuseRequest_eq]
  split_ifs <;> (try split) <;>
    exact Stamps.request _ _ (Stamps.refl _)
      (by simp [credsOK]) rfl

/-- The requests `VirtFsLookupFileName` sends are stamped with successive unique ids and
carry the credentials they are to carry. -/
theorem VirtFsLookupFileName_stamps (env : Env) (w : World) (VirtFs : VIRTFS) (Device : Nat)
    (FileName : List Nat) (LookupOut : Reply) :
    Stamps (credsOK VirtFs) w
      (VirtFsLookupFileName env w Device FileName LookupOut).2.2 := by
  simp only [VirtFsLookupFileName, FUSE_HEADER_INIT_eq, VirtFsFuseRequest_eq]
  split_ifs <;> first
    | exact Stamps.event _ (Stamps.refl _) rfl
    | exact Stamps.event _ (Stamps.request _ _ (Stamps.refl _) (by simp [credsOK]) rfl) rfl

/-- The requests `VirtFsCreateFile` sends are stamped with successive unique ids and
carry the credentials they are to carry. -/
theorem VirtFsCreateFile_stamps (env : Env) (w : World) (VirtFs : VIRTFS)
    (FileContext : VIRTFS_FILE_CONTEXT) (GrantedAccess : Nat) (FileName : List Nat)
    (Mode : Nat) (FileInfo : FSP_FSCTL_FILE_INFO) :
    Stamps (credsOK VirtFs) w
      (VirtFsCreateFile env w VirtFs FileContext GrantedAccess FileName Mode FileInfo).world := by
  simp only [VirtFsCreateFile, FUSE_HEADER_INIT_eq, VirtFsFuseRequest_eq]
  split_ifs <;>
    exact Stamps.request _ _ (Stamps.refl _) (by simp [credsOK]) rfl

/-- The requests `VirtFsCreateDir` sends are stamped with successive unique ids and
carry the credentials they are to carry. -/
theorem VirtFsCreateDir_stamps (env : Env) (w : World) (VirtFs : VIRTFS)
    (FileContext : VIRTFS_FILE_CONTEXT) (FileName : List Nat)
    (Mode : Nat) (FileInfo : FSP_FSCTL_FILE_INFO) :
    Stamps (credsOK VirtFs) w
      (VirtFsCreateDir env w VirtFs FileContext FileName Mode FileInfo).world := by
  simp only [VirtFsCreateDir, FUSE_HEADER_INIT_eq, VirtFsFuseRequest_eq]
  split_ifs <;>
    exact Stamps.request _ _ (Stamps.refl _) (by simp [credsOK]) rfl

/-- The requests `fetchFileInfo` sends are stamped with successive unique ids and
carry the credentials they are to carry. -/
theorem fetchFileInfo_stamps (env : Env) (w : World) (VirtFs : VIRTFS) (Device : Nat)
    (FileContext : VIRTFS_FILE_CONTEXT) (FileInfo : FSP_FSCTL_FILE_INFO) :
    Stamps (credsOK VirtFs) w (fetchFileInfo env w Device FileContext FileInfo).world :=
  GetFileInfoInternal_stamps env w VirtFs Device _ _ _ _

/-- The requests `Create` sends are stamped with successive unique ids and
carry the credentials they are to carry. -/
theorem Create_stamps (env : Env) (w : World) (VirtFs : VIRTFS) (FileName : List Nat)
    (CreateOptions GrantedAccess : Nat) (SecurityDescriptor : Option (List Nat))
    (PFileContext : Option VIRTFS_FILE_CONTEXT) (FileInfo : FSP_FSCTL_FILE_INFO) :
    Stamps (credsOK VirtFs) w (Create env w VirtFs FileName CreateOptions GrantedAccess
      SecurityDescriptor PFileContext FileInfo).world := by
  unfold Create
  generalize env.FspPosixMapWindowsToPosixPath (FileName.drop 1) = p
  obtain ⟨Status, filename⟩ := p
  dsimp only
  have h0 : Stamps (credsOK VirtFs) w
      (w.emit (.HeapAlloc .FileContext sizeof_VIRTFS_FILE_CONTEXT (env.HeapAlloc w.allocs))) :=
    Stamps.event _ (Stamps.refl _) rfl
  split_ifs
  · exact Stamps.event _ (Stamps.refl _) rfl
  · exact Stamps.event _ h0 rfl
  · exact Stamps.event _ (Stamps.event _ (h0.trans (VirtFsCreateDir_stamps _ _ _ _ _ _ _)) rfl) rfl
  · exact Stamps.event _ (h0.trans (VirtFsCreateDir_stamps _ _ _ _ _ _ _)) rfl
  · exact Stamps.event _ (Stamps.event _ (h0.trans (VirtFsCreateFile_stamps _ _ _ _ _ _ _ _)) rfl) rfl
  · exact Stamps.event _ (h0.trans (VirtFsCreateFile_stamps _ _ _ _ _ _ _ _)) rfl

/-- The requests `Open` sends are stamped with successive unique ids and
carry the credentials they are to carry. -/
theorem Open_stamps (env : Env) (w : World) (VirtFs : VIRTFS) (FileName : List Nat)
    (GrantedAccess : Nat) (PFileContext : Option VIRTFS_FILE_CONTEXT)
    (FileInfo : FSP_FSCTL_FILE_INFO) :
    Stamps (credsOK VirtFs) w
      (Open env w VirtFs FileName GrantedAccess PFileContext FileInfo).world := by
  have h0 : Stamps (credsOK VirtFs) w
      (w.emit (.HeapAlloc .FileContext sizeof_VIRTFS_FILE_CONTEXT (env.HeapAlloc w.allocs))) :=
    Stamps.event _ (Stamps.refl _) rfl
  have hL := h0.trans (VirtFsLookupFileName_stamps env
    (w.emit (.HeapAlloc .FileContext sizeof_VIRTFS_FILE_CONTEXT (env.HeapAlloc w.allocs)))
    VirtFs VirtFs.Device FileName env.Uninitialized)
  simp only [Open, FUSE_HEADER_INIT_eq, VirtFsFuseRequest_eq]
  generalize VirtFsLookupFileName env
    (w.emit (.HeapAlloc .FileContext sizeof_VIRTFS_FILE_CONTEXT (env.HeapAlloc w.allocs)))
    VirtFs.Device FileName env.Uninitialized = L at hL ⊢
  obtain ⟨Status, lookup_out, w2⟩ := L
  split_ifs
  · exact h0
  · exact Stamps.event _ hL rfl
  · exact Stamps.event _ (Stamps.request _ _ hL (by simp [credsOK]) rfl) rfl
  · exact Stamps.request _ _ hL (by simp [credsOK]) rfl
  · exact Stamps.event _ (Stamps.request _ _ hL (by simp [credsOK]) rfl) rfl
  · exact Stamps.request _ _ hL (by simp [credsOK]) rfl

/-- The requests `Overwrite` sends are stamped with successive unique ids and
carry the credentials they are to carry. -/
theorem Overwrite_stamps (env : Env) (w : World) (VirtFs : VIRTFS)
    (FileContext : VIRTFS_FILE_CONTEXT) (a : Nat) (Replace : Bool) (s : Nat)
    (FileInfo : FSP_FSCTL_FILE_INFO) :
    Stamps (credsOK VirtFs) w (Overwrite env w VirtFs FileContext a Replace s FileInfo).world := by
  unfold Overwrite
  dsimp only
  split_ifs
  · exact fetchFileInfo_stamps _ _ _ _ _ _
  · exact (fetchFileInfo_stamps _ _ _ _ _ _).trans (fetchFileInfo_stamps _ _ _ _ _ _)
  · exact fetchFileInfo_stamps _ _ _ _ _ _

/-- The requests `VirtFsDeleteFile` sends are stamped with successive unique ids and
carry the credentials they are to carry. -/
theorem VirtFsDeleteFile_stamps (env : Env) (w : World) (VirtFs : VIRTFS)
    (FileContext : VIRTFS_FILE_CONTEXT) (FileName : List Nat) :
    Stamps (credsOK VirtFs) w (VirtFsDeleteFile env w VirtFs FileContext FileName) := by
  simp only [VirtFsDeleteFile, FUSE_HEADER_INIT_eq, VirtFsFuseRequest_eq]
  exact Stamps.request _ _ (Stamps.refl _) (by simp [credsOK]; split_ifs <;> simp) rfl

/-- The requests `Cleanup` sends are stamped with successive unique ids and
carry the credentials they are to carry. -/
theorem Cleanup_stamps (env : Env) (w : World) (VirtFs : VIRTFS)
    (FileContext : VIRTFS_FILE_CONTEXT) (FileName : Option (List Nat)) (Flags : Nat) :
    Stamps (credsOK VirtFs) w (Cleanup env w VirtFs FileContext FileName Flags) := by
  unfold Cleanup
  cases FileName with
  | none => exact Stamps.refl _
  | some f =>
    dsimp only
    split_ifs
    · exact Stamps.event _ (Stamps.refl _) rfl
    · exact Stamps.event _ (VirtFsDeleteFile_stamps _ _ _ _ _) rfl
    · exact Stamps.event _ (Stamps.refl _) rfl

/-- The requests `Close` sends are stamped with successive unique ids and
carry the credentials they are to carry. -/
theorem Close_stamps (env : Env) (w : World) (VirtFs : VIRTFS)
    (FileContext : VIRTFS_FILE_CONTEXT) :
    Stamps (credsOK VirtFs) w (Close env w VirtFs FileContext) := by
  simp only [Close, FUSE_HEADER_INIT_eq, VirtFsFuseRequest_eq]
  exact Stamps.event _ (Stamps.event _ (Stamps.request _ _ (Stamps.refl _)
    (by simp [credsOK]; split_ifs <;> simp) rfl) rfl) rfl

/-- The requests `Read` sends are stamped with successive unique ids and
carry the credentials they are to carry. -/
theorem Read_stamps (env : Env) (w : World) (VirtFs : VIRTFS) (FileContext : VIRTFS_FILE_CONTEXT)
    (Buffer : Option (List Nat)) (Offset Length : Nat) (PBytesTransferred : Option Nat)
    (r : ReadOut)
    (h : Read env w VirtFs FileContext Buffer Offset Length PBytesTransferred = .ok r) :
    Stamps (credsOK VirtFs) w r.world := by
  have h0 : ∀ b, Stamps (credsOK VirtFs) w
      (w.emit (.HeapAlloc .read_out (sizeof_FUSE_READ_OUT + Length) b)) :=
    fun b => Stamps.event _ (Stamps.refl _) rfl
  simp only [Read, FUSE_HEADER_INIT_eq, VirtFsFuseRequest_eq] at h
  split_ifs at h
  all_goals first
    | (cases h; exact h0 _)
    | (cases h
       exact Stamps.event _ (Stamps.request _ _ (h0 _) (by simp [credsOK]) rfl) rfl)
    | (split at h
       all_goals first
         | (cases h
            exact Stamps.event _ (Stamps.request _ _ (h0 _) (by simp [credsOK]) rfl) rfl)
         | (split at h
            all_goals first
              | (cases h
                 exact Stamps.event _ (Stamps.request _ _ (h0 _) (by simp [credsOK]) rfl) rfl)
              | (split_ifs at h
                 cases h
                 exact Stamps.event _ (Stamps.request _ _ (h0 _) (by simp [credsOK]) rfl)
                   rfl)))

/-- The requests `Write_send` sends are stamped with successive unique ids and
carry the credentials they are to carry. -/
theorem Write_send_stamps (env : Env) (w : World) (VirtFs : VIRTFS)
    (FileContext : VIRTFS_FILE_CONTEXT) (Buffer : Option (List Nat)) (Offset Length : Nat)
    (PBytesTransferred : Option Nat) (FileInfo : FSP_FSCTL_FILE_INFO) :
    Stamps (credsOK VirtFs) w (Write_send env w VirtFs FileContext Buffer Offset Length
      PBytesTransferred FileInfo).world := by
  have h0 : ∀ b, Stamps (credsOK VirtFs) w
      (w.emit (.HeapAlloc .write_in (sizeof_FUSE_WRITE_IN + Length) b)) :=
    fun b => Stamps.event _ (Stamps.refl _) rfl
  simp only [Write_send, FUSE_HEADER_INIT_eq, VirtFsFuseRequest_eq]
  split_ifs
  · exact h0 _
  · exact Stamps.event _ (Stamps.request _ _ (h0 _) (by simp [credsOK]) rfl) rfl
  · refine Stamps.trans ?_ (GetFileInfoInternal_stamps _ _ _ _ _ _ _ _)
    exact Stamps.event _ (Stamps.request _ _ (h0 _) (by simp [credsOK]) rfl) rfl

/-- The requests `Write` sends are stamped with successive unique ids and
carry the credentials they are to carry. -/
theorem Write_stamps (env : Env) (w : World) (VirtFs : VIRTFS)
    (FileContext : VIRTFS_FILE_CONTEXT) (Buffer : Option (List Nat)) (Offset Length : Nat)
    (eof ConstrainedIo : Bool) (PBytesTransferred : Option Nat) (FileInfo : FSP_FSCTL_FILE_INFO) :
    Stamps (credsOK VirtFs) w (Write env w VirtFs FileContext Buffer Offset Length eof
      ConstrainedIo PBytesTransferred FileInfo).world := by
  unfold Write
  dsimp only
  split_ifs
  all_goals first
    | exact Write_send_stamps _ _ _ _ _ _ _ _ _
    | exact GetFileInfoInternal_stamps _ _ _ _ _ _ _ _
    | exact (GetFileInfoInternal_stamps _ _ _ _ _ _ _ _).trans
        (Write_send_stamps _ _ _ _ _ _ _ _ _)

/-- The requests `Flush` sends are stamped with successive unique ids and
carry the credentials they are to carry. -/
theorem Flush_stamps (env : Env) (w : World) (VirtFs : VIRTFS)
    (FileContext : VIRTFS_FILE_CONTEXT) (FileInfo : FSP_FSCTL_FILE_INFO) :
    Stamps (credsOK VirtFs) w (Flush env w VirtFs FileContext FileInfo).world := by
  simp only [Flush, FUSE_HEADER_INIT_eq, VirtFsFuseRequest_eq]
  split_ifs
  · exact Stamps.request _ _ (Stamps.refl _) (by simp [credsOK]) rfl
  · refine Stamps.trans ?_ (fetchFileInfo_stamps _ _ _ _ _ _)
    exact Stamps.request _ _ (Stamps.refl _) (by simp [credsOK]) rfl

/-- The requests `setattrAndFetch` sends are stamped with successive unique ids and
carry the credentials they are to carry. -/
theorem setattrAndFetch_stamps (env : Env) (w : World) (VirtFs : VIRTFS)
    (FileContext : VIRTFS_FILE_CONTEXT) (s : fuse_setattr_in) (FileInfo : FSP_FSCTL_FILE_INFO) :
    Stamps (credsOK VirtFs) w (setattrAndFetch env w VirtFs FileContext s FileInfo).world := by
  simp only [setattrAndFetch, FUSE_HEADER_INIT_eq, VirtFsFuseRequest_eq]
  split_ifs
  · exact Stamps.request _ _ (Stamps.refl _) (by simp [credsOK]) rfl
  · refine Stamps.trans ?_ (fetchFileInfo_stamps _ _ _ _ _ _)
    exact Stamps.request _ _ (Stamps.refl _) (by simp [credsOK]) rfl

/-- The requests `CanDelete` sends are stamped with successive unique ids and
carry the credentials they are to carry. -/
theorem CanDelete_stamps (env : Env) (w : World) (VirtFs : VIRTFS)
    (FileContext : VIRTFS_FILE_CONTEXT) :
    Stamps (credsOK VirtFs) w (CanDelete env w VirtFs FileContext).2 := by
  unfold CanDelete
  dsimp only
  split_ifs <;> exact fetchFileInfo_stamps _ _ _ _ _ _

/-- The requests `Rename` sends are stamped with successive unique ids and
carry the credentials they are to carry. -/
theorem Rename_stamps (env : Env) (w : World) (VirtFs : VIRTFS)
    (FileName NewFileName : List Nat) (ReplaceIfExists : Bool) :
    Stamps (credsOK VirtFs) w (Rename env w VirtFs FileName NewFileName ReplaceIfExists).2 := by
  have h0 : ∀ n b, Stamps (credsOK VirtFs) w (w.emit (.HeapAlloc .rename_in n b)) :=
    fun n b => Stamps.event _ (Stamps.refl _) rfl
  simp only [Rename, FUSE_HEADER_INIT_eq, VirtFsFuseRequest_eq]
  split_ifs <;> dsimp only
  · exact Stamps.event _ (Stamps.refl _) rfl
  · exact Stamps.event _ (Stamps.event _ (Stamps.refl _) rfl) rfl
  · exact Stamps.event _ (Stamps.event _ (h0 _ _) rfl) rfl
  · exact @Stamps.request _ w (((w.emit (.HeapAlloc .rename_in _ _)).emit
        .FspPosixDeletePath).emit .FspPosixDeletePath) _ _
      (Stamps.event _ (Stamps.event _ (h0 _ _) rfl) rfl) (by simp [credsOK]) rfl

/-- The requests `SetSecurity` sends are stamped with successive unique ids and
carry the credentials they are to carry. -/
theorem SetSecurity_stamps (env : Env) (w : World) (VirtFs : VIRTFS)
    (FileContext : VIRTFS_FILE_CONTEXT) (SecurityInformation : Nat)
    (ModificationDescriptor : List Nat) :
    Stamps (credsOK VirtFs) w
      (SetSecurity env w VirtFs FileContext SecurityInformation ModificationDescriptor).2 := by
  have hG := GetFileInfoInternal_stamps env w VirtFs VirtFs.FileSystem FileContext.NodeId
    FileContext.FileHandle none (some env.UninitializedDescriptor)
  simp only [SetSecurity, FUSE_HEADER_INIT_eq, VirtFsFuseRequest_eq]
  generalize GetFileInfoInternal env w VirtFs.FileSystem FileContext.NodeId
    FileContext.FileHandle none (some env.UninitializedDescriptor) = G at hG ⊢
  split_ifs <;> dsimp only
  · exact Stamps.event _ hG rfl
  · exact Stamps.event _ hG rfl
  · exact Stamps.event _ hG rfl
  · exact Stamps.event _ (Stamps.event _ hG rfl) rfl
  · exact Stamps.request _ _ (Stamps.event _ (Stamps.event _ hG rfl) rfl) (by simp [credsOK]) rfl
  · exact Stamps.event _ (Stamps.event _ hG rfl) rfl

/-- The requests `GetSecurity` sends are stamped with successive unique ids and
carry the credentials they are to carry. -/
theorem GetSecurity_stamps (env : Env) (w : World) (VirtFs : VIRTFS)
    (FileContext : VIRTFS_FILE_CONTEXT) (SecurityDescriptor : Option (List Nat))
    (PSecurityDescriptorSize : Nat) (r : GetSecurityOut)
    (h : GetSecurity env w VirtFs FileContext SecurityDescriptor PSecurityDescriptorSize
      = .ok r) :
    Stamps (credsOK VirtFs) w r.world := by
  have hG := GetFileInfoInternal_stamps env w VirtFs VirtFs.Device FileContext.NodeId
    FileContext.FileHandle none (some env.UninitializedDescriptor)
  simp only [GetSecurity] at h
  generalize GetFileInfoInternal env w VirtFs.Device FileContext.NodeId
    FileContext.FileHandle none (some env.UninitializedDescriptor) = G at hG h
  split_ifs at h
  · cases h; exact hG
  · cases h; exact Stamps.event _ hG rfl
  · cases SecurityDescriptor with
    | none => cases h; exact Stamps.event _ hG rfl
    | some sd =>
      dsimp only at h
      split_ifs at h
      cases h
      exact Stamps.event _ hG rfl

/-- The requests `GetSecurityByName` sends are stamped with successive unique ids and
carry the credentials they are to carry. -/
theorem GetSecurityByName_stamps (env : Env) (w : World) (VirtFs : VIRTFS)
    (FileName : List Nat) (PFileAttributes : Option Nat)
    (SecurityDescriptor : Option (List Nat)) (PSecurityDescriptorSize : Option Nat)
    (r : SecurityByNameOut)
    (h : GetSecurityByName env w VirtFs FileName PFileAttributes SecurityDescriptor
      PSecurityDescriptorSize = .ok r) :
    Stamps (credsOK VirtFs) w r.world := by
  have hL := VirtFsLookupFileName_stamps env w VirtFs VirtFs.Device FileName env.Uninitialized
  cases SecurityDescriptor <;>
  · simp only [GetSecurityByName] at h
    generalize VirtFsLookupFileName env w VirtFs.Device FileName env.Uninitialized = L at hL h
    obtain ⟨Status, lookup_out, w1⟩ := L
    split_ifs at h
    all_goals first
      | (cases h; done)
      | (cases h; exact Stamps.event _ hL rfl)
      | (cases h; exact hL)

/-- The requests `GetVolumeInfo` sends are stamped with successive unique ids and
carry the credentials they are to carry. -/
theorem GetVolumeInfo_stamps (env : Env) (w : World) (VirtFs : VIRTFS)
    (VolumeInfo : FSP_FSCTL_VOLUME_INFO) :
    Stamps (credsOK VirtFs) w (GetVolumeInfo env w VirtFs VolumeInfo).world := by
  simp only [GetVolumeInfo, FUSE_HEADER_INIT_eq, VirtFsFuseRequest_eq]
  split_ifs <;>
    exact Stamps.request _ _ (Stamps.event _ (Stamps.refl _) rfl) (by simp [credsOK]) rfl

/-- The requests `VirtFsDelete` sends are stamped with successive unique ids and
carry the credentials they are to carry. -/
theorem VirtFsDelete_stamps (P : Request → Prop) (w w1 : World) (VirtFs : VIRTFS)
    (h : Stamps P w w1) : Stamps P w (VirtFsDelete w1 VirtFs) := by
  unfold VirtFsDelete
  dsimp only
  split_ifs
  · exact Stamps.event _ (Stamps.event _ (Stamps.event _ h rfl) rfl) rfl
  · exact Stamps.event _ (Stamps.event _ h rfl) rfl
  · exact Stamps.event _ (Stamps.event _ h rfl) rfl
  · exact Stamps.event _ h rfl

/-- The requests `SvcStart` sends are stamped with successive unique ids and
carry the credentials they are to carry. -/
theorem SvcStart_stamps (env : Env) (w : World) (VirtFs : VIRTFS) :
    Stamps (credsOK VirtFs) w (SvcStart env w).world := by
  have h0 : ∀ b, Stamps (credsOK VirtFs) w (w.emit (.HeapAlloc .VirtFs sizeof_VIRTFS b)) :=
    fun b => Stamps.event _ (Stamps.refl _) rfl
  simp only [SvcStart, FUSE_HEADER_INIT_eq, VirtFsFuseRequest_eq]
  split_ifs <;> dsimp only
  all_goals first
    | exact h0 _
    | exact VirtFsDelete_stamps _ _ _ _ (h0 _)
    | exact VirtFsDelete_stamps _ _ _ _ (Stamps.request _ _ (h0 _) (by simp [credsOK]) rfl)
    | exact Stamps.request _ _ (h0 _) (by simp [credsOK]) rfl

/-- The requests `SvcStop` sends are stamped with successive unique ids and
carry the credentials they are to carry. -/
theorem SvcStop_stamps (P : Request → Prop) (w : World) (VirtFs : VIRTFS) :
    Stamps P w (SvcStop w VirtFs).2 :=
  VirtFsDelete_stamps _ _ _ _ (Stamps.event _ (Stamps.refl _) rfl)

/-- The requests `roundWorld` sends are stamped with successive unique ids and
carry the credentials they are to carry. -/
theorem roundWorld_stamps (env : Env) (w : World) (VirtFs : VIRTFS) (fh Offset : Nat) :
    Stamps (credsOK VirtFs) w (roundWorld env w VirtFs fh Offset) :=
  Stamps.request VirtFs.Device (roundRequest env w fh Offset) (Stamps.refl w)
    (by simp [credsOK, roundRequest, readdirplusRequest]) rfl

/-- The requests `fillRound` sends are stamped with successive unique ids and
carry the credentials they are to carry. -/
theorem fillRound_stamps (env : Env) (VirtFs : VIRTFS) (fh : Nat) (w : World) (Offset : Nat)
    (buf : List FSP_FSCTL_DIR_INFO) :
    (∀ r, fillRound env VirtFs fh w Offset buf = .exit (.ok r) →
      Stamps (credsOK VirtFs) w r.world) ∧
    (∀ w1 o b, fillRound env VirtFs fh w Offset buf = .again w1 o b →
      Stamps (credsOK VirtFs) w w1) := by
  rw [fillRound_eq env VirtFs fh w Offset buf _ rfl]
  constructor
  · intro r h
    split_ifs at h
    · cases h; exact roundWorld_stamps _ _ _ _ _
    · cases h; exact roundWorld_stamps _ _ _ _ _
    · split at h <;> cases h
  · intro w1 o b h
    split_ifs at h
    split at h
    · cases h
    · cases h; exact roundWorld_stamps _ _ _ _ _

/-- The requests `fillLoop` sends are stamped with successive unique ids and
carry the credentials they are to carry. -/
theorem fillLoop_stamps (env : Env) (VirtFs : VIRTFS) (fh : Nat) (fuel : Nat) :
    ∀ (w : World) (Offset : Nat) (buf : List FSP_FSCTL_DIR_INFO) (r : FillLoopOut),
      fillLoop env VirtFs fh fuel w Offset buf = some (.ok r) →
      Stamps (credsOK VirtFs) w r.world := by
  induction fuel with
  | zero => intro w Offset buf r h; simp [fillLoop] at h
  | succ n ih =>
    intro w Offset buf r h
    rw [fillLoop] at h
    have hr := fillRound_stamps env VirtFs fh w Offset buf
    cases hf : fillRound env VirtFs fh w Offset buf with
    | exit x =>
      rw [hf] at h
      simp only [Option.some.injEq] at h
      subst h
      exact hr.1 r hf
    | again w1 o b =>
      rw [hf] at h
      exact (hr.2 w1 o b hf).trans (ih w1 o b r h)

/-- The requests `ReadDirectory` sends are stamped with successive unique ids and
carry the credentials they are to carry. -/
theorem ReadDirectory_stamps (env : Env) (fuel : Nat) (w : World) (VirtFs : VIRTFS)
    (FileContext : VIRTFS_FILE_CONTEXT) (Marker : Option (List Nat)) (Buffer : List Nat)
    (BufferLength PBytesTransferred : Nat) (r : ReadDirectoryOut)
    (h : ReadDirectory env fuel w VirtFs FileContext Marker Buffer BufferLength
      PBytesTransferred = some (.ok r)) :
    Stamps (credsOK VirtFs) w r.world := by
  have hfin : ∀ st c m b l p w1, (ReadDirectory_finish env st c m b l p w1).world = w1 := by
    intro st c m b l p w1
    unfold ReadDirectory_finish
    split_ifs <;> rfl
  unfold ReadDirectory at h
  generalize FspFileSystemAcquireDirectoryBuffer env FileContext.DirBuffer
    (decide (Marker = none)) = A at h
  obtain ⟨Result, Status, DirBuffer⟩ := A
  dsimp only at h
  split_ifs at h
  · cases hl : fillLoop env VirtFs FileContext.FileHandle fuel w 0 (DirBuffer.getD []) with
    | none => rw [hl] at h; cases h
    | some x =>
      rw [hl] at h
      cases x with
      | error f => cases h
      | ok q =>
        simp only [Option.some.injEq, Except.ok.injEq] at h
        subst h
        rw [hfin]
        exact Stamps.event _ (fillLoop_stamps env VirtFs _ fuel w 0 _ q hl) rfl
  · simp only [Option.some.injEq, Except.ok.injEq] at h
    subst h
    rw [hfin]
    exact Stamps.refl _

/-- What a `Stamps` step means for the credentials. -/
theorem Stamps.addsWithCreds {VirtFs : VIRTFS} {w w1 : World}
    (h : Stamps (credsOK VirtFs) w w1) : AddsWithCreds VirtFs w w1 := by
  obtain ⟨added, h1, h2, _, _⟩ := h.added
  exact ⟨added, h1, h2⟩

/-- Every world of a run is reached from the initial world by stamped
requests and other effects. -/
theorem Run.stamps {env : Env} {w : World} (h : Run env w) :
    Stamps (fun _ => True) World.initial w := by
  have m : ∀ {V : VIRTFS} {a b : World}, Stamps (credsOK V) a b → Stamps (fun _ => True) a b :=
    fun hs => hs.mono (fun _ _ => trivial)
  induction h with
  | start => exact Stamps.refl _
  | svcStart _ ih => exact ih.trans (m (SvcStart_stamps _ _ ⟨0, 0, 0, 0⟩))
  | svcStop V _ ih => exact ih.trans (SvcStop_stamps _ _ V)
  | getVolumeInfo V vi _ ih => exact ih.trans (m (GetVolumeInfo_stamps _ _ V vi))
  | setVolumeLabel _ ih => exact ih
  | getSecurityByName V f a sd sz r _ hr ih =>
    exact ih.trans (m (GetSecurityByName_stamps _ _ V f a sd sz r hr))
  | create V f co ga sd pc fi _ ih => exact ih.trans (m (Create_stamps _ _ V f co ga sd pc fi))
  | open_ V f ga pc fi _ ih => exact ih.trans (m (Open_stamps _ _ V f ga pc fi))
  | overwrite V c a rp s fi _ ih => exact ih.trans (m (Overwrite_stamps _ _ V c a rp s fi))
  | cleanup V c f fl _ ih => exact ih.trans (m (Cleanup_stamps _ _ V c f fl))
  | close V c _ ih => exact ih.trans (m (Close_stamps _ _ V c))
  | read V c b o l p r _ hr ih => exact ih.trans (m (Read_stamps _ _ V c b o l p r hr))
  | write V c b o l e ci p fi _ ih => exact ih.trans (m (Write_stamps _ _ V c b o l e ci p fi))
  | flush V c fi _ ih => exact ih.trans (m (Flush_stamps _ _ V c fi))
  | getFileInfo V c fi _ ih => exact ih.trans (m (fetchFileInfo_stamps _ _ V V.Device c fi))
  | setBasicInfo V c a ct la lw ch fi _ ih =>
    exact ih.trans (m (setattrAndFetch_stamps _ _ V c _ fi))
  | setFileSize V c n sa fi _ ih => exact ih.trans (m (setattrAndFetch_stamps _ _ V c _ fi))
  | canDelete V c _ ih => exact ih.trans (m (CanDelete_stamps _ _ V c))
  | rename V f n rp _ ih => exact ih.trans (m (Rename_stamps _ _ V f n rp))
  | getSecurity V c sd sz r _ hr ih => exact ih.trans (m (GetSecurity_stamps _ _ V c sd sz r hr))
  | setSecurity V c si md _ ih => exact ih.trans (m (SetSecurity_stamps _ _ V c si md))
  | readDirectory fuel V c mk b bl p r _ hr ih =>
    exact ih.trans (m (ReadDirectory_stamps _ fuel _ V c mk b bl p r hr))

/-- The counter stays in the 64-bit range. -/
theorem Stamps.uniq_lt {P : Request → Prop} {w w1 : World} (h : Stamps P w w1)
    (hw : w.uniq < 2 ^ 64) : w1.uniq < 2 ^ 64 := by
  induction h with
  | refl => exact hw
  | event e _ _ ih => exact ih
  | request d r _ _ _ _ => exact Nat.mod_lt _ (by decide)

/-- C22: in every world a sequential run reaches after fewer than 2^64 - 1
requests, the unique ids of the requests sent so far are 2, 3, 4, ... in the
order the requests were sent, each the previous plus one and the first above
the initial counter value 1; so they are strictly increasing, no id is used
twice, and the counter holds the last id. -/
theorem C22_unique_ids (env : Env) (w : World) (h : Run env w)
    (hn : w.requests.length + 1 < 2 ^ 64) :
    uniqueIds w = List.range' 2 w.requests.length ∧
    (uniqueIds w).Pairwise (fun a b => a < b) ∧
    (uniqueIds w).Nodup ∧
    w.uniq = w.requests.length + 1 := by
  obtain ⟨added, h1, _, h3, h4⟩ := h.stamps.added
  have hreq : w.requests = added := by simpa [World.initial, World.requests] using h1
  have hids : uniqueIds w = List.range' 2 w.requests.length := by
    unfold uniqueIds
    rw [hreq]
    rw [hreq] at hn
    apply List.ext_getElem
    · simp
    · intro i hi1 hi2
      simp only [List.getElem_map, List.getElem_range']
      have hi : i < added.length := by simpa using hi1
      have := h4 i hi
      rw [List.get_eq_getElem] at this
      rw [this]
      simp only [World.initial]
      omega
  have huniq : w.uniq = w.requests.length + 1 := by
    have hlt := h.stamps.uniq_lt (by decide)
    rw [hreq]
    rw [hreq] at hn
    simp only [World.initial] at h3
    omega
  refine ⟨hids, ?_, ?_, huniq⟩
  · rw [hids]; exact List.pairwise_lt_range' _ _
  · rw [hids]; exact List.nodup_range' _ _

/-- C22, on a concrete run: `GetFileInfo`, then `Flush`, then `Close` from
the initial world send requests with the unique ids 2, 3, 4, 5. -/
theorem C22_witness :
    uniqueIds (Close (scriptedEnv []) (Flush (scriptedEnv [])
      (GetFileInfo (scriptedEnv []) World.initial demoVirtFs demoFile zeroFileInfo).world
      demoVirtFs demoFile zeroFileInfo).world demoVirtFs demoFile) = [2, 3, 4, 5] :=
  (C22_unique_ids (scriptedEnv []) _
    (Run.close demoVirtFs demoFile (Run.flush demoVirtFs demoFile zeroFileInfo
      (Run.getFileInfo demoVirtFs demoFile zeroFileInfo Run.start)))
    (by decide)).1.trans (by decide)

/-- C21: `FUSE_HEADER_INIT` stores 0 in `uid` and `gid`; and the requests
that `SvcStart` and each callback add to the trace carry the cached
`OwnerUid` and `OwnerGid` of the volume state the call is given when their
opcode is CREATE or MKDIR, and `uid = gid = 0` for every other opcode.  For
the calls that can fault (`Read`, `GetSecurity`, `GetSecurityByName`) or not
return (`ReadDirectory`) this is said of the calls that return. -/
theorem C21_credentials (env : Env) (w : World) (VirtFs : VIRTFS) :
    (∀ opcode nodeid datalen,
      (FUSE_HEADER_INIT env w opcode nodeid datalen).1.uid = 0 ∧
      (FUSE_HEADER_INIT env w opcode nodeid datalen).1.gid = 0) ∧
    (∀ FileContext Buffer Offset Length PBytesTransferred r,
      Read env w VirtFs FileContext Buffer Offset Length PBytesTransferred = .ok r →
      AddsWithCreds VirtFs w r.world) ∧
    (∀ FileContext SecurityDescriptor PSecurityDescriptorSize r,
      GetSecurity env w VirtFs FileContext SecurityDescriptor PSecurityDescriptorSize = .ok r →
      AddsWithCreds VirtFs w r.world) ∧
    (∀ FileName PFileAttributes SecurityDescriptor PSecurityDescriptorSize r,
      GetSecurityByName env w VirtFs FileName PFileAttributes SecurityDescriptor
        PSecurityDescriptorSize = .ok r →
      AddsWithCreds VirtFs w r.world) ∧
    (∀ fuel FileContext Marker Buffer BufferLength PBytesTransferred r,
      ReadDirectory env fuel w VirtFs FileContext Marker Buffer BufferLength
        PBytesTransferred = some (.ok r) →
      AddsWithCreds VirtFs w r.world) ∧
    AddsWithCreds VirtFs w (SvcStart env w).world ∧
    (∀ VolumeInfo, AddsWithCreds VirtFs w (GetVolumeInfo env w VirtFs VolumeInfo).world) ∧
    (∀ FileName CreateOptions GrantedAccess SecurityDescriptor PFileContext FileInfo,
      AddsWithCreds VirtFs w (Create env w VirtFs FileName CreateOptions GrantedAccess
        SecurityDescriptor PFileContext FileInfo).world) ∧
    (∀ FileName GrantedAccess PFileContext FileInfo,
      AddsWithCreds VirtFs w
        (Open env w VirtFs FileName GrantedAccess PFileContext FileInfo).world) ∧
    (∀ FileContext FileAttributes ReplaceFileAttributes AllocationSize FileInfo,
      AddsWithCreds VirtFs w (Overwrite env w VirtFs FileContext FileAttributes
        ReplaceFileAttributes AllocationSize FileInfo).world) ∧
    (∀ FileContext FileName Flags,
      AddsWithCreds VirtFs w (Cleanup env w VirtFs FileContext FileName Flags)) ∧
    (∀ FileContext, AddsWithCreds VirtFs w (Close env w VirtFs FileContext)) ∧
    (∀ FileContext Buffer Offset Length WriteToEndOfFile ConstrainedIo PBytesTransferred
        FileInfo,
      AddsWithCreds VirtFs w (Write env w VirtFs FileContext Buffer Offset Length
        WriteToEndOfFile ConstrainedIo PBytesTransferred FileInfo).world) ∧
    (∀ FileContext FileInfo,
      AddsWithCreds VirtFs w (Flush env w VirtFs FileContext FileInfo).world) ∧
    (∀ FileContext FileInfo,
      AddsWithCreds VirtFs w (GetFileInfo env w VirtFs FileContext FileInfo).world) ∧
    (∀ FileContext FileAttributes CreationTime LastAccessTime LastWriteTime ChangeTime
        FileInfo,
      AddsWithCreds VirtFs w (SetBasicInfo env w VirtFs FileContext FileAttributes
        CreationTime LastAccessTime LastWriteTime ChangeTime FileInfo).world) ∧
    (∀ FileContext NewSize SetAllocationSize FileInfo,
      AddsWithCreds VirtFs w
        (SetFileSize env w VirtFs FileContext NewSize SetAllocationSize FileInfo).world) ∧
    (∀ FileContext, AddsWithCreds VirtFs w (CanDelete env w VirtFs FileContext).2) ∧
    (∀ FileName NewFileName ReplaceIfExists,
      AddsWithCreds VirtFs w
        (Rename env w VirtFs FileName NewFileName ReplaceIfExists).2) ∧
    (∀ FileContext SecurityInformation ModificationDescriptor,
      AddsWithCreds VirtFs w (SetSecurity env w VirtFs FileContext SecurityInformation
        ModificationDescriptor).2) := by
  refine ⟨fun _ _ _ => ⟨rfl, rfl⟩, ?_, ?_, ?_, ?_, ?_, ?_, ?_, ?_, ?_, ?_, ?_, ?_, ?_, ?_, ?_,
    ?_, ?_, ?_, ?_⟩
  · intro c b o l p r h; exact (Read_stamps env w VirtFs c b o l p r h).addsWithCreds
  · intro c sd sz r h; exact (GetSecurity_stamps env w VirtFs c sd sz r h).addsWithCreds
  · intro f a sd sz r h
    exact (GetSecurityByName_stamps env w VirtFs f a sd sz r h).addsWithCreds
  · intro fuel c m b bl p r h
    exact (ReadDirectory_stamps env fuel w VirtFs c m b bl p r h).addsWithCreds
  · exact (SvcStart_stamps env w VirtFs).addsWithCreds
  · intro vi; exact (GetVolumeInfo_stamps env w VirtFs vi).addsWithCreds
  · intro f co ga sd pc fi; exact (Create_stamps env w VirtFs f co ga sd pc fi).addsWithCreds
  · intro f ga pc fi; exact (Open_stamps env w VirtFs f ga pc fi).addsWithCreds
  · intro c a rp s fi; exact (Overwrite_stamps env w VirtFs c a rp s fi).addsWithCreds
  · intro c f fl; exact (Cleanup_stamps env w VirtFs c f fl).addsWithCreds
  · intro c; exact (Close_stamps env w VirtFs c).addsWithCreds
  · intro c b o l e ci p fi; exact (Write_stamps env w VirtFs c b o l e ci p fi).addsWithCreds
  · intro c fi; exact (Flush_stamps env w VirtFs c fi).addsWithCreds
  · intro c fi; exact (fetchFileInfo_stamps env w VirtFs VirtFs.Device c fi).addsWithCreds
  · intro c a ct la lw ch fi; exact (setattrAndFetch_stamps env w VirtFs c _ fi).addsWithCreds
  · intro c n sa fi; exact (setattrAndFetch_stamps env w VirtFs c _ fi).addsWithCreds
  · intro c; exact (CanDelete_stamps env w VirtFs c).addsWithCreds
  · intro f n rp; exact (Rename_stamps env w VirtFs f n rp).addsWithCreds
  · intro c si md; exact (SetSecurity_stamps env w VirtFs c si md).addsWithCreds

/-- C21, on concrete runs: `Create` of a file and of a directory on a volume
whose cached owner is 1000:1000 send CREATE and MKDIR with 1000:1000, and a
`Read` that returns sends READ with 0:0. -/
theorem C21_witness :
    sentCredentials (Create (scriptedEnv [entryReply 0x81A4]) World.initial demoVirtFs demoPath
      0 FILE_WRITE_DATA none none zeroFileInfo).world = [(FUSE_CREATE, 1000, 1000)] ∧
    sentCredentials (Create (scriptedEnv [entryReply 0x41ED]) World.initial demoVirtFs demoPath
      FILE_DIRECTORY_FILE 0 none none zeroFileInfo).world = [(FUSE_MKDIR, 1000, 1000)] ∧
    ∃ r, Read (scriptedEnv [readReply 19 [1, 2, 3, 0]]) World.initial demoVirtFs demoFile
        (some [9, 9, 9, 9, 9]) 0 4 (some 77) = .ok r ∧
      sentCredentials r.world = [(FUSE_READ, 0, 0)] ∧
      AddsWithCreds demoVirtFs World.initial r.world :=
  ⟨by decide, by decide, _, rfl, by decide,
    (C21_credentials (scriptedEnv [readReply 19 [1, 2, 3, 0]]) World.initial demoVirtFs).2.1
      demoFile (some [9, 9, 9, 9, 9]) 0 4 (some 77) _ rfl⟩

end VirtFs
